import Mathlib

/-! My3DScene: texture loading, input handling and mouse look.

A shallow embedding of `My3DScene.cpp`.  C `int` values are integers reduced to the
two's-complement 32-bit range after every arithmetic operation, the image buffer is a
list of bytes whose accesses are bounds-checked (an out-of-range access yields `none`),
and calls into OpenGL, GLFW and the camera are recorded in an effect trace.
-/

namespace My3DScene

/-! ## C integers -/

/-- Largest value of a C `int`. -/
def INT_MAX : Int := 2147483647

/-- Reduction of an integer to the 32-bit two's-complement range of a C `int`. -/
def wrapInt (x : Int) : Int := (x + 2147483648) % 4294967296 - 2147483648

/-- An `unsigned char`. -/
abbrev Byte := Fin 256

/-! ## flipImageVertically -/

/-- Body of the inner loop of `flipImageVertically`:
`tmp = image[index1]; image[index1] = image[index2]; image[index2] = tmp;`.
The result is `none` when either index lies outside the buffer. -/
def swapBytes (image : List Byte) (index1 index2 : Int) : Option (List Byte) :=
  if index1 < 0 ∨ index2 < 0 then none
  else
    match image[index1.toNat]?, image[index2.toNat]? with
    | some tmp, some b2 => some ((image.set index1.toNat b2).set index2.toNat tmp)
    | _, _ => none

/-- Inner loop `for (int i = width * channels; i > 0; --i)` with `i` iterations left:
swap, then `++index1; ++index2`. -/
def flipRowLoop : Nat → List Byte → Int → Int → Option (List Byte)
  | 0, image, _, _ => some image
  | i + 1, image, index1, index2 =>
    match swapBytes image index1 index2 with
    | none => none
    | some image1 => flipRowLoop i image1 (wrapInt (index1 + 1)) (wrapInt (index2 + 1))

/-- Outer loop `for (int j = 0; j < height / 2; ++j)` with `n` iterations left,
the loop counter being `j`. -/
def flipOuterLoop : Nat → List Byte → Int → Int → Int → Int → Option (List Byte)
  | 0, image, _, _, _, _ => some image
  | n + 1, image, j, width, height, channels =>
    let index1 := wrapInt (wrapInt (j * width) * channels)
    let index2 := wrapInt (wrapInt (wrapInt (wrapInt (height - 1) - j) * width) * channels)
    match flipRowLoop (wrapInt (width * channels)).toNat image index1 index2 with
    | none => none
    | some image1 => flipOuterLoop n image1 (wrapInt (j + 1)) width height channels

/-- The function `flipImageVertically(image, width, height, channels)`; the loop runs
while `j < height / 2`, that is `height / 2` times when that is positive. -/
def flipImageVertically (image : List Byte) (width height channels : Int) :
    Option (List Byte) :=
  flipOuterLoop (Int.tdiv height 2).toNat image 0 width height channels

/-! ## IEEE-754 binary floating point

A finite `float` is an integer multiple of `2 ^ -149` and a finite `double` an integer
multiple of `2 ^ -1074`; both are kept as that integer.  Results are rounded to nearest,
ties to even, and overflow to an infinity.  The sign of zero is not tracked. -/

/-- Nearest integer to `a / 2 ^ sh`, ties to even. -/
def roundShift (sh a : Nat) : Nat :=
  let q := a / 2 ^ sh
  let r := a % 2 ^ sh
  if 2 * r < 2 ^ sh then q
  else if 2 ^ sh < 2 * r then q + 1
  else if q % 2 = 0 then q else q + 1

/-- One step of the binary search of `bitLength`: strip `k` low bits when more remain. -/
def bitLengthStep (s : Nat × Nat) (k : Nat) : Nat × Nat :=
  if 2 ^ k ≤ s.1 then (s.1 / 2 ^ k, s.2 + k) else s

/-- Number of binary digits of `a`, for `a < 2 ^ 4096`. -/
def bitLength (a : Nat) : Nat :=
  let s := [2048, 1024, 512, 256, 128, 64, 32, 16, 8, 4, 2, 1].foldl bitLengthStep (a, 0)
  if s.1 = 0 then s.2 else s.2 + 1

/-- Round `a / 2 ^ g` to the nearest integer with at most `p` significant bits,
ties to even (`a < 2 ^ 4096`). -/
def roundNat (p g a : Nat) : Nat :=
  let sh := max (bitLength a - p) g
  roundShift sh a * 2 ^ (sh - g)

/-- A C `float`: `finite n` is the number `n * 2 ^ -149`. -/
inductive F32 where
  | finite (n : Int)
  | inf (negative : Bool)
  | nan
  deriving DecidableEq

/-- A C `double`: `finite n` is the number `n * 2 ^ -1074`. -/
inductive F64 where
  | finite (n : Int)
  | inf (negative : Bool)
  | nan
  deriving DecidableEq

/-- Rounding of the exact value `x * 2 ^ -149` to a `float`. -/
def F32.round (x : Int) : F32 :=
  if 2 ^ 277 ≤ x.natAbs then .inf (decide (x < 0))
  else
    let r := roundNat 24 0 x.natAbs
    if 2 ^ 277 ≤ r then .inf (decide (x < 0))
    else .finite (if x < 0 then -(r : Int) else (r : Int))

/-- Rounding of the exact value `x * 2 ^ -1074` to a `double`. -/
def F64.round (x : Int) : F64 :=
  if 2 ^ 2098 ≤ x.natAbs then .inf (decide (x < 0))
  else
    let r := roundNat 53 0 x.natAbs
    if 2 ^ 2098 ≤ r then .inf (decide (x < 0))
    else .finite (if x < 0 then -(r : Int) else (r : Int))

/-- Negation of a `float`. -/
def F32.neg : F32 → F32
  | .finite a => .finite (-a)
  | .inf s => .inf (!s)
  | .nan => .nan

/-- Addition of two `float`s. -/
def F32.add : F32 → F32 → F32
  | .finite a, .finite b => F32.round (a + b)
  | .nan, _ => .nan
  | _, .nan => .nan
  | .inf s, .inf t => if s = t then .inf s else .nan
  | .inf s, .finite _ => .inf s
  | .finite _, .inf t => .inf t

/-- Subtraction of two `float`s. -/
def F32.sub (a b : F32) : F32 := F32.add a (F32.neg b)

/-- Negation of a `double`. -/
def F64.neg : F64 → F64
  | .finite a => .finite (-a)
  | .inf s => .inf (!s)
  | .nan => .nan

/-- Addition of two `double`s. -/
def F64.add : F64 → F64 → F64
  | .finite a, .finite b => F64.round (a + b)
  | .nan, _ => .nan
  | _, .nan => .nan
  | .inf s, .inf t => if s = t then .inf s else .nan
  | .inf s, .finite _ => .inf s
  | .finite _, .inf t => .inf t

/-- Subtraction of two `double`s. -/
def F64.sub (a b : F64) : F64 := F64.add a (F64.neg b)

/-- Conversion `double → float` (as in `gLastX = xpos`). -/
def F64.toF32 : F64 → F32
  | .finite n =>
    if 2 ^ 1202 ≤ n.natAbs then .inf (decide (n < 0))
    else
      let r := roundNat 24 925 n.natAbs
      if 2 ^ 277 ≤ r then .inf (decide (n < 0))
      else .finite (if n < 0 then -(r : Int) else (r : Int))
  | .inf s => .inf s
  | .nan => .nan

/-- Conversion `float → double`, which is exact. -/
def F32.toF64 : F32 → F64
  | .finite n => .finite (n * 2 ^ 925)
  | .inf s => .inf s
  | .nan => .nan

/-- The `float` `m * 2 ^ -e` (for `e ≤ 149`). -/
def F32.ofScaled (m : Int) (e : Nat) : F32 := .finite (m * 2 ^ (149 - e))

/-- The `double` `m * 2 ^ -e` (for `e ≤ 1074`). -/
def F64.ofScaled (m : Int) (e : Nat) : F64 := .finite (m * 2 ^ (1074 - e))

/-- A finite `double` that is exactly representable as a `float`. -/
def F64.IsF32 (x : F64) : Prop := ∃ n, x.toF32 = F32.finite n ∧ (F32.finite n).toF64 = x

/-- The literal `0.1f`, that is `13421773 * 2 ^ -27`. -/
def F32.tenth : F32 := F32.ofScaled 13421773 27

/-- The literal `5.0f`. -/
def F32.five : F32 := F32.ofScaled 5 0

/-- The value `0.0f`. -/
def F32.zero : F32 := .finite 0

/-- The value `1.0f`. -/
def F32.one : F32 := F32.ofScaled 1 0

/-- Rounding of the exact value `x * 2 ^ -298`, the product of two `float`s, to a `float`. -/
def F32.roundProduct (x : Int) : F32 :=
  if 2 ^ 426 ≤ x.natAbs then .inf (decide (x < 0))
  else
    let r := roundNat 24 149 x.natAbs
    if 2 ^ 277 ≤ r then .inf (decide (x < 0))
    else .finite (if x < 0 then -(r : Int) else (r : Int))

/-- Multiplication of two `float`s. -/
def F32.mul : F32 → F32 → F32
  | .finite a, .finite b => F32.roundProduct (a * b)
  | .nan, _ => .nan
  | _, .nan => .nan
  | .inf s, .inf t => .inf (s != t)
  | .inf s, .finite b => if b = 0 then .nan else .inf (s != decide (b < 0))
  | .finite a, .inf t => if a = 0 then .nan else .inf (decide (a < 0) != t)

/-- The `float` literal with the decimal digits `digits` and `places` digits after the
point (`0.35f` is `F32.ofDecimal 35 2`): the `float` nearest to `digits / 10 ^ places`. -/
def F32.ofDecimal (digits : Int) (places : Nat) : F32 :=
  let a := digits.natAbs * 2 ^ 213
  let q := a / 10 ^ places
  let sticky := if a % 10 ^ places = 0 then 0 else 1
  let r := roundNat 24 65 (2 * q + sticky)
  .finite (if digits < 0 then -(r : Int) else (r : Int))

/-- The rational number a finite `float` stands for (0 for an infinity or a NaN). -/
def F32.toRat : F32 → ℚ
  | .finite n => (n : ℚ) / 2 ^ 149
  | _ => 0

/-! ## Linear algebra (GLM)

The GLM types and functions `URender` uses, with GLM's column-major layout and its order
of operations. -/

/-- The type `glm::vec3`. -/
structure Vec3 where
  x : F32
  y : F32
  z : F32
  deriving DecidableEq

/-- The type `glm::vec4`. -/
structure Vec4 where
  x : F32
  y : F32
  z : F32
  w : F32
  deriving DecidableEq

/-- The type `glm::mat4`, by columns. -/
structure Mat4 where
  c0 : Vec4
  c1 : Vec4
  c2 : Vec4
  c3 : Vec4
  deriving DecidableEq

/-- The constructor `glm::vec3(s)` with a single scalar. -/
def Vec3.splat (s : F32) : Vec3 := ⟨s, s, s⟩

/-- The product `vec4 * float`, by component. -/
def Vec4.scale (v : Vec4) (s : F32) : Vec4 := ⟨v.x.mul s, v.y.mul s, v.z.mul s, v.w.mul s⟩

/-- The sum `vec4 + vec4`, by component. -/
def Vec4.add (a b : Vec4) : Vec4 := ⟨a.x.add b.x, a.y.add b.y, a.z.add b.z, a.w.add b.w⟩

/-- The matrix `glm::mat4(1.0f)`. -/
def Mat4.identity : Mat4 :=
  ⟨⟨F32.one, F32.zero, F32.zero, F32.zero⟩, ⟨F32.zero, F32.one, F32.zero, F32.zero⟩,
   ⟨F32.zero, F32.zero, F32.one, F32.zero⟩, ⟨F32.zero, F32.zero, F32.zero, F32.one⟩⟩

/-- The function `glm::translate(v)`: `Result[3] = m[0] * v[0] + m[1] * v[1] + m[2] * v[2] + m[3]`
on the identity `m`. -/
def glm.translate (v : Vec3) : Mat4 :=
  let m := Mat4.identity
  { m with c3 := (((m.c0.scale v.x).add (m.c1.scale v.y)).add (m.c2.scale v.z)).add m.c3 }

/-- The function `glm::scale(v)`: `Result[i] = m[i] * v[i]` for the first three columns of the
identity `m`. -/
def glm.scale (v : Vec3) : Mat4 :=
  let m := Mat4.identity
  ⟨m.c0.scale v.x, m.c1.scale v.y, m.c2.scale v.z, m.c3⟩

/-- One column of `mat4 * mat4`:
`SrcA0 * SrcB[0] + SrcA1 * SrcB[1] + SrcA2 * SrcB[2] + SrcA3 * SrcB[3]`. -/
def Mat4.mulColumn (a : Mat4) (b : Vec4) : Vec4 :=
  (((a.c0.scale b.x).add (a.c1.scale b.y)).add (a.c2.scale b.z)).add (a.c3.scale b.w)

/-- The product `mat4 * mat4`. -/
def Mat4.mul (a b : Mat4) : Mat4 :=
  ⟨a.mulColumn b.c0, a.mulColumn b.c1, a.mulColumn b.c2, a.mulColumn b.c3⟩

/-- The expression `glm::translate(position) * glm::scale(scale)` of `URender`. -/
def modelMatrix (position scale : Vec3) : Mat4 :=
  (glm.translate position).mul (glm.scale scale)

/-- Line 65: `glm::vec3 gPyramidPosition(0.0f, 0.0f, 0.0f)`. -/
def gPyramidPosition : Vec3 := ⟨F32.zero, F32.zero, F32.zero⟩

/-- Line 66: `glm::vec3 gPyramidScale(2.0f)`. -/
def gPyramidScale : Vec3 := Vec3.splat (F32.ofDecimal 20 1)

/-- Line 67: `glm::vec3 gPlanePosition(0.0f, 0.0f, 0.0f)`. -/
def gPlanePosition : Vec3 := ⟨F32.zero, F32.zero, F32.zero⟩

/-- Line 68: `glm::vec3 gPlaneScale(5.0f)`. -/
def gPlaneScale : Vec3 := Vec3.splat (F32.ofDecimal 50 1)

/-- Line 72: `glm::vec3 gObjectColor(1.f, 0.2f, 0.0f)`. -/
def gObjectColor : Vec3 := ⟨F32.ofDecimal 1 0, F32.ofDecimal 2 1, F32.ofDecimal 0 1⟩

/-- Line 73: `glm::vec3 gLightColor(1.0f, 1.0f, 1.0f)`. -/
def gLightColor : Vec3 := ⟨F32.ofDecimal 10 1, F32.ofDecimal 10 1, F32.ofDecimal 10 1⟩

/-- Line 76: `glm::vec3 gLightPosition(1.5f, 7.5f, 4.0f)`. -/
def gLightPosition : Vec3 := ⟨F32.ofDecimal 15 1, F32.ofDecimal 75 1, F32.ofDecimal 40 1⟩

/-- Line 77: `glm::vec3 gLightScale(0.3f)`. -/
def gLightScale : Vec3 := Vec3.splat (F32.ofDecimal 3 1)

/-! ## OpenGL, GLFW and camera calls -/

/-- The OpenGL enumerants the program passes, as distinct symbols. -/
inductive GLenum where
  | GL_TEXTURE_2D
  | GL_TEXTURE_WRAP_S
  | GL_TEXTURE_WRAP_T
  | GL_TEXTURE_MIN_FILTER
  | GL_TEXTURE_MAG_FILTER
  | GL_TEXTURE_BORDER_COLOR
  | GL_REPEAT
  | GL_MIRRORED_REPEAT
  | GL_CLAMP_TO_EDGE
  | GL_CLAMP_TO_BORDER
  | GL_LINEAR
  | GL_RGB
  | GL_RGBA
  | GL_RGB8
  | GL_RGBA8
  | GL_UNSIGNED_BYTE
  | GL_PROJECTION
  | GL_MODELVIEW
  | GL_DEPTH_TEST
  | GL_COLOR_BUFFER_BIT
  | GL_DEPTH_BUFFER_BIT
  | GL_TEXTURE0
  | GL_TRIANGLES
  | GL_VERTEX_SHADER
  | GL_FRAGMENT_SHADER
  | GL_ARRAY_BUFFER
  | GL_STATIC_DRAW
  | GL_FLOAT
  deriving DecidableEq

/-- The keys polled by `UProcessInput` (`GLFW_KEY_*`). -/
inductive Key where
  | ESCAPE | W | S | A | D | Q | E
  | KEY_1 | KEY_2 | KEY_3 | KEY_4
  | RIGHT_BRACKET | LEFT_BRACKET | P
  deriving DecidableEq, Fintype

/-- The directions of `Camera::ProcessKeyboard`. -/
inductive CameraMovement where
  | FORWARD | BACKWARD | LEFT | RIGHT | UP | DOWN
  deriving DecidableEq

/-- The uniform names the program looks up with `glGetUniformLocation`. -/
inductive UniformName where
  | model | view | projection
  | objectColor | lightColor | lightPos | viewPosition
  | uvScale | uTexture | uTexture1
  deriving DecidableEq

/-- The value of `glGetUniformLocation(program, name)`: the location of the uniform `name`
of the program object `program`. -/
structure UniformLocation where
  program : Nat
  name : UniformName
  deriving DecidableEq

/-- Line 28: `const int WINDOW_WIDTH = 800`. -/
def WINDOW_WIDTH : Int := 800

/-- Line 29: `const int WINDOW_HEIGHT = 600`. -/
def WINDOW_HEIGHT : Int := 600

/-- A matrix passed to `glUniformMatrix4fv`: a matrix computed on the host, or
`glm::perspective(glm::radians(zoom), (GLfloat)width / (GLfloat)height, zNear, zFar)`,
kept as an expression in its arguments. -/
inductive Mat4Value where
  | matrix (m : Mat4)
  | perspective (zoom : F32) (width height : Int) (zNear zFar : F32)
  deriving DecidableEq

/-- The shader source strings of lines 103-286. -/
inductive ShaderSource where
  | planeVertexShaderSource | planeFragmentShaderSource
  | pyramidVertexShaderSource | pyramidFragmentShaderSource
  | lampVertexShaderSource | lampFragmentShaderSource
  deriving DecidableEq

/-- A call the program makes into OpenGL, GLFW, stb_image or the camera, with its
arguments.  Texture objects are named by natural numbers; `glGenTextures` carries the
name it returns, and so do the other calls that create an object.  Queries
(`glGetUniformLocation`, `glGetShaderiv`, ...) and console output are not recorded.
`glDeleteTextures` is listed although no function of the program issues it. -/
inductive Effect where
  | glGenTextures (name : Nat)
  | glBindTexture (target : GLenum) (texture : Nat)
  | glTexParameteri (target pname param : GLenum)
  | glTexParameterfv (target pname : GLenum) (params : List F32)
  | glTexImage2D (target : GLenum) (level : Int) (internalformat : GLenum)
      (width height border : Int) (format type : GLenum) (pixels : List Byte)
  | glGenerateMipmap (target : GLenum)
  | stbi_image_free
  | glMatrixMode (mode : GLenum)
  | glLoadIdentity
  | glOrtho
  | gluPerspective
  | glfwSetWindowShouldClose (value : Bool)
  | cameraProcessKeyboard (direction : CameraMovement) (deltaTime : F32)
  | cameraProcessMouseMovement (xoffset yoffset : F32)
  | glDeleteTextures (texture : Nat)
  | glEnable (cap : GLenum)
  | glClearColor (red green blue alpha : F32)
  | glClear (mask : List GLenum)
  | glBindVertexArray (array : Nat)
  | glUseProgram (program : Nat)
  | glUniformMatrix4fv (location : UniformLocation) (value : Mat4Value)
  | glUniform3f (location : UniformLocation) (v0 v1 v2 : F32)
  | glUniform2fv (location : UniformLocation) (value : F32 × F32)
  | glUniform1i (location : UniformLocation) (v0 : Int)
  | glActiveTexture (texture : GLenum)
  | glDrawArrays (mode : GLenum) (first : Int) (count : Nat)
  | glfwSwapBuffers
  | glCreateProgram (program : Nat)
  | glCreateShader (type : GLenum) (shader : Nat)
  | glShaderSource (shader : Nat) (source : ShaderSource)
  | glCompileShader (shader : Nat)
  | glAttachShader (program shader : Nat)
  | glLinkProgram (program : Nat)
  | glDeleteProgram (program : Nat)
  | glGenVertexArrays (array : Nat)
  | glGenBuffers (buffer : Nat)
  | glBindBuffer (target : GLenum) (buffer : Nat)
  | glBufferData (target : GLenum) (size : Nat) (data : List F32) (usage : GLenum)
  | glVertexAttribPointer (index size : Nat) (type : GLenum) (normalized : Bool)
      (stride offset : Nat)
  | glEnableVertexAttribArray (index : Nat)
  | glDeleteVertexArrays (array : Nat)
  | glDeleteBuffers (buffer : Nat)
  deriving DecidableEq

/-- The mutable globals of the unnamed namespace that texture creation, input handling
and the mouse callback read or write. -/
structure Globals where
  gTextureIdPink : Nat
  gTextureIdGranite : Nat
  gUVScale : F32 × F32
  gTexWrapMode : GLenum
  gLastX : F32
  gLastY : F32
  gFirstMouse : Bool
  gDeltaTime : F32
  gIsViewOrthographic : Bool
  deriving DecidableEq

/-! ## UCreateTexture -/

/-- What `stbi_load` hands back for a file it could decode. -/
structure StbImage where
  width : Int
  height : Int
  channels : Int
  pixels : List Byte
  deriving DecidableEq

/-- Outcome of `UCreateTexture`: the returned `bool`, the value left in the
by-reference `textureId`, and the calls issued. -/
structure TextureResult where
  success : Bool
  textureId : Nat
  trace : List Effect
  deriving DecidableEq

/-- The calls of `UCreateTexture` between the flip and the channel test (lines 976-984). -/
def textureSetup (name : Nat) : List Effect :=
  [ .glGenTextures name,
    .glBindTexture .GL_TEXTURE_2D name,
    .glTexParameteri .GL_TEXTURE_2D .GL_TEXTURE_WRAP_S .GL_REPEAT,
    .glTexParameteri .GL_TEXTURE_2D .GL_TEXTURE_WRAP_T .GL_REPEAT,
    .glTexParameteri .GL_TEXTURE_2D .GL_TEXTURE_MIN_FILTER .GL_LINEAR,
    .glTexParameteri .GL_TEXTURE_2D .GL_TEXTURE_MAG_FILTER .GL_LINEAR ]

/-- The calls of `UCreateTexture` after a successful upload (lines 996-1000). -/
def textureFinish : List Effect :=
  [ .glGenerateMipmap .GL_TEXTURE_2D,
    .stbi_image_free,
    .glBindTexture .GL_TEXTURE_2D 0,
    .glBindTexture .GL_TEXTURE_2D 1 ]

/-- The function `UCreateTexture(filename, textureId)`: `loaded` is the result of `stbi_load`
(`none` for a null pointer), `textureId` the incoming value of the reference
parameter and `name` the name `glGenTextures` returns.  The result is `none` when
`flipImageVertically` leaves the buffer. -/
def UCreateTexture (loaded : Option StbImage) (textureId name : Nat) :
    Option TextureResult :=
  match loaded with
  | some img =>
    match flipImageVertically img.pixels img.width img.height img.channels with
    | none => none
    | some image =>
      if img.channels = 3 then
        some ⟨true, name, textureSetup name ++
          [.glTexImage2D .GL_TEXTURE_2D 0 .GL_RGB8 img.width img.height 0 .GL_RGB
            .GL_UNSIGNED_BYTE image] ++ textureFinish⟩
      else if img.channels = 4 then
        some ⟨true, name, textureSetup name ++
          [.glTexImage2D .GL_TEXTURE_2D 0 .GL_RGBA8 img.width img.height 0 .GL_RGBA
            .GL_UNSIGNED_BYTE image] ++ textureFinish⟩
      else
        some ⟨false, name, textureSetup name⟩
  | none => some ⟨false, textureId, []⟩

/-! ## UProcessInput -/

/-- Lines 443-457: the close request and the six camera movement keys. -/
def closeAndMoveCalls (keys : Key → Bool) (g : Globals) : List Effect :=
  (if keys .ESCAPE then [.glfwSetWindowShouldClose true] else []) ++
  (if keys .W then [.cameraProcessKeyboard .FORWARD g.gDeltaTime] else []) ++
  (if keys .S then [.cameraProcessKeyboard .BACKWARD g.gDeltaTime] else []) ++
  (if keys .A then [.cameraProcessKeyboard .LEFT g.gDeltaTime] else []) ++
  (if keys .D then [.cameraProcessKeyboard .RIGHT g.gDeltaTime] else []) ++
  (if keys .Q then [.cameraProcessKeyboard .DOWN g.gDeltaTime] else []) ++
  (if keys .E then [.cameraProcessKeyboard .UP g.gDeltaTime] else [])

/-- The four calls shared by the wrap-mode branches: bind the pink texture, set
`GL_TEXTURE_WRAP_S` and `GL_TEXTURE_WRAP_T`, unbind. -/
def wrapCalls (g : Globals) (mode : GLenum) : List Effect :=
  [ .glBindTexture .GL_TEXTURE_2D g.gTextureIdPink,
    .glTexParameteri .GL_TEXTURE_2D .GL_TEXTURE_WRAP_S mode,
    .glTexParameteri .GL_TEXTURE_2D .GL_TEXTURE_WRAP_T mode,
    .glBindTexture .GL_TEXTURE_2D 0 ]

/-- The array `color` of line 494: `{ 1.0f, 0.0f, 1.0f, 1.0f }`. -/
def borderColor : List F32 := [F32.one, F32.zero, F32.one, F32.one]

/-- Lines 459-505: the `if / else if` chain over the keys 1 to 4. -/
def wrapModeKeys (keys : Key → Bool) (g : Globals) : Globals × List Effect :=
  if keys .KEY_1 = true ∧ g.gTexWrapMode ≠ .GL_REPEAT then
    ({ g with gTexWrapMode := .GL_REPEAT }, wrapCalls g .GL_REPEAT)
  else if keys .KEY_2 = true ∧ g.gTexWrapMode ≠ .GL_MIRRORED_REPEAT then
    ({ g with gTexWrapMode := .GL_MIRRORED_REPEAT }, wrapCalls g .GL_MIRRORED_REPEAT)
  else if keys .KEY_3 = true ∧ g.gTexWrapMode ≠ .GL_CLAMP_TO_EDGE then
    ({ g with gTexWrapMode := .GL_CLAMP_TO_EDGE }, wrapCalls g .GL_CLAMP_TO_EDGE)
  else if keys .KEY_4 = true ∧ g.gTexWrapMode ≠ .GL_CLAMP_TO_BORDER then
    ({ g with gTexWrapMode := .GL_CLAMP_TO_BORDER },
      .glTexParameterfv .GL_TEXTURE_2D .GL_TEXTURE_BORDER_COLOR borderColor ::
        wrapCalls g .GL_CLAMP_TO_BORDER)
  else (g, [])

/-- Lines 507-516: `gUVScale += 0.1f` on `]`, else `gUVScale -= 0.1f` on `[`; the scalar
is applied to both components. -/
def uvScaleKeys (keys : Key → Bool) (uv : F32 × F32) : F32 × F32 :=
  if keys .RIGHT_BRACKET then (uv.1.add F32.tenth, uv.2.add F32.tenth)
  else if keys .LEFT_BRACKET then (uv.1.sub F32.tenth, uv.2.sub F32.tenth)
  else uv

/-- Lines 518-538: the projection toggle on `P`. -/
def projectionKey (keys : Key → Bool) (g : Globals) : Globals × List Effect :=
  if keys .P = true ∧ g.gIsViewOrthographic = false then
    ({ g with gIsViewOrthographic := true },
      [.glMatrixMode .GL_PROJECTION, .glLoadIdentity, .glOrtho,
       .glMatrixMode .GL_MODELVIEW, .glLoadIdentity])
  else if keys .P = true ∧ g.gIsViewOrthographic = true then
    ({ g with gIsViewOrthographic := false },
      [.glMatrixMode .GL_PROJECTION, .glLoadIdentity, .gluPerspective,
       .glMatrixMode .GL_MODELVIEW, .glLoadIdentity])
  else (g, [])

/-- The function `UProcessInput(window)`: `keys k` tells whether `glfwGetKey(window, k)` is
`GLFW_PRESS`.  Returns the globals after the call and the calls issued, in order. -/
def UProcessInput (keys : Key → Bool) (g : Globals) : Globals × List Effect :=
  let g1 := (wrapModeKeys keys g).1
  let g2 := { g1 with gUVScale := uvScaleKeys keys g1.gUVScale }
  ((projectionKey keys g2).1,
    closeAndMoveCalls keys g ++ (wrapModeKeys keys g).2 ++ (projectionKey keys g2).2)

/-- The globals after `n` consecutive calls of `UProcessInput` with the same keys held. -/
def holdKeys (keys : Key → Bool) : Nat → Globals → Globals
  | 0, g => g
  | n + 1, g => holdKeys keys n (UProcessInput keys g).1

/-! ## UMousePositionCallback -/

/-- The function `UMousePositionCallback(window, xpos, ypos)`. -/
def UMousePositionCallback (xpos ypos : F64) (g : Globals) : Globals × List Effect :=
  let g1 : Globals :=
    if g.gFirstMouse then
      { g with gLastX := xpos.toF32, gLastY := ypos.toF32, gFirstMouse := false }
    else g
  let xoffset := (xpos.sub g1.gLastX.toF64).toF32
  let yoffset := (g1.gLastY.toF64.sub ypos).toF32
  ({ g1 with gLastX := xpos.toF32, gLastY := ypos.toF32 },
    [.cameraProcessMouseMovement xoffset yoffset])

/-! ## Which texture a call acts on -/

/-- Calls that change the texture object bound to `GL_TEXTURE_2D`. -/
def Effect.writesTexture : Effect → Bool
  | .glTexParameteri _ _ _ => true
  | .glTexParameterfv _ _ _ => true
  | .glTexImage2D _ _ _ _ _ _ _ _ _ => true
  | .glGenerateMipmap _ => true
  | _ => false

/-- The texture-changing calls of a trace, each paired with the texture bound to
`GL_TEXTURE_2D` when it is issued; `bound` is the texture bound before the trace. -/
def textureWrites (bound : Nat) : List Effect → List (Nat × Effect)
  | [] => []
  | e :: es =>
    match e with
    | .glBindTexture _ texture => textureWrites texture es
    | _ =>
      if e.writesTexture then (bound, e) :: textureWrites bound es
      else textureWrites bound es

/-- The texture names a trace passes to `glBindTexture`. -/
def boundTextures : List Effect → List Nat
  | [] => []
  | .glBindTexture _ texture :: es => texture :: boundTextures es
  | _ :: es => boundTextures es

/-- The key that requests a wrap mode: 1, 2, 3, 4 for `GL_REPEAT`, `GL_MIRRORED_REPEAT`,
`GL_CLAMP_TO_EDGE`, `GL_CLAMP_TO_BORDER`. -/
def wrapModeOfKey : Key → Option GLenum
  | .KEY_1 => some .GL_REPEAT
  | .KEY_2 => some .GL_MIRRORED_REPEAT
  | .KEY_3 => some .GL_CLAMP_TO_EDGE
  | .KEY_4 => some .GL_CLAMP_TO_BORDER
  | _ => none

/-- Startup values of the globals (lines 44-80), with the texture names as given. -/
def initialGlobals (pink granite : Nat) : Globals :=
  { gTextureIdPink := pink
    gTextureIdGranite := granite
    gUVScale := (F32.five, F32.five)
    gTexWrapMode := .GL_REPEAT
    gLastX := F32.ofScaled 400 0
    gLastY := F32.ofScaled 300 0
    gFirstMouse := true
    gDeltaTime := F32.zero
    gIsViewOrthographic := true }

/-- Only the listed keys are pressed. -/
def pressed (ks : List Key) : Key → Bool := fun k => decide (k ∈ ks)

/-- A buffer as `stbi_load` returns it on success: dimensions and channel count are
nonnegative, the buffer holds `width * height * channels` bytes, and that count is an
`int`. -/
def StbImage.WellFormed (img : StbImage) : Prop :=
  0 ≤ img.width ∧ 0 ≤ img.height ∧ 0 ≤ img.channels ∧
    (img.pixels.length : Int) = img.width * img.height * img.channels ∧
    img.width * img.height * img.channels ≤ INT_MAX

instance (img : StbImage) : Decidable img.WellFormed := by
  unfold StbImage.WellFormed; infer_instance

/-- The internal formats of the `glTexImage2D` calls of a trace, in order. -/
def uploadFormats : List Effect → List GLenum
  | [] => []
  | .glTexImage2D _ _ internalformat _ _ _ _ _ _ :: es => internalformat :: uploadFormats es
  | _ :: es => uploadFormats es

/-- Whether a call is a `glBindTexture`. -/
def Effect.isBindTexture : Effect → Bool
  | .glBindTexture _ _ => true
  | _ => false

/-- The parameter a `glTexParameteri` or `glTexParameterfv` call sets. -/
def Effect.parameterName : Effect → Option GLenum
  | .glTexParameteri _ pname _ => some pname
  | .glTexParameterfv _ pname _ => some pname
  | _ => none

/-! ## URender -/

/-- The struct `GLMesh`. -/
structure GLMesh where
  vao : Nat
  vbo : Nat
  nVertices : Nat
  deriving DecidableEq

/-- The globals that hold the objects created at startup: `gMesh` and the three program
names. -/
structure RenderResources where
  gMesh : GLMesh
  gPyramidProgramId : Nat
  gLampProgramId : Nat
  gPlaneProgramId : Nat
  deriving DecidableEq

/-- What `URender` reads of `gCamera`: the members `Position` and `Zoom` and the matrix
`GetViewMatrix()` returns. -/
structure Camera where
  Position : Vec3
  Zoom : F32
  viewMatrix : Mat4
  deriving DecidableEq

/-- The function `URender()`: the calls issued for one frame, in order. -/
def URender (r : RenderResources) (g : Globals) (gCamera : Camera) : List Effect :=
  let model := modelMatrix gPyramidPosition gPyramidScale
  let view := gCamera.viewMatrix
  let projection := Mat4Value.perspective gCamera.Zoom WINDOW_WIDTH WINDOW_HEIGHT
    (F32.ofDecimal 1 1) (F32.ofDecimal 1000 1)
  let cameraPosition := gCamera.Position
  let planeModel := modelMatrix gPlanePosition gPlaneScale
  let planeView := gCamera.viewMatrix
  let planeProjection := Mat4Value.perspective gCamera.Zoom WINDOW_WIDTH WINDOW_HEIGHT
    (F32.ofDecimal 1 1) (F32.ofDecimal 1000 1)
  let lampModel := modelMatrix gLightPosition gLightScale
  [ .glEnable .GL_DEPTH_TEST,
    .glClearColor F32.zero F32.zero F32.zero F32.one,
    .glClear [.GL_COLOR_BUFFER_BIT, .GL_DEPTH_BUFFER_BIT],
    .glBindVertexArray r.gMesh.vao,
    -- lines 634-675: the object
    .glUseProgram r.gPyramidProgramId,
    .glUniformMatrix4fv ⟨r.gPyramidProgramId, .model⟩ (.matrix model),
    .glUniformMatrix4fv ⟨r.gPyramidProgramId, .view⟩ (.matrix view),
    .glUniformMatrix4fv ⟨r.gPyramidProgramId, .projection⟩ projection,
    .glUniform3f ⟨r.gPyramidProgramId, .objectColor⟩ gObjectColor.x gObjectColor.y gObjectColor.z,
    .glUniform3f ⟨r.gPyramidProgramId, .lightColor⟩ gLightColor.x gLightColor.y gLightColor.z,
    .glUniform3f ⟨r.gPyramidProgramId, .lightPos⟩ gLightPosition.x gLightPosition.y
      gLightPosition.z,
    .glUniform3f ⟨r.gPyramidProgramId, .viewPosition⟩ cameraPosition.x cameraPosition.y
      cameraPosition.z,
    .glUniform2fv ⟨r.gPyramidProgramId, .uvScale⟩ g.gUVScale,
    .glActiveTexture .GL_TEXTURE0,
    .glBindTexture .GL_TEXTURE_2D g.gTextureIdPink,
    .glDrawArrays .GL_TRIANGLES 0 r.gMesh.nVertices,
    -- lines 680-719: the plane
    .glUseProgram r.gPlaneProgramId,
    .glUniformMatrix4fv ⟨r.gPlaneProgramId, .model⟩ (.matrix planeModel),
    .glUniformMatrix4fv ⟨r.gPlaneProgramId, .view⟩ (.matrix planeView),
    .glUniformMatrix4fv ⟨r.gPlaneProgramId, .projection⟩ planeProjection,
    .glUniform3f ⟨r.gPlaneProgramId, .objectColor⟩ gObjectColor.x gObjectColor.y gObjectColor.z,
    .glUniform3f ⟨r.gPlaneProgramId, .lightColor⟩ gLightColor.x gLightColor.y gLightColor.z,
    .glUniform3f ⟨r.gPlaneProgramId, .lightPos⟩ gLightPosition.x gLightPosition.y
      gLightPosition.z,
    .glUniform2fv ⟨r.gPlaneProgramId, .uvScale⟩ g.gUVScale,
    .glActiveTexture .GL_TEXTURE0,
    .glBindTexture .GL_TEXTURE_2D g.gTextureIdGranite,
    .glDrawArrays .GL_TRIANGLES 0 r.gMesh.nVertices,
    -- lines 723-738: the lamp
    .glUseProgram r.gLampProgramId,
    .glUniformMatrix4fv ⟨r.gLampProgramId, .model⟩ (.matrix lampModel),
    .glUniformMatrix4fv ⟨r.gLampProgramId, .view⟩ (.matrix planeView),
    .glUniformMatrix4fv ⟨r.gLampProgramId, .projection⟩ planeProjection,
    .glDrawArrays .GL_TRIANGLES 0 r.gMesh.nVertices,
    .glBindVertexArray 0,
    .glUseProgram 0,
    .glfwSwapBuffers ]

/-- The three shader programs of the scene. -/
inductive Program where
  | plane | pyramid | lamp
  deriving DecidableEq

/-- The uniforms the GLSL sources of a program declare (lines 103-286). -/
def declaredUniforms : Program → List UniformName
  | .plane => [.model, .view, .projection, .objectColor, .lightColor, .lightPos,
      .viewPosition, .uTexture1, .uvScale]
  | .pyramid => [.model, .view, .projection, .objectColor, .lightColor, .lightPos,
      .viewPosition, .uTexture, .uvScale]
  | .lamp => [.model, .view, .projection]

/-- The location a call of the `glUniform` family addresses. -/
def Effect.uniformLocation : Effect → Option UniformLocation
  | .glUniformMatrix4fv location _ => some location
  | .glUniform3f location _ _ _ => some location
  | .glUniform2fv location _ => some location
  | .glUniform1i location _ => some location
  | _ => none

/-- The uniform updates of a trace, each location paired with the program in use when the
call is issued; `active` is the program in use before the trace. -/
def uniformUploads (active : Nat) : List Effect → List (Nat × UniformLocation)
  | [] => []
  | e :: es =>
    match e with
    | .glUseProgram program => uniformUploads program es
    | _ =>
      match e.uniformLocation with
      | some location => (active, location) :: uniformUploads active es
      | none => uniformUploads active es

/-- The names of the uniforms of `program` a trace updates: the updates issued while
`program` is in use at a location looked up in `program`. -/
def uploadedNames (program : Nat) (trace : List Effect) : List UniformName :=
  ((uniformUploads 0 trace).filter
    (fun u => decide (u.1 = program ∧ u.2.program = program))).map (fun u => u.2.name)

/-- The `first` and `count` arguments of the `glDrawArrays` calls of a trace, in order. -/
def drawRanges : List Effect → List (Int × Nat)
  | [] => []
  | .glDrawArrays _ first count :: es => (first, count) :: drawRanges es
  | _ :: es => drawRanges es

/-! ## The vertex data of UCreateMesh (lines 753-929) -/

/-- The rows of `verts` from line 759 to line 916, the lotion bottle (prism and cap): eight
floats per row, position, normal and texture coordinate, written as in the source. -/
def bottleVerts : List F32 :=
  let d := F32.ofDecimal
  [
    d 35 2, d 10 1, d (-2) 1, d (-10) 1, d 0 1, d 0 1, d 10 1, d 0 1,
    d 45 2, d 2 1, d (-25) 2, d (-10) 1, d 0 1, d 0 1, d 10 1, d 10 1,
    d 45 2, d 2 1, d (-15) 2, d (-10) 1, d 0 1, d 0 1, d 0 1, d 10 1,
    d 75 2, d 2 1, d (-25) 2, d 10 1, d 0 1, d 0 1, d 10 1, d 0 1,
    d 85 2, d 10 1, d (-2) 1, d 10 1, d 0 1, d 0 1, d 10 1, d 10 1,
    d 75 2, d 2 1, d (-15) 2, d 10 1, d 0 1, d 0 1, d 0 1, d 10 1,
    d 85 2, d 10 1, d (-2) 1, d 0 1, d 0 1, d (-10) 1, d 10 1, d 0 1,
    d 35 2, d 10 1, d (-2) 1, d 0 1, d 0 1, d (-10) 1, d 10 1, d 10 1,
    d 75 2, d 2 1, d (-25) 2, d 0 1, d 0 1, d (-10) 1, d 0 1, d 10 1,
    d 35 2, d 10 1, d (-2) 1, d 0 1, d 0 1, d (-10) 1, d 10 1, d 0 1,
    d 45 2, d 2 1, d (-25) 2, d 0 1, d 0 1, d (-10) 1, d 10 1, d 10 1,
    d 75 2, d 2 1, d (-25) 2, d 0 1, d 0 1, d (-10) 1, d 0 1, d 10 1,
    d 85 2, d 10 1, d (-2) 1, d 0 1, d 0 1, d 10 1, d 10 1, d 0 1,
    d 35 2, d 10 1, d (-2) 1, d 0 1, d 0 1, d 10 1, d 10 1, d 10 1,
    d 45 2, d 2 1, d (-15) 2, d 0 1, d 0 1, d 10 1, d 0 1, d 10 1,
    d 85 2, d 10 1, d (-2) 1, d 0 1, d 0 1, d 10 1, d 10 1, d 0 1,
    d 45 2, d 2 1, d (-15) 2, d 0 1, d 0 1, d 10 1, d 10 1, d 10 1,
    d 75 2, d 2 1, d (-15) 2, d 0 1, d 0 1, d 10 1, d 0 1, d 10 1,
    d 75 2, d 2 1, d (-25) 2, d (-10) 1, d 0 1, d 0 1, d 10 1, d 0 1,
    d 45 2, d 2 1, d (-25) 2, d (-10) 1, d 0 1, d 0 1, d 10 1, d 10 1,
    d 45 2, d 2 1, d (-15) 2, d (-10) 1, d 0 1, d 0 1, d 0 1, d 10 1,
    d 75 2, d 2 1, d (-25) 2, d 10 1, d 0 1, d 0 1, d 10 1, d 0 1,
    d 45 2, d 2 1, d (-15) 2, d 10 1, d 0 1, d 0 1, d 10 1, d 10 1,
    d 75 2, d 2 1, d (-15) 2, d 10 1, d 0 1, d 0 1, d 0 1, d 10 1,
    d 6 1, d 1 2, d (-2) 1, d (-10) 1, d 0 1, d 0 1, d 10 1, d 0 1,
    d 45 2, d 1 2, d (-25) 2, d (-10) 1, d 0 1, d 0 1, d 10 1, d 10 1,
    d 43 2, d 1 2, d (-2) 1, d (-10) 1, d 0 1, d 0 1, d 0 1, d 10 1,
    d 6 1, d 1 2, d (-2) 1, d 10 1, d 0 1, d 0 1, d 10 1, d 0 1,
    d 6 1, d 1 2, d (-26) 2, d 10 1, d 0 1, d 0 1, d 10 1, d 10 1,
    d 45 2, d 1 2, d (-25) 2, d 10 1, d 0 1, d 0 1, d 0 1, d 10 1,
    d 6 1, d 1 2, d (-2) 1, d 0 1, d 0 1, d (-10) 1, d 10 1, d 0 1,
    d 75 2, d 1 2, d (-25) 2, d 0 1, d 0 1, d (-10) 1, d 10 1, d 10 1,
    d 6 1, d 1 2, d (-26) 2, d 0 1, d 0 1, d (-10) 1, d 0 1, d 10 1,
    d 6 1, d 1 2, d (-2) 1, d 0 1, d 0 1, d 10 1, d 10 1, d 0 1,
    d 77 2, d 1 2, d (-2) 1, d 0 1, d 0 1, d 10 1, d 10 1, d 10 1,
    d 75 2, d 1 2, d (-25) 2, d 0 1, d 0 1, d 10 1, d 0 1, d 10 1,
    d 6 1, d 1 2, d (-2) 1, d 0 1, d (-10) 1, d 0 1, d 10 1, d 0 1,
    d 75 2, d 1 2, d (-15) 2, d 0 1, d (-10) 1, d 0 1, d 10 1, d 10 1,
    d 77 2, d 1 2, d (-2) 1, d 0 1, d (-10) 1, d 0 1, d 0 1, d 10 1,
    d 6 1, d 1 2, d (-2) 1, d 0 1, d 10 1, d 0 1, d 10 1, d 0 1,
    d 6 1, d 1 2, d (-14) 2, d 0 1, d 10 1, d 0 1, d 10 1, d 10 1,
    d 75 2, d 1 2, d (-15) 2, d 0 1, d 10 1, d 0 1, d 0 1, d 10 1,
    d 6 1, d 1 2, d (-2) 1, d 10 1, d 0 1, d 0 1, d 10 1, d 0 1,
    d 45 2, d 1 2, d (-15) 2, d 10 1, d 0 1, d 0 1, d 10 1, d 10 1,
    d 6 1, d 1 2, d (-14) 2, d 10 1, d 0 1, d 0 1, d 10 1, d 0 1,
    d 6 1, d 1 2, d (-2) 1, d (-10) 1, d 0 1, d 0 1, d 10 1, d 0 1,
    d 43 2, d 1 2, d (-2) 1, d (-10) 1, d 0 1, d 0 1, d 10 1, d 10 1,
    d 45 2, d 1 2, d (-15) 2, d (-10) 1, d 0 1, d 0 1, d 0 1, d 10 1,
    d 6 1, d 1 2, d (-14) 2, d 0 1, d 0 1, d (-10) 1, d 10 1, d 0 1,
    d 6 1, d 2 1, d (-14) 2, d 0 1, d 0 1, d (-10) 1, d 10 1, d 10 1,
    d 45 2, d 1 2, d (-15) 2, d 0 1, d 0 1, d (-10) 1, d 0 1, d 10 1,
    d 6 1, d 2 1, d (-14) 2, d 0 1, d 0 1, d (-10) 1, d 10 1, d 0 1,
    d 45 2, d 2 1, d (-15) 2, d 0 1, d 0 1, d (-10) 1, d 10 1, d 10 1,
    d 45 2, d 1 2, d (-15) 2, d 0 1, d 0 1, d (-10) 1, d 0 1, d 10 1,
    d 75 2, d 1 2, d (-15) 2, d 0 1, d 0 1, d 10 1, d 10 1, d 0 1,
    d 75 2, d 2 1, d (-15) 2, d 0 1, d 0 1, d 10 1, d 10 1, d 10 1,
    d 6 1, d 1 2, d (-14) 2, d 0 1, d 0 1, d 10 1, d 0 1, d 10 1,
    d 75 2, d 2 1, d (-15) 2, d 0 1, d 0 1, d 10 1, d 10 1, d 0 1,
    d 6 1, d 2 1, d (-14) 2, d 0 1, d 0 1, d 10 1, d 10 1, d 10 1,
    d 6 1, d 1 2, d (-14) 2, d 0 1, d 0 1, d 10 1, d 0 1, d 10 1,
    d 45 2, d 1 2, d (-15) 2, d (-10) 1, d 0 1, d 0 1, d 10 1, d 0 1,
    d 45 2, d 2 1, d (-15) 2, d (-10) 1, d 0 1, d 0 1, d 10 1, d 10 1,
    d 43 2, d 1 2, d (-2) 1, d (-10) 1, d 0 1, d 0 1, d 0 1, d 10 1,
    d 45 2, d 2 1, d (-15) 2, d (-10) 1, d 0 1, d 0 1, d 10 1, d 0 1,
    d 43 2, d 2 1, d (-2) 1, d (-10) 1, d 0 1, d 0 1, d 10 1, d 10 1,
    d 43 2, d 1 2, d (-2) 1, d (-10) 1, d 0 1, d 0 1, d 0 1, d 10 1,
    d 77 2, d 1 2, d (-2) 1, d 10 1, d 0 1, d 0 1, d 10 1, d 0 1,
    d 77 2, d 2 1, d (-2) 1, d 10 1, d 0 1, d 0 1, d 10 1, d 10 1,
    d 75 2, d 1 2, d (-15) 2, d 10 1, d 0 1, d 0 1, d 0 1, d 10 1,
    d 77 2, d 2 1, d (-2) 1, d 10 1, d 0 1, d 0 1, d 10 1, d 0 1,
    d 75 2, d 2 1, d (-15) 2, d 10 1, d 0 1, d 0 1, d 10 1, d 10 1,
    d 75 2, d 1 2, d (-15) 2, d 10 1, d 0 1, d 0 1, d 0 1, d 10 1,
    d 75 2, d 1 2, d (-25) 2, d 0 1, d (-10) 1, d 0 1, d 10 1, d 0 1,
    d 75 2, d 2 1, d (-25) 2, d 0 1, d (-10) 1, d 0 1, d 10 1, d 10 1,
    d 6 1, d 1 2, d (-26) 2, d 0 1, d (-10) 1, d 0 1, d 0 1, d 10 1,
    d 75 2, d 2 1, d (-25) 2, d 0 1, d (-10) 1, d 0 1, d 10 1, d 0 1,
    d 6 1, d 2 1, d (-26) 2, d 0 1, d (-10) 1, d 0 1, d 10 1, d 10 1,
    d 6 1, d 1 2, d (-26) 2, d 0 1, d (-10) 1, d 0 1, d 0 1, d 10 1,
    d 6 1, d 1 2, d (-26) 2, d 0 1, d 10 1, d 0 1, d 10 1, d 0 1,
    d 6 1, d 2 1, d (-26) 2, d 0 1, d 10 1, d 0 1, d 10 1, d 10 1,
    d 45 2, d 1 2, d (-25) 2, d 0 1, d 10 1, d 0 1, d 0 1, d 10 1,
    d 6 1, d 2 1, d (-26) 2, d 0 1, d 10 1, d 0 1, d 10 1, d 0 1,
    d 45 2, d 2 1, d (-25) 2, d 0 1, d 10 1, d 0 1, d 10 1, d 10 1,
    d 45 2, d 1 2, d (-25) 2, d 0 1, d 10 1, d 0 1, d 0 1, d 10 1,
    d 45 2, d 1 2, d (-25) 2, d (-10) 1, d 0 1, d 0 1, d 10 1, d 0 1,
    d 45 2, d 2 1, d (-25) 2, d (-10) 1, d 0 1, d 0 1, d 10 1, d 10 1,
    d 43 2, d 1 2, d (-2) 1, d (-10) 1, d 0 1, d 0 1, d 0 1, d 10 1,
    d 45 2, d 2 1, d (-25) 2, d (-10) 1, d 0 1, d 0 1, d 10 1, d 0 1,
    d 43 2, d 2 1, d (-2) 1, d (-10) 1, d 0 1, d 0 1, d 10 1, d 10 1,
    d 43 2, d 1 2, d (-2) 1, d (-10) 1, d 0 1, d 0 1, d 0 1, d 10 1,
    d 77 2, d 1 2, d (-2) 1, d 10 1, d 0 1, d 0 1, d 10 1, d 0 1,
    d 77 2, d 2 1, d (-2) 1, d 10 1, d 0 1, d 0 1, d 10 1, d 10 1,
    d 75 2, d 1 2, d (-25) 2, d 10 1, d 0 1, d 0 1, d 0 1, d 10 1,
    d 77 2, d 2 1, d (-2) 1, d 10 1, d 0 1, d 0 1, d 10 1, d 0 1,
    d 75 2, d 2 1, d (-25) 2, d 10 1, d 0 1, d 0 1, d 10 1, d 10 1,
    d 75 2, d 1 2, d (-25) 2, d 10 1, d 0 1, d 0 1, d 0 1, d 10 1,
    d 6 1, d 2 1, d (-2) 1, d 0 1, d 0 1, d (-10) 1, d 10 1, d 0 1,
    d 45 2, d 2 1, d (-25) 2, d 0 1, d 0 1, d (-10) 1, d 10 1, d 10 1,
    d 43 2, d 2 1, d (-2) 1, d 0 1, d 0 1, d (-10) 1, d 0 1, d 10 1,
    d 6 1, d 2 1, d (-2) 1, d 0 1, d 0 1, d 10 1, d 10 1, d 0 1,
    d 6 1, d 2 1, d (-26) 2, d 0 1, d 0 1, d 10 1, d 10 1, d 10 1,
    d 45 2, d 2 1, d (-25) 2, d 0 1, d 0 1, d 10 1, d 0 1, d 10 1,
    d 6 1, d 2 1, d (-2) 1, d (-10) 1, d 0 1, d 0 1, d 10 1, d 0 1,
    d 75 2, d 2 1, d (-25) 2, d (-10) 1, d 0 1, d 0 1, d 10 1, d 10 1,
    d 6 1, d 2 1, d (-26) 2, d (-10) 1, d 0 1, d 0 1, d 0 1, d 10 1,
    d 6 1, d 2 1, d (-2) 1, d 10 1, d 0 1, d 0 1, d 10 1, d 0 1,
    d 77 2, d 2 1, d (-2) 1, d 10 1, d 0 1, d 0 1, d 10 1, d 10 1,
    d 75 2, d 2 1, d (-25) 2, d 10 1, d 0 1, d 0 1, d 0 1, d 10 1,
    d 6 1, d 2 1, d (-2) 1, d 0 1, d (-10) 1, d 0 1, d 10 1, d 0 1,
    d 75 2, d 2 1, d (-15) 2, d 0 1, d (-10) 1, d 0 1, d 10 1, d 10 1,
    d 77 2, d 2 1, d (-2) 1, d 0 1, d (-10) 1, d 0 1, d 0 1, d 10 1,
    d 6 1, d 2 1, d (-2) 1, d 0 1, d 10 1, d 0 1, d 10 1, d 0 1,
    d 6 1, d 2 1, d (-14) 2, d 0 1, d 10 1, d 0 1, d 10 1, d 10 1,
    d 75 2, d 2 1, d (-15) 2, d 0 1, d 10 1, d 0 1, d 0 1, d 10 1,
    d 6 1, d 2 1, d (-2) 1, d 0 1, d 0 1, d 10 1, d 10 1, d 0 1,
    d 45 2, d 2 1, d (-15) 2, d 0 1, d 0 1, d 10 1, d 10 1, d 10 1,
    d 6 1, d 2 1, d (-14) 2, d 0 1, d 0 1, d 10 1, d 0 1, d 10 1,
    d 6 1, d 2 1, d (-2) 1, d 0 1, d 0 1, d (-10) 1, d 10 1, d 0 1,
    d 43 2, d 2 1, d (-2) 1, d 0 1, d 0 1, d (-10) 1, d 10 1, d 10 1,
    d 45 2, d 2 1, d (-15) 2, d 0 1, d 0 1, d (-10) 1, d 0 1, d 10 1
  ]

/-- The rows of `verts` from line 920 to line 926, under the comment `//Plane`. -/
def planeVerts : List F32 :=
  let d := F32.ofDecimal
  [
    d (-20) 1, d 0 1, d 20 1, d 0 1, d 0 1, d (-10) 1, d 10 1, d 0 1,
    d (-20) 1, d 0 1, d (-20) 1, d 0 1, d 0 1, d (-10) 1, d 10 1, d 10 1,
    d 20 1, d 0 1, d (-20) 1, d 0 1, d 0 1, d (-10) 1, d 0 1, d 10 1,
    d (-20) 1, d 0 1, d 20 1, d 0 1, d 0 1, d 10 1, d 10 1, d 0 1,
    d 20 1, d 0 1, d (-20) 1, d 0 1, d 0 1, d 10 1, d 10 1, d 10 1,
    d 20 1, d 0 1, d 20 1, d 0 1, d 0 1, d 10 1, d 0 1, d 10 1
  ]

/-- The array `verts` of `UCreateMesh`. -/
def verts : List F32 := bottleVerts ++ planeVerts

/-! ## UCreateMesh and the destroy functions -/

/-- The value `sizeof(float)`. -/
def sizeofFloat : Nat := 4

/-- The function `UCreateMesh(mesh)`: `vao` and `vbo` are the names `glGenVertexArrays` and
`glGenBuffers` return.  `sizeof(verts)` is `verts.length * sizeofFloat`. -/
def UCreateMesh (vao vbo : Nat) : GLMesh × List Effect :=
  let floatsPerVertex := 3
  let floatsPerNormal := 3
  let floatsPerUV := 2
  let nVertices := (verts.length * sizeofFloat) /
    (sizeofFloat * (floatsPerVertex + floatsPerNormal + floatsPerUV))
  let stride := sizeofFloat * (floatsPerVertex + floatsPerNormal + floatsPerUV)
  (⟨vao, vbo, nVertices⟩,
    [ .glGenVertexArrays vao,
      .glBindVertexArray vao,
      .glGenBuffers vbo,
      .glBindBuffer .GL_ARRAY_BUFFER vbo,
      .glBufferData .GL_ARRAY_BUFFER (verts.length * sizeofFloat) verts .GL_STATIC_DRAW,
      .glVertexAttribPointer 0 floatsPerVertex .GL_FLOAT false stride 0,
      .glEnableVertexAttribArray 0,
      .glVertexAttribPointer 1 floatsPerNormal .GL_FLOAT false stride
        (sizeofFloat * floatsPerVertex),
      .glEnableVertexAttribArray 1,
      .glVertexAttribPointer 2 floatsPerUV .GL_FLOAT false stride
        (sizeofFloat * (floatsPerVertex + floatsPerNormal)),
      .glEnableVertexAttribArray 2 ])

/-- The function `UDestroyMesh(mesh)`. -/
def UDestroyMesh (mesh : GLMesh) : List Effect :=
  [.glDeleteVertexArrays mesh.vao, .glDeleteBuffers mesh.vbo]

/-- The function `UDestroyTexture(textureId)`, whose body is `glGenTextures(1, &textureId)`:
`name` is the name `glGenTextures` returns (into the local copy of the parameter). -/
def UDestroyTexture (textureId name : Nat) : List Effect :=
  let _ := textureId
  [.glGenTextures name]

/-- The function `UDestroyShaderProgram(programId)`. -/
def UDestroyShaderProgram (programId : Nat) : List Effect :=
  [.glDeleteProgram programId]

/-! ## UCreateShaderProgram -/

/-- What the driver reports for one program: `GL_COMPILE_STATUS` of the vertex and of the
fragment shader and `GL_LINK_STATUS` of the program, each as "nonzero". -/
structure ShaderOutcome where
  vertexCompiles : Bool
  fragmentCompiles : Bool
  links : Bool
  deriving DecidableEq

/-- The function `UCreateShaderProgram(vtxShaderSource, fragShaderSource, programId)`: the
returned `bool` and the calls issued.  `programId`, `vertexShaderId` and
`fragmentShaderId` are the names `glCreateProgram` and `glCreateShader` return. -/
def UCreateShaderProgram (vtxShaderSource fragShaderSource : ShaderSource)
    (o : ShaderOutcome) (programId vertexShaderId fragmentShaderId : Nat) :
    Bool × List Effect :=
  let created : List Effect :=
    [ .glCreateProgram programId,
      .glCreateShader .GL_VERTEX_SHADER vertexShaderId,
      .glCreateShader .GL_FRAGMENT_SHADER fragmentShaderId,
      .glShaderSource vertexShaderId vtxShaderSource,
      .glShaderSource fragmentShaderId fragShaderSource,
      .glCompileShader vertexShaderId ]
  if o.vertexCompiles = false then (false, created)
  else
    let compiled := created ++ [.glCompileShader fragmentShaderId]
    if o.fragmentCompiles = false then (false, compiled)
    else
      let linked := compiled ++
        [ .glAttachShader programId vertexShaderId,
          .glAttachShader programId fragmentShaderId,
          .glLinkProgram programId ]
      if o.links = false then (false, linked)
      else (true, linked ++ [.glUseProgram programId])

/-! ## main -/

/-- The two textures of the scene. -/
inductive Texture where
  | pink | granite
  deriving DecidableEq

/-- A step of `main`: a call of one of the program's functions, or a call `main` makes
into a library itself. -/
inductive MainStep where
  | UInitialize
  | UCreateMesh
  | UCreateShaderProgram (program : Program)
  | UCreateTexture (texture : Texture)
  | library (call : Effect)
  | glfwGetTime
  | UProcessInput
  | URender
  | glfwPollEvents
  | UDestroyMesh
  | UDestroyTexture (texture : Texture)
  | UDestroyShaderProgram (program : Program)
  deriving DecidableEq

/-- The `bool` each startup call of `main` returns. -/
structure StartupOutcome where
  initialized : Bool
  planeProgram : Bool
  pyramidProgram : Bool
  lampProgram : Bool
  pinkTexture : Bool
  graniteTexture : Bool
  deriving DecidableEq

/-- The value `EXIT_SUCCESS`. -/
def EXIT_SUCCESS : Int := 0

/-- The value `EXIT_FAILURE`. -/
def EXIT_FAILURE : Int := 1

/-- Lines 341-346 of `main`: the sampler uniforms. -/
def samplerSetup (r : RenderResources) : List Effect :=
  [ .glUseProgram r.gPyramidProgramId,
    .glUniform1i ⟨r.gPyramidProgramId, .uTexture⟩ 0,
    .glUseProgram r.gPlaneProgramId,
    .glUniform1i ⟨r.gPyramidProgramId, .uTexture1⟩ 1 ]

/-- The body of the render loop (lines 353-369), `n` times. -/
def renderLoop : Nat → List MainStep
  | 0 => []
  | n + 1 => [.glfwGetTime, .UProcessInput, .URender, .glfwPollEvents] ++ renderLoop n

/-- The function `main`: the exit status and the steps taken, for the outcomes `o` of the
startup calls and a window that asks to close after `frames` iterations of the loop. -/
def main (o : StartupOutcome) (r : RenderResources) (frames : Nat) : Int × List MainStep :=
  if o.initialized = false then (EXIT_FAILURE, [.UInitialize])
  else
    let s1 : List MainStep := [.UInitialize, .UCreateMesh, .UCreateShaderProgram .plane]
    if o.planeProgram = false then (EXIT_FAILURE, s1)
    else
      let s2 := s1 ++ [.UCreateShaderProgram .pyramid]
      if o.pyramidProgram = false then (EXIT_FAILURE, s2)
      else
        let s3 := s2 ++ [.UCreateShaderProgram .lamp]
        if o.lampProgram = false then (EXIT_FAILURE, s3)
        else
          let s4 := s3 ++ [.UCreateTexture .pink]
          if o.pinkTexture = false then (EXIT_FAILURE, s4)
          else
            let s5 := s4 ++ [.UCreateTexture .granite]
            if o.graniteTexture = false then (EXIT_FAILURE, s5)
            else
              (EXIT_SUCCESS,
                s5 ++ (samplerSetup r).map MainStep.library ++
                  [.library (.glClearColor F32.zero F32.zero F32.zero F32.one)] ++
                  renderLoop frames ++
                  [ .UDestroyMesh, .UDestroyTexture .pink, .UDestroyTexture .granite,
                    .UDestroyShaderProgram .plane, .UDestroyShaderProgram .pyramid,
                    .UDestroyShaderProgram .lamp ])

/-- Whether every startup call of `main` returned `true`. -/
def StartupOutcome.allSucceeded (o : StartupOutcome) : Bool :=
  o.initialized && o.planeProgram && o.pyramidProgram && o.lampProgram && o.pinkTexture &&
    o.graniteTexture

/-- Sample object names: vertex array 1 and buffer 1 with the mesh of `UCreateMesh`, and the
programs 1 (plane), 4 (pyramid) and 7 (lamp). -/
def sampleResources : RenderResources :=
  { gMesh := (UCreateMesh 1 1).1
    gPyramidProgramId := 4
    gLampProgramId := 7
    gPlaneProgramId := 1 }

/-- A sample camera: at (0, 0, 7) as constructed on line 55, zoom 45, looking down the
negative z axis. -/
def sampleCamera : Camera :=
  { Position := ⟨F32.zero, F32.zero, F32.ofDecimal 70 1⟩
    Zoom := F32.ofDecimal 450 1
    viewMatrix := glm.translate ⟨F32.zero, F32.zero, F32.ofDecimal (-70) 1⟩ }

/-! ## One iteration of the render loop -/

/-- The state an iteration of the render loop reads and writes: the globals of
`UProcessInput`, `gLastFrame` and `gCamera`. -/
structure FrameState where
  globals : Globals
  gLastFrame : F32
  gCamera : Camera
  deriving DecidableEq

/-- What the outside world supplies to one iteration: the value `glfwGetTime()` returns, the
keys held when `UProcessInput` polls them, and the cursor positions `glfwPollEvents`
delivers to `UMousePositionCallback`, in order (scroll, button and resize events are not
modelled). -/
structure FrameInput where
  time : F64
  keys : Key → Bool
  mouse : List (F64 × F64)

/-- The camera after the camera calls of a trace, for a camera class whose methods act as
`cameraCall`; calls into other libraries leave the camera alone. -/
def cameraAfter (cameraCall : Effect → Camera → Camera) : List Effect → Camera → Camera
  | [], c => c
  | .cameraProcessKeyboard direction deltaTime :: es, c =>
    cameraAfter cameraCall es (cameraCall (.cameraProcessKeyboard direction deltaTime) c)
  | .cameraProcessMouseMovement xoffset yoffset :: es, c =>
    cameraAfter cameraCall es (cameraCall (.cameraProcessMouseMovement xoffset yoffset) c)
  | _ :: es, c => cameraAfter cameraCall es c

/-- The cursor events of one `glfwPollEvents` call, each handled by
`UMousePositionCallback`: the globals afterwards and the calls issued. -/
def pollMouse : List (F64 × F64) → Globals → Globals × List Effect
  | [], g => (g, [])
  | (xpos, ypos) :: rest, g =>
    let step := UMousePositionCallback xpos ypos g
    let later := pollMouse rest step.1
    (later.1, step.2 ++ later.2)

/-- One iteration of the loop of `main` (lines 353-369): the per-frame timing,
`UProcessInput`, `URender` and `glfwPollEvents`.  The result is the state afterwards, the
calls of `URender`, and the calls of the input handlers. -/
def frame (r : RenderResources) (cameraCall : Effect → Camera → Camera) (i : FrameInput)
    (s : FrameState) : FrameState × List Effect × List Effect :=
  let currentFrame := i.time.toF32
  let g0 := { s.globals with gDeltaTime := currentFrame.sub s.gLastFrame }
  let input := UProcessInput i.keys g0
  let camera1 := cameraAfter cameraCall input.2 s.gCamera
  let rendered := URender r input.1 camera1
  let polled := pollMouse i.mouse input.1
  let camera2 := cameraAfter cameraCall polled.2 camera1
  ({ globals := polled.1, gLastFrame := currentFrame, gCamera := camera2 },
    rendered, input.2 ++ polled.2)

/-- The calls `URender` issues in each of the iterations the inputs `is` drive, starting
from the state `s`. -/
def renderedFrames (r : RenderResources) (cameraCall : Effect → Camera → Camera) :
    List FrameInput → FrameState → List (List Effect)
  | [], _ => []
  | i :: rest, s =>
    (frame r cameraCall i s).2.1 :: renderedFrames r cameraCall rest (frame r cameraCall i s).1

/-- The state after the iterations the inputs `is` drive. -/
def stateAfterFrames (r : RenderResources) (cameraCall : Effect → Camera → Camera) :
    List FrameInput → FrameState → FrameState
  | [], s => s
  | i :: rest, s => stateAfterFrames r cameraCall rest (frame r cameraCall i s).1

/-- An iteration at time `time` with no key pressed and no cursor event. -/
def idleInput (time : F64) : FrameInput := { time := time, keys := pressed [], mouse := [] }

/-- A sample state of the loop: the initial globals and the sample camera. -/
def sampleState : FrameState :=
  { globals := initialGlobals 1 2, gLastFrame := F32.zero, gCamera := sampleCamera }

/-! ## The projection uploads of a frame -/

/-- The `projection` uniform updates of a trace: the program addressed and the matrix. -/
def projectionUploads : List Effect → List (Nat × Mat4Value)
  | [] => []
  | .glUniformMatrix4fv location value :: es =>
    if location.name = .projection then (location.program, value) :: projectionUploads es
    else projectionUploads es
  | _ :: es => projectionUploads es

/-! ## The wrap parameters of the texture objects -/

/-- The part of the GL texture state the wrap keys act on: the texture bound to
`GL_TEXTURE_2D` (the program uses texture unit 0 only) and the `GL_TEXTURE_WRAP_S` and
`GL_TEXTURE_WRAP_T` parameters of every texture object. -/
structure TextureState where
  bound : Nat
  wrapS : Nat → GLenum
  wrapT : Nat → GLenum

/-- The texture state after one call: `glBindTexture` changes the bound texture,
`glTexParameteri` with `GL_TEXTURE_WRAP_S` or `GL_TEXTURE_WRAP_T` sets that parameter of
the bound texture, and no other call of the program touches either. -/
def Effect.onTextures (e : Effect) (t : TextureState) : TextureState :=
  match e with
  | .glBindTexture _ texture => { t with bound := texture }
  | .glTexParameteri _ .GL_TEXTURE_WRAP_S param =>
    { t with wrapS := Function.update t.wrapS t.bound param }
  | .glTexParameteri _ .GL_TEXTURE_WRAP_T param =>
    { t with wrapT := Function.update t.wrapT t.bound param }
  | _ => t

/-- The texture state after the calls of a trace, in order. -/
def texturesAfter : List Effect → TextureState → TextureState
  | [], t => t
  | e :: es, t => texturesAfter es (e.onTextures t)

/-- The globals and the texture state after a sequence of `UProcessInput` calls, one per
element of the list, each with the keys pressed at that call. -/
def inputSequence : List (Key → Bool) → Globals × TextureState → Globals × TextureState
  | [], s => s
  | keys :: rest, s =>
    inputSequence rest
      ((UProcessInput keys s.1).1, texturesAfter (UProcessInput keys s.1).2 s.2)

/-- The four wrap modes of the keys 1 to 4. -/
def wrapModes : List GLenum :=
  [.GL_REPEAT, .GL_MIRRORED_REPEAT, .GL_CLAMP_TO_EDGE, .GL_CLAMP_TO_BORDER]

/-- A texture state before any texture is created: texture 0 bound and every wrap parameter
at its initial value `GL_REPEAT`. -/
def initialTextures : TextureState :=
  { bound := 0, wrapS := fun _ => .GL_REPEAT, wrapT := fun _ => .GL_REPEAT }

/-- The state the claim about the recorded wrap mode starts from: the startup values of the
globals with the two texture names `UCreateTexture` returned, and the texture state after
the calls of the two `UCreateTexture` calls of `main`, pink first. -/
def startupState (pinkTexture graniteTexture : TextureResult) (t : TextureState) :
    Globals × TextureState :=
  (initialGlobals pinkTexture.textureId graniteTexture.textureId,
    texturesAfter (pinkTexture.trace ++ graniteTexture.trace) t)

/-- The recorded wrap mode `gTexWrapMode` is one of the four modes and equals both wrap
parameters of the texture object `gTextureIdPink`. -/
def wrapModeRecorded (s : Globals × TextureState) : Prop :=
  s.1.gTexWrapMode ∈ wrapModes ∧
    s.2.wrapS s.1.gTextureIdPink = s.1.gTexWrapMode ∧
    s.2.wrapT s.1.gTextureIdPink = s.1.gTexWrapMode

/-- A decoded 1-by-2 RGB image. -/
def sampleImage : StbImage := ⟨1, 2, 3, [1, 2, 3, 4, 5, 6]⟩

/-- What `UCreateTexture` returns for `sampleImage` when `glGenTextures` returns `name`. -/
def sampleTexture (name : Nat) : TextureResult :=
  ⟨true, name, textureSetup name ++
    [.glTexImage2D .GL_TEXTURE_2D 0 .GL_RGB8 1 2 0 .GL_RGB .GL_UNSIGNED_BYTE
      [4, 5, 6, 1, 2, 3]] ++ textureFinish⟩

/-! ## The buffer accesses of flipImageVertically -/

/-- The pairs `(index1, index2)` at which the inner loop of `flipImageVertically` reads and
writes `image`, in order, with `i` iterations left. -/
def rowAccesses : Nat → Int → Int → List (Int × Int)
  | 0, _, _ => []
  | i + 1, index1, index2 =>
    (index1, index2) :: rowAccesses i (wrapInt (index1 + 1)) (wrapInt (index2 + 1))

/-- The accesses of the outer loop of `flipImageVertically` with `n` iterations left, one
list per iteration (one row swap). -/
def outerAccesses : Nat → Int → Int → Int → Int → List (List (Int × Int))
  | 0, _, _, _, _ => []
  | n + 1, j, width, height, channels =>
    let index1 := wrapInt (wrapInt (j * width) * channels)
    let index2 := wrapInt (wrapInt (wrapInt (wrapInt (height - 1) - j) * width) * channels)
    rowAccesses (wrapInt (width * channels)).toNat index1 index2 ::
      outerAccesses n (wrapInt (j + 1)) width height channels

/-- The accesses of `flipImageVertically(image, width, height, channels)`: for every row
swap, the pairs of indices at which `image` is read and written. -/
def flipImageVerticallyAccesses (width height channels : Int) : List (List (Int × Int)) :=
  outerAccesses (Int.tdiv height 2).toNat 0 width height channels

/-- Both indices of a pair lie inside a buffer of `length` bytes. -/
def InBuffer (length : Nat) (p : Int × Int) : Prop :=
  0 ≤ p.1 ∧ p.1 < length ∧ 0 ≤ p.2 ∧ p.2 < length

instance (length : Nat) (p : Int × Int) : Decidable (InBuffer length p) := by
  unfold InBuffer; infer_instance

/-! ## Round trips of the UV scale -/

/-- The UV scale component after `n` decrements of `0.1f` from `x`, provided each of them
is undone exactly by one increment, `(y - 0.1f) + 0.1f == y`; `none` when one is not. -/
def uvUndoneAfter : Nat → F32 → Option F32
  | 0, x => some x
  | n + 1, x =>
    if ((x.sub F32.tenth).add F32.tenth) = x then uvUndoneAfter n (x.sub F32.tenth) else none

/-! ## Theorems: flipImageVertically -/

theorem wrapInt_of_range {x : Int} (h0 : -2147483648 ≤ x) (h1 : x ≤ 2147483647) :
    wrapInt x = x := by
  unfold wrapInt; omega

theorem swapBytes_of_lt (image : List Byte) (a b : Nat) (ha : a < image.length)
    (hb : b < image.length) :
    swapBytes image a b = some ((image.set a image[b]).set b image[a]) := by
  unfold swapBytes
  have h1 : ¬ ((a : Int) < 0 ∨ (b : Int) < 0) := by omega
  simp [h1, List.getElem?_eq_getElem ha, List.getElem?_eq_getElem hb]

theorem flipRowLoop_spec (n : Nat) : ∀ (image : List Byte) (a b : Nat),
    a + n ≤ b → b + n ≤ image.length → image.length ≤ 2147483647 →
    ∃ out, flipRowLoop n image a b = some out ∧ out.length = image.length ∧
      ∀ k, out[k]? =
        if a ≤ k ∧ k < a + n then image[k - a + b]?
        else if b ≤ k ∧ k < b + n then image[k - b + a]? else image[k]? := by
  induction n with
  | zero =>
    intro image a b _ _ _
    refine ⟨image, rfl, rfl, fun k => ?_⟩
    have h1 : ¬ (a ≤ k ∧ k < a) := by omega
    have h2 : ¬ (b ≤ k ∧ k < b) := by omega
    simp [h1, h2]
  | succ n ih =>
    intro image a b hab hb hlen
    have ha' : a < image.length := by omega
    have hb' : b < image.length := by omega
    have hw1 : wrapInt ((a : Int) + 1) = ((a + 1 : Nat) : Int) := by
      rw [wrapInt_of_range] <;> push_cast <;> omega
    have hw2 : wrapInt ((b : Int) + 1) = ((b + 1 : Nat) : Int) := by
      rw [wrapInt_of_range] <;> push_cast <;> omega
    obtain ⟨out, hrun, hlen', hget⟩ := ih ((image.set a image[b]).set b image[a]) (a + 1) (b + 1)
      (by omega) (by simp; omega) (by simp; omega)
    refine ⟨out, ?_, by simpa using hlen', fun k => ?_⟩
    · simp only [flipRowLoop, swapBytes_of_lt image a b ha' hb', hw1, hw2]
      exact hrun
    · rw [hget k]
      simp only [List.getElem?_set, List.length_set]
      have ea : image[a]? = some image[a] := List.getElem?_eq_getElem ha'
      have eb : image[b]? = some image[b] := List.getElem?_eq_getElem hb'
      by_cases c1 : k = a
      · subst c1
        have e1 : ¬ (k + 1 ≤ k ∧ k < k + 1 + n) := by omega
        have e2 : ¬ (b + 1 ≤ k ∧ k < b + 1 + n) := by omega
        have e3 : k ≤ k ∧ k < k + (n + 1) := by omega
        have e4 : ¬ (b = k) := by omega
        have e5 : k - k + b = b := by omega
        simp [e1, e2, e3, e4, e5, ha']
      · by_cases c2 : k = b
        · subst c2
          have e1 : ¬ (a + 1 ≤ k ∧ k < a + 1 + n) := by omega
          have e2 : ¬ (k + 1 ≤ k ∧ k < k + 1 + n) := by omega
          have e3 : ¬ (a ≤ k ∧ k < a + (n + 1)) := by omega
          have e4 : k ≤ k ∧ k < k + (n + 1) := by omega
          have e5 : k - k + a = a := by omega
          simp [e1, e2, e3, e4, e5, hb']
        · by_cases c3 : a + 1 ≤ k ∧ k < a + 1 + n
          · have e3 : a ≤ k ∧ k < a + (n + 1) := by omega
            have e4 : ¬ (b = k - a + b) := by omega
            have e5 : ¬ (a = k - a + b) := by omega
            have e6 : k - (a + 1) + (b + 1) = k - a + b := by omega
            simp only [c3, e3, e6, e4, e5, if_true, if_false, and_self]
          · by_cases c4 : b + 1 ≤ k ∧ k < b + 1 + n
            · have e3 : ¬ (a ≤ k ∧ k < a + (n + 1)) := by omega
              have e3' : b ≤ k ∧ k < b + (n + 1) := by omega
              have e4 : ¬ (b = k - b + a) := by omega
              have e5 : ¬ (a = k - b + a) := by omega
              have e6 : k - (b + 1) + (a + 1) = k - b + a := by omega
              simp only [c3, c4, e3, e3', e6, e4, e5, if_true, if_false, and_self]
            · have e3 : ¬ (a ≤ k ∧ k < a + (n + 1)) := by omega
              have e3' : ¬ (b ≤ k ∧ k < b + (n + 1)) := by omega
              have e4 : ¬ (b = k) := fun h => c2 h.symm
              have e5 : ¬ (a = k) := fun h => c1 h.symm
              simp only [c3, c4, e3, e3', e4, e5, if_true, if_false, and_self]


theorem row_lt {r r' o W : Nat} (hr : r < r') (ho : o < W) : r * W + o < r' * W := by
  have h := Nat.mul_le_mul_right W (Nat.succ_le_of_lt hr)
  rw [Nat.succ_mul] at h
  omega

theorem row_le {r r' W : Nat} (hr : r ≤ r') : r * W ≤ r' * W :=
  Nat.mul_le_mul_right W hr

theorem wrapInt_natCast (n : Nat) (h : n ≤ 2147483647) : wrapInt (n : Int) = n := by
  unfold wrapInt; omega

theorem index1_eq (j w c : Nat) (hc : 0 < c) (hmax : j * (w * c) ≤ 2147483647) :
    wrapInt (wrapInt ((j : Int) * w) * c) = ((j * (w * c) : Nat) : Int) := by
  have h1 : j * w ≤ j * (w * c) := by
    rw [← Nat.mul_assoc]; exact Nat.le_mul_of_pos_right _ hc
  have e1 : (j : Int) * w = ((j * w : Nat) : Int) := by push_cast; rfl
  have e2 : ((j * w : Nat) : Int) * c = ((j * (w * c) : Nat) : Int) := by push_cast; ring
  rw [e1, wrapInt_natCast _ (by omega), e2, wrapInt_natCast _ hmax]

theorem index2_eq (j w h c : Nat) (hc : 0 < c) (hj : j < h) (hh : h ≤ 2147483647)
    (hmax : (h - 1 - j) * (w * c) ≤ 2147483647) :
    wrapInt (wrapInt (wrapInt (wrapInt ((h : Int) - 1) - j) * w) * c)
      = (((h - 1 - j) * (w * c) : Nat) : Int) := by
  have e0 : wrapInt ((h : Int) - 1) = (h : Int) - 1 := by
    rw [wrapInt_of_range] <;> omega
  have e1 : wrapInt ((h : Int) - 1 - j) = ((h - 1 - j : Nat) : Int) := by
    rw [wrapInt_of_range] <;> omega
  rw [e0, e1]
  exact index1_eq (h - 1 - j) w c hc hmax

theorem count_eq (w c : Nat) (hmax : w * c ≤ 2147483647) :
    (wrapInt ((w : Int) * c)).toNat = w * c := by
  have e1 : (w : Int) * c = ((w * c : Nat) : Int) := by push_cast; rfl
  rw [e1, wrapInt_natCast _ hmax]
  exact Int.toNat_natCast _

theorem flipOuterLoop_empty_rows (w h c : Int) (hW : (wrapInt (w * c)).toNat = 0) (n : Nat) :
    ∀ (image : List Byte) (j : Int), flipOuterLoop n image j w h c = some image := by
  induction n with
  | zero => intro image j; rfl
  | succ n ih =>
    intro image j
    simp only [flipOuterLoop, hW, flipRowLoop]
    exact ih image _

theorem flipOuterLoop_spec (w h c : Nat) (hW : 0 < w * c) (orig : List Byte)
    (horig : orig.length = h * (w * c)) (hmax : h * (w * c) ≤ 2147483647) (n : Nat) :
    ∀ (j : Nat) (image : List Byte), j + n = h / 2 → image.length = orig.length →
      (∀ r o, r < h → o < w * c →
        image[r * (w * c) + o]? =
          if r < j ∨ h - j ≤ r then orig[(h - 1 - r) * (w * c) + o]?
          else orig[r * (w * c) + o]?) →
      ∃ out, flipOuterLoop n image j w h c = some out ∧ out.length = orig.length ∧
        ∀ r o, r < h → o < w * c →
          out[r * (w * c) + o]? = orig[(h - 1 - r) * (w * c) + o]? := by
  have hc : 0 < c := Nat.pos_of_ne_zero (fun h0 => by simp [h0] at hW)
  induction n with
  | zero =>
    intro j image hj hlen hinv
    refine ⟨image, rfl, hlen, fun r o hr ho => ?_⟩
    rw [hinv r o hr ho]
    split_ifs with hcond
    · rfl
    · have e : h - 1 - r = r := by omega
      rw [e]
  | succ n ih =>
    intro j image hj hlen hinv
    have hjh : 2 * j + 2 ≤ h := by omega
    have hh : h ≤ 2147483647 := by
      have := Nat.le_mul_of_pos_right h hW
      omega
    have hrow : w * c ≤ 2147483647 := by
      have : 1 * (w * c) ≤ h * (w * c) := row_le (by omega)
      omega
    have ha : j * (w * c) + w * c ≤ (h - 1 - j) * (w * c) := by
      have : (j + 1) * (w * c) ≤ (h - 1 - j) * (w * c) := row_le (by omega)
      rw [Nat.succ_mul] at this
      exact this
    have hb : (h - 1 - j) * (w * c) + w * c ≤ h * (w * c) := by
      have : (h - 1 - j + 1) * (w * c) ≤ h * (w * c) := row_le (by omega)
      rw [Nat.succ_mul] at this
      exact this
    obtain ⟨img1, hrun1, hlen1, hget1⟩ := flipRowLoop_spec (w * c) image (j * (w * c))
      ((h - 1 - j) * (w * c)) ha (by omega) (by omega)
    obtain ⟨out, hrun, hlen', hget⟩ := ih (j + 1) img1 (by omega) (by omega) (by
      intro r o hr ho
      rw [hget1]
      by_cases c1 : r = j
      · subst c1
        have e1 : r * (w * c) ≤ r * (w * c) + o ∧ r * (w * c) + o < r * (w * c) + w * c := by
          omega
        have e2 : r * (w * c) + o - r * (w * c) + (h - 1 - r) * (w * c)
            = (h - 1 - r) * (w * c) + o := by omega
        have e3 : r < r + 1 ∨ h - (r + 1) ≤ r := by omega
        have e4 : ¬ (h - 1 - r < r ∨ h - r ≤ h - 1 - r) := by omega
        rw [if_pos e1, if_pos e3, e2, hinv (h - 1 - r) o (by omega) ho, if_neg e4]
      · by_cases c2 : r = h - 1 - j
        · have hlt : j * (w * c) + w * c ≤ r * (w * c) + o := by
            have : (j + 1) * (w * c) ≤ r * (w * c) := row_le (by omega)
            rw [Nat.succ_mul] at this
            omega
          have e1 : ¬ (j * (w * c) ≤ r * (w * c) + o ∧
              r * (w * c) + o < j * (w * c) + w * c) := by omega
          have e1' : (h - 1 - j) * (w * c) ≤ r * (w * c) + o ∧
              r * (w * c) + o < (h - 1 - j) * (w * c) + w * c := by
            rw [← c2]; omega
          have e2 : r * (w * c) + o - (h - 1 - j) * (w * c) + j * (w * c)
              = j * (w * c) + o := by
            rw [← c2]; omega
          have e3 : r < j + 1 ∨ h - (j + 1) ≤ r := by omega
          have e4 : ¬ (j < j ∨ h - j ≤ j) := by omega
          have e5 : h - 1 - r = j := by omega
          rw [if_neg e1, if_pos e1', if_pos e3, e2, hinv j o (by omega) ho, if_neg e4, e5]
        · have e1 : ¬ (j * (w * c) ≤ r * (w * c) + o ∧
              r * (w * c) + o < j * (w * c) + w * c) := by
            rcases Nat.lt_or_gt_of_ne c1 with hlt | hgt
            · have := row_lt (W := w * c) hlt ho
              omega
            · have : (j + 1) * (w * c) ≤ r * (w * c) := row_le (by omega)
              rw [Nat.succ_mul] at this
              omega
          have e1' : ¬ ((h - 1 - j) * (w * c) ≤ r * (w * c) + o ∧
              r * (w * c) + o < (h - 1 - j) * (w * c) + w * c) := by
            rcases Nat.lt_or_gt_of_ne c2 with hlt | hgt
            · have := row_lt (W := w * c) hlt ho
              omega
            · have : (h - 1 - j + 1) * (w * c) ≤ r * (w * c) := row_le (by omega)
              rw [Nat.succ_mul] at this
              omega
          rw [if_neg e1, if_neg e1', hinv r o hr ho]
          by_cases c3 : r < j ∨ h - j ≤ r
          · have e3 : r < j + 1 ∨ h - (j + 1) ≤ r := by omega
            rw [if_pos c3, if_pos e3]
          · have e3 : ¬ (r < j + 1 ∨ h - (j + 1) ≤ r) := by omega
            rw [if_neg c3, if_neg e3])
    refine ⟨out, ?_, hlen', hget⟩
    have i1 := index1_eq j w c hc (by
      have : j * (w * c) ≤ h * (w * c) := row_le (by omega)
      omega)
    have i2 := index2_eq j w h c hc (by omega) hh (by omega)
    have hw : wrapInt ((j : Int) + 1) = ((j + 1 : Nat) : Int) := by
      rw [wrapInt_of_range] <;> push_cast <;> omega
    rw [flipOuterLoop, i1, i2, count_eq w c hrow, hrun1, hw]
    exact hrun

theorem flipImageVertically_spec (image : List Byte) (width height channels : Nat)
    (hlen : image.length = width * height * channels)
    (hint : width * height * channels ≤ 2147483647) :
    ∃ out, flipImageVertically image width height channels = some out ∧
      out.length = image.length ∧
      ∀ r k, r < height → k < width * channels →
        out[r * (width * channels) + k]? =
          image[(height - 1 - r) * (width * channels) + k]? := by
  have hlen' : image.length = height * (width * channels) := by rw [hlen]; ring
  by_cases hW : width * channels = 0
  · refine ⟨image, ?_, rfl, fun r k _ hk => ?_⟩
    · apply flipOuterLoop_empty_rows
      have e1 : (width : Int) * channels = ((width * channels : Nat) : Int) := by
        push_cast; rfl
      rw [e1, hW]
      rfl
    · omega
  · have hpos : 0 < width * channels := Nat.pos_of_ne_zero hW
    have hfuel : (Int.tdiv (height : Int) 2).toNat = height / 2 := by
      rw [Int.tdiv_eq_ediv (by omega) (by omega)]
      omega
    unfold flipImageVertically
    rw [hfuel]
    exact flipOuterLoop_spec width height channels hpos image hlen' (by rw [← hlen', hlen]; exact hint)
      (height / 2) 0 image (by omega) rfl (fun r k hr hk => by
        have e : ¬ (r < 0 ∨ height - 0 ≤ r) := by omega
        rw [if_neg e])

/-- C2, amended: for a buffer of `width * height * channels` bytes whose byte count is an
`int` value (at most `INT_MAX`), `flipImageVertically` returns normally with a buffer of
the same size whose row `r`, offset `k` holds the byte of row `height - 1 - r`, offset `k`
of the input; the middle row of an odd-height image is unchanged. -/
theorem flipImageVertically_reverses_rows (image : List Byte) (width height channels : Nat)
    (hlen : image.length = width * height * channels)
    (hint : ((width * height * channels : Nat) : Int) ≤ INT_MAX) :
    ∃ out, flipImageVertically image width height channels = some out ∧
      out.length = image.length ∧
      (∀ r k, r < height → k < width * channels →
        ∃ b, image[(height - 1 - r) * (width * channels) + k]? = some b ∧
          out[r * (width * channels) + k]? = some b) ∧
      (height % 2 = 1 → ∀ k, k < width * channels →
        out[height / 2 * (width * channels) + k]? =
          image[height / 2 * (width * channels) + k]?) := by
  have hint' : width * height * channels ≤ 2147483647 := by
    unfold INT_MAX at hint; omega
  obtain ⟨out, hrun, hl, hget⟩ :=
    flipImageVertically_spec image width height channels hlen hint'
  refine ⟨out, hrun, hl, fun r k hr hk => ?_, fun hodd k hk => ?_⟩
  · have hlt : (height - 1 - r) * (width * channels) + k < image.length := by
      have h1 : (height - 1 - r) * (width * channels) + k < height * (width * channels) :=
        row_lt (by omega) hk
      have h2 : image.length = height * (width * channels) := by rw [hlen]; ring
      omega
    refine ⟨image[(height - 1 - r) * (width * channels) + k], ?_, ?_⟩
    · exact List.getElem?_eq_getElem hlt
    · rw [hget r k hr hk]
      exact List.getElem?_eq_getElem hlt
  · have e : height - 1 - height / 2 = height / 2 := by omega
    have h := hget (height / 2) k (by omega) hk
    rw [e] at h
    exact h

/-- Witness of the amended C2 on a 2-by-3 single-channel image. -/
theorem flipImageVertically_reverses_rows_witness :
    ∃ out, flipImageVertically [1, 2, 3, 4, 5, 6] ((2 : Nat) : Int) ((3 : Nat) : Int)
        ((1 : Nat) : Int) = some out ∧
      out.length = [(1 : Byte), 2, 3, 4, 5, 6].length ∧
      (∀ r k, r < 3 → k < 2 * 1 →
        ∃ b, [(1 : Byte), 2, 3, 4, 5, 6][(3 - 1 - r) * (2 * 1) + k]? = some b ∧
          out[r * (2 * 1) + k]? = some b) ∧
      (3 % 2 = 1 → ∀ k, k < 2 * 1 →
        out[3 / 2 * (2 * 1) + k]? = [(1 : Byte), 2, 3, 4, 5, 6][3 / 2 * (2 * 1) + k]?) :=
  flipImageVertically_reverses_rows [1, 2, 3, 4, 5, 6] 2 3 1 (by decide) (by decide)

/-- C1, amended: for a buffer of `width * height * channels` bytes whose byte count is an
`int` value (at most `INT_MAX`), applying `flipImageVertically` twice with the same
dimensions returns normally both times and yields exactly the original buffer, for odd
heights as well. -/
theorem flipImageVertically_involution (image : List Byte) (width height channels : Nat)
    (hlen : image.length = width * height * channels)
    (hint : ((width * height * channels : Nat) : Int) ≤ INT_MAX) :
    ∃ out, flipImageVertically image width height channels = some out ∧
      flipImageVertically out width height channels = some image := by
  have hint' : width * height * channels ≤ 2147483647 := by
    unfold INT_MAX at hint; omega
  obtain ⟨out, hrun, hl, hget⟩ :=
    flipImageVertically_spec image width height channels hlen hint'
  obtain ⟨out2, hrun2, hl2, hget2⟩ :=
    flipImageVertically_spec out width height channels (by rw [hl, hlen]) hint'
  refine ⟨out, hrun, ?_⟩
  rw [hrun2]
  congr 1
  apply List.ext_getElem?
  intro n
  have hlen' : image.length = height * (width * channels) := by rw [hlen]; ring
  by_cases hn : n < image.length
  · have hW : 0 < width * channels := by
      rcases Nat.eq_zero_or_pos (width * channels) with h0 | h0
      · rw [h0] at hlen'; omega
      · exact h0
    have hdiv : n / (width * channels) < height := by
      rw [Nat.div_lt_iff_lt_mul hW]; omega
    have hmod : n % (width * channels) < width * channels := Nat.mod_lt _ hW
    have hn' : n / (width * channels) * (width * channels) + n % (width * channels) = n := by
      rw [Nat.mul_comm]; exact Nat.div_add_mod n (width * channels)
    obtain ⟨q, o, hq, ho, rfl⟩ : ∃ q o, q < height ∧ o < width * channels ∧
        q * (width * channels) + o = n :=
      ⟨n / (width * channels), n % (width * channels), hdiv, hmod, hn'⟩
    have h1 := hget2 q o hq ho
    have h2 := hget (height - 1 - q) o (by omega) ho
    have e : height - 1 - (height - 1 - q) = q := by omega
    rw [e] at h2
    rw [h1, h2]
  · rw [List.getElem?_eq_none (by omega), List.getElem?_eq_none (by omega)]

/-- Witness of the amended C1 on a 2-by-3 single-channel image (odd height). -/
theorem flipImageVertically_involution_witness :
    ∃ out, flipImageVertically [1, 2, 3, 4, 5, 6] ((2 : Nat) : Int) ((3 : Nat) : Int)
        ((1 : Nat) : Int) = some out ∧
      flipImageVertically out ((2 : Nat) : Int) ((3 : Nat) : Int) ((1 : Nat) : Int)
        = some [1, 2, 3, 4, 5, 6] :=
  flipImageVertically_involution [1, 2, 3, 4, 5, 6] 2 3 1 (by decide) (by decide)

/-! ## Theorems: UCreateTexture -/

theorem flipImageVertically_wellFormed (img : StbImage) (hwf : img.WellFormed) :
    ∃ out, flipImageVertically img.pixels img.width img.height img.channels = some out := by
  obtain ⟨hw, hh, hc, hlen, hmax⟩ := hwf
  obtain ⟨w, hw'⟩ := Int.eq_ofNat_of_zero_le hw
  obtain ⟨h, hh'⟩ := Int.eq_ofNat_of_zero_le hh
  obtain ⟨c, hc'⟩ := Int.eq_ofNat_of_zero_le hc
  rw [hw', hh', hc'] at hlen hmax ⊢
  have hlen' : img.pixels.length = w * h * c := by exact_mod_cast hlen
  obtain ⟨out, hrun, _⟩ := flipImageVertically_spec img.pixels w h c hlen' (by
    have hm : ((w * h * c : Nat) : Int) ≤ INT_MAX := by push_cast; exact hmax
    unfold INT_MAX at hm
    omega)
  exact ⟨out, hrun⟩

/-- C3: for a successfully decoded image `UCreateTexture` returns `true` exactly when the
channel count is 3 or 4, with a single upload of internal format `GL_RGB8` for 3
channels and `GL_RGBA8` for 4 channels and no upload otherwise; when the image could
not be decoded it returns `false`. -/
theorem UCreateTexture_channel_layout (img : StbImage) (textureId name : Nat)
    (hwf : img.WellFormed) :
    (∃ r, UCreateTexture (some img) textureId name = some r ∧
      (r.success = true ↔ (img.channels = 3 ∨ img.channels = 4)) ∧
      (img.channels = 3 → uploadFormats r.trace = [.GL_RGB8]) ∧
      (img.channels = 4 → uploadFormats r.trace = [.GL_RGBA8]) ∧
      (r.success = false → uploadFormats r.trace = [])) ∧
    ∃ r, UCreateTexture none textureId name = some r ∧ r.success = false := by
  obtain ⟨out, hrun⟩ := flipImageVertically_wellFormed img hwf
  refine ⟨?_, ⟨false, textureId, []⟩, rfl, rfl⟩
  have hU : UCreateTexture (some img) textureId name =
      if img.channels = 3 then
        some ⟨true, name, textureSetup name ++
          [.glTexImage2D .GL_TEXTURE_2D 0 .GL_RGB8 img.width img.height 0 .GL_RGB
            .GL_UNSIGNED_BYTE out] ++ textureFinish⟩
      else if img.channels = 4 then
        some ⟨true, name, textureSetup name ++
          [.glTexImage2D .GL_TEXTURE_2D 0 .GL_RGBA8 img.width img.height 0 .GL_RGBA
            .GL_UNSIGNED_BYTE out] ++ textureFinish⟩
      else
        some ⟨false, name, textureSetup name⟩ := by
    simp only [UCreateTexture, hrun]
  rw [hU]
  by_cases h3 : img.channels = 3
  · rw [if_pos h3]
    refine ⟨_, rfl, ?_, ?_, ?_, ?_⟩
    · simp [h3]
    · intro _; rfl
    · intro h4; omega
    · intro hf; simp at hf
  · rw [if_neg h3]
    by_cases h4 : img.channels = 4
    · rw [if_pos h4]
      refine ⟨_, rfl, ?_, ?_, ?_, ?_⟩
      · simp [h4]
      · intro h; exact absurd h h3
      · intro _; rfl
      · intro hf; simp at hf
    · rw [if_neg h4]
      refine ⟨_, rfl, ?_, ?_, ?_, ?_⟩
      · simp [h3, h4]
      · intro h; exact absurd h h3
      · intro h; exact absurd h h4
      · intro _; rfl

/-- Witness of C3 on a 1-by-2 RGB image. -/
theorem UCreateTexture_channel_layout_witness :
    (∃ r, UCreateTexture (some ⟨1, 2, 3, [1, 2, 3, 4, 5, 6]⟩) 0 7 = some r ∧
      (r.success = true ↔ ((3 : Int) = 3 ∨ (3 : Int) = 4)) ∧
      ((3 : Int) = 3 → uploadFormats r.trace = [.GL_RGB8]) ∧
      ((3 : Int) = 4 → uploadFormats r.trace = [.GL_RGBA8]) ∧
      (r.success = false → uploadFormats r.trace = [])) ∧
    ∃ r, UCreateTexture none 0 7 = some r ∧ r.success = false :=
  UCreateTexture_channel_layout ⟨1, 2, 3, [1, 2, 3, 4, 5, 6]⟩ 0 7 (by decide)

/-- C4, as stated, fails: for a decoded 1-by-1 single-channel image `UCreateTexture`
returns `false` after it has generated a texture object and set a texture parameter. -/
theorem UCreateTexture_unsupported_allocates :
    ∃ r, UCreateTexture (some ⟨1, 1, 1, [7]⟩) 0 5 = some r ∧ r.success = false ∧
      Effect.glGenTextures 5 ∈ r.trace ∧
      Effect.glTexParameteri .GL_TEXTURE_2D .GL_TEXTURE_WRAP_S .GL_REPEAT ∈ r.trace :=
  ⟨⟨false, 5, textureSetup 5⟩, by decide, rfl, by decide, by decide⟩

/-- C4, amended: for a decoded image whose channel count is neither 3 nor 4,
`UCreateTexture` returns `false` having issued exactly the setup calls (one texture
object generated and bound, its two wrap and two filter parameters set): no image is
uploaded and no mipmap is generated. -/
theorem UCreateTexture_unsupported_channels (img : StbImage) (textureId name : Nat)
    (hwf : img.WellFormed) (h3 : img.channels ≠ 3) (h4 : img.channels ≠ 4) :
    ∃ r, UCreateTexture (some img) textureId name = some r ∧ r.success = false ∧
      r.trace = textureSetup name ∧ uploadFormats r.trace = [] ∧
      Effect.glGenerateMipmap .GL_TEXTURE_2D ∉ r.trace := by
  obtain ⟨out, hrun⟩ := flipImageVertically_wellFormed img hwf
  refine ⟨⟨false, name, textureSetup name⟩, ?_, rfl, rfl, rfl, by simp [textureSetup]⟩
  simp only [UCreateTexture, hrun, h3, h4, if_false]

/-- Witness of the amended C4 on a 1-by-1 single-channel image. -/
theorem UCreateTexture_unsupported_channels_witness :
    ∃ r, UCreateTexture (some ⟨1, 1, 1, [7]⟩) 0 5 = some r ∧ r.success = false ∧
      r.trace = textureSetup 5 ∧ uploadFormats r.trace = [] ∧
      Effect.glGenerateMipmap .GL_TEXTURE_2D ∉ r.trace :=
  UCreateTexture_unsupported_channels ⟨1, 1, 1, [7]⟩ 0 5 (by decide) (by decide) (by decide)

/-! ## Theorems: wrap-mode keys -/

theorem mem_ite_singleton {c : Prop} [Decidable c] {x e : Effect}
    (h : e ∈ (if c then [x] else [])) : e = x := by
  split at h
  · simpa using h
  · simp at h

theorem closeAndMoveCalls_no_texture (keys : Key → Bool) (g : Globals) (e : Effect)
    (h : e ∈ closeAndMoveCalls keys g) :
    e.isBindTexture = false ∧ e.parameterName = none ∧ e.writesTexture = false := by
  simp only [closeAndMoveCalls, List.mem_append] at h
  rcases h with (((((h | h) | h) | h) | h) | h) | h <;>
    (rw [mem_ite_singleton h]; exact ⟨rfl, rfl, rfl⟩)

theorem projectionKey_no_texture (keys : Key → Bool) (g : Globals) (e : Effect)
    (h : e ∈ (projectionKey keys g).2) :
    e.isBindTexture = false ∧ e.parameterName = none ∧ e.writesTexture = false := by
  unfold projectionKey at h
  split_ifs at h <;> simp at h <;> (rcases h with h | h | h | h | h <;> subst h <;>
    exact ⟨rfl, rfl, rfl⟩)

theorem projectionKey_wrapMode (keys : Key → Bool) (g : Globals) :
    (projectionKey keys g).1.gTexWrapMode = g.gTexWrapMode := by
  unfold projectionKey
  split_ifs <;> rfl

theorem UProcessInput_wrapMode (keys : Key → Bool) (g : Globals) :
    (UProcessInput keys g).1.gTexWrapMode = (wrapModeKeys keys g).1.gTexWrapMode := by
  simp only [UProcessInput, projectionKey_wrapMode]

theorem UProcessInput_filter_parameter (keys : Key → Bool) (g : Globals)
    (p : Effect → Bool) (hp : ∀ e, e.parameterName = none → p e = false) :
    (UProcessInput keys g).2.filter p = (wrapModeKeys keys g).2.filter p := by
  have h1 : (closeAndMoveCalls keys g).filter p = [] := by
    rw [List.filter_eq_nil_iff]
    intro e he
    rw [hp e (closeAndMoveCalls_no_texture keys g e he).2.1]
    simp
  have h2 : ∀ g2, ((projectionKey keys g2).2).filter p = [] := by
    intro g2
    rw [List.filter_eq_nil_iff]
    intro e he
    rw [hp e (projectionKey_no_texture keys g2 e he).2.1]
    simp
  simp only [UProcessInput, List.filter_append, h1, h2, List.nil_append, List.append_nil]

theorem wrapModeKeys_same_mode (keys : Key → Bool) (g : Globals) (k : Key) (m : GLenum)
    (hk : wrapModeOfKey k = some m) (hcur : g.gTexWrapMode = m)
    (honly : ∀ k', k' ≠ k → (wrapModeOfKey k').isSome = true → keys k' = false) :
    wrapModeKeys keys g = (g, []) := by
  have o1 := honly .KEY_1
  have o2 := honly .KEY_2
  have o3 := honly .KEY_3
  have o4 := honly .KEY_4
  cases k <;> simp [wrapModeOfKey] at hk <;> subst hk <;>
    simp [wrapModeOfKey] at o1 o2 o3 o4 <;>
    simp [wrapModeKeys, hcur, o1, o2, o3, o4]

/-- C5: when the current wrap mode is `m` and no wrap key other than the key for `m` is
pressed (that key being pressed or not), `UProcessInput` issues no `glBindTexture` and no
texture-parameter call and leaves `gTexWrapMode` equal to `m`. -/
theorem UProcessInput_same_mode_noop (keys : Key → Bool) (g : Globals) (k : Key)
    (m : GLenum) (hk : wrapModeOfKey k = some m) (hcur : g.gTexWrapMode = m)
    (honly : ∀ k', k' ≠ k → (wrapModeOfKey k').isSome = true → keys k' = false) :
    (∀ e ∈ (UProcessInput keys g).2, e.isBindTexture = false ∧ e.parameterName = none) ∧
    (UProcessInput keys g).1.gTexWrapMode = m := by
  have hw := wrapModeKeys_same_mode keys g k m hk hcur honly
  constructor
  · intro e he
    simp only [UProcessInput, hw, List.append_nil, List.mem_append] at he
    rcases he with he | he
    · exact ⟨(closeAndMoveCalls_no_texture keys g e he).1,
        (closeAndMoveCalls_no_texture keys g e he).2.1⟩
    · exact ⟨(projectionKey_no_texture keys _ e he).1,
        (projectionKey_no_texture keys _ e he).2.1⟩
  · rw [UProcessInput_wrapMode, hw, hcur]

/-- Witness of C5: key 3 held while the mode is already `GL_CLAMP_TO_EDGE`. -/
theorem UProcessInput_same_mode_noop_witness :
    (∀ e ∈ (UProcessInput (pressed [.KEY_3, .W])
        { initialGlobals 1 2 with gTexWrapMode := .GL_CLAMP_TO_EDGE }).2,
      e.isBindTexture = false ∧ e.parameterName = none) ∧
    (UProcessInput (pressed [.KEY_3, .W])
      { initialGlobals 1 2 with gTexWrapMode := .GL_CLAMP_TO_EDGE }).1.gTexWrapMode
      = .GL_CLAMP_TO_EDGE :=
  UProcessInput_same_mode_noop (pressed [.KEY_3, .W])
    { initialGlobals 1 2 with gTexWrapMode := .GL_CLAMP_TO_EDGE } .KEY_3 .GL_CLAMP_TO_EDGE
    rfl rfl (by decide)

theorem wrapModeKeys_change (keys : Key → Bool) (g : Globals) (k : Key) (m : GLenum)
    (hk : wrapModeOfKey k = some m) (hpress : keys k = true)
    (honly : ∀ k', k' ≠ k → (wrapModeOfKey k').isSome = true → keys k' = false)
    (hne : g.gTexWrapMode ≠ m) :
    wrapModeKeys keys g =
      ({ g with gTexWrapMode := m },
        if m = .GL_CLAMP_TO_BORDER then
          .glTexParameterfv .GL_TEXTURE_2D .GL_TEXTURE_BORDER_COLOR borderColor ::
            wrapCalls g m
        else wrapCalls g m) := by
  have o1 := honly .KEY_1
  have o2 := honly .KEY_2
  have o3 := honly .KEY_3
  have o4 := honly .KEY_4
  cases k <;> simp [wrapModeOfKey] at hk <;> subst hk <;>
    simp [wrapModeOfKey] at o1 o2 o3 o4 <;>
    simp [wrapModeKeys, hpress, hne, o1, o2, o3, o4]

/-- C6: when exactly one wrap key is pressed and its mode `m` differs from the current
mode, `UProcessInput` issues exactly one `GL_TEXTURE_WRAP_S` update and exactly one
`GL_TEXTURE_WRAP_T` update, both with value `m`, issues a border-colour update if and
only if `m` is `GL_CLAMP_TO_BORDER`, and sets `gTexWrapMode` to `m`. -/
theorem UProcessInput_mode_change (keys : Key → Bool) (g : Globals) (k : Key) (m : GLenum)
    (hk : wrapModeOfKey k = some m) (hpress : keys k = true)
    (honly : ∀ k', k' ≠ k → (wrapModeOfKey k').isSome = true → keys k' = false)
    (hne : g.gTexWrapMode ≠ m) :
    (UProcessInput keys g).2.filter (fun e => e.parameterName = some .GL_TEXTURE_WRAP_S)
      = [.glTexParameteri .GL_TEXTURE_2D .GL_TEXTURE_WRAP_S m] ∧
    (UProcessInput keys g).2.filter (fun e => e.parameterName = some .GL_TEXTURE_WRAP_T)
      = [.glTexParameteri .GL_TEXTURE_2D .GL_TEXTURE_WRAP_T m] ∧
    ((∃ e ∈ (UProcessInput keys g).2, e.parameterName = some .GL_TEXTURE_BORDER_COLOR)
      ↔ m = .GL_CLAMP_TO_BORDER) ∧
    (UProcessInput keys g).1.gTexWrapMode = m := by
  have hw := wrapModeKeys_change keys g k m hk hpress honly hne
  have hp : ∀ (q : GLenum) (e : Effect), e.parameterName = none →
      decide (e.parameterName = some q) = false := by
    intro q e he
    rw [he]
    simp
  refine ⟨?_, ?_, ?_, ?_⟩
  · rw [UProcessInput_filter_parameter keys g _ (hp _), hw]
    by_cases hb : m = .GL_CLAMP_TO_BORDER
    · subst hb
      simp [wrapCalls, Effect.parameterName]
    · simp [hb, wrapCalls, Effect.parameterName]
  · rw [UProcessInput_filter_parameter keys g _ (hp _), hw]
    by_cases hb : m = .GL_CLAMP_TO_BORDER
    · subst hb
      simp [wrapCalls, Effect.parameterName]
    · simp [hb, wrapCalls, Effect.parameterName]
  · have hmem : (∃ e ∈ (UProcessInput keys g).2,
          e.parameterName = some .GL_TEXTURE_BORDER_COLOR) ↔
        (UProcessInput keys g).2.filter
          (fun e => e.parameterName = some .GL_TEXTURE_BORDER_COLOR) ≠ [] := by
      rw [Ne, List.filter_eq_nil_iff]
      simp
    rw [hmem, UProcessInput_filter_parameter keys g _ (hp _), hw]
    by_cases hb : m = .GL_CLAMP_TO_BORDER
    · subst hb
      simp [wrapCalls, Effect.parameterName]
    · simp [hb, wrapCalls, Effect.parameterName]
  · rw [UProcessInput_wrapMode, hw]

/-- Witness of C6: key 2 pressed, together with `W` and `P`, while the mode is `GL_REPEAT`. -/
theorem UProcessInput_mode_change_witness :
    (UProcessInput (pressed [.KEY_2, .W, .P]) (initialGlobals 1 2)).2.filter
        (fun e => e.parameterName = some .GL_TEXTURE_WRAP_S)
      = [.glTexParameteri .GL_TEXTURE_2D .GL_TEXTURE_WRAP_S .GL_MIRRORED_REPEAT] ∧
    (UProcessInput (pressed [.KEY_2, .W, .P]) (initialGlobals 1 2)).2.filter
        (fun e => e.parameterName = some .GL_TEXTURE_WRAP_T)
      = [.glTexParameteri .GL_TEXTURE_2D .GL_TEXTURE_WRAP_T .GL_MIRRORED_REPEAT] ∧
    ((∃ e ∈ (UProcessInput (pressed [.KEY_2, .W, .P]) (initialGlobals 1 2)).2,
        e.parameterName = some .GL_TEXTURE_BORDER_COLOR)
      ↔ GLenum.GL_MIRRORED_REPEAT = .GL_CLAMP_TO_BORDER) ∧
    (UProcessInput (pressed [.KEY_2, .W, .P]) (initialGlobals 1 2)).1.gTexWrapMode
      = .GL_MIRRORED_REPEAT :=
  UProcessInput_mode_change (pressed [.KEY_2, .W, .P]) (initialGlobals 1 2) .KEY_2
    .GL_MIRRORED_REPEAT rfl (by decide) (by decide) (by decide)

theorem textureWrites_quiet_append (a : List Effect)
    (ha : ∀ e ∈ a, e.isBindTexture = false ∧ e.parameterName = none ∧ e.writesTexture = false) :
    ∀ (bound : Nat) (r : List Effect), textureWrites bound (a ++ r) = textureWrites bound r := by
  induction a with
  | nil => intro bound r; rfl
  | cons e es ih =>
    intro bound r
    have he := ha e (List.mem_cons_self e es)
    have hes := ih (fun x hx => ha x (List.mem_cons_of_mem e hx)) bound r
    rw [List.cons_append]
    cases e <;>
      first
      | (simp only [Effect.isBindTexture, Effect.writesTexture] at he
         simp only [Bool.true_eq_false, false_and, and_false] at he)
      | (simp only [textureWrites, Effect.writesTexture, Bool.false_eq_true, if_false]
         exact hes)

theorem textureWrites_append_quiet (a : List Effect)
    (ha : ∀ e ∈ a, e.isBindTexture = false ∧ e.parameterName = none ∧ e.writesTexture = false) :
    ∀ (r : List Effect) (bound : Nat), textureWrites bound (r ++ a) = textureWrites bound r := by
  intro r
  induction r with
  | nil =>
    intro bound
    have h := textureWrites_quiet_append a ha bound []
    rw [List.append_nil] at h
    rw [List.nil_append, h]
  | cons e es ih =>
    intro bound
    rw [List.cons_append]
    cases e <;>
      simp only [textureWrites, Effect.writesTexture, ih, if_true,
        if_false, Bool.false_eq_true]

theorem boundTextures_append (a r : List Effect) :
    boundTextures (a ++ r) = boundTextures a ++ boundTextures r := by
  induction a with
  | nil => rfl
  | cons e es ih =>
    rw [List.cons_append]
    cases e <;> simp only [boundTextures, ih, List.cons_append]

theorem boundTextures_quiet (a : List Effect)
    (ha : ∀ e ∈ a, e.isBindTexture = false ∧ e.parameterName = none ∧ e.writesTexture = false) :
    boundTextures a = [] := by
  induction a with
  | nil => rfl
  | cons e es ih =>
    have he := ha e (List.mem_cons_self e es)
    have hes := ih (fun x hx => ha x (List.mem_cons_of_mem e hx))
    cases e <;>
      first
      | (simp only [Effect.isBindTexture] at he
         simp only [Bool.true_eq_false, false_and] at he)
      | (simp only [boundTextures]
         exact hes)

theorem UProcessInput_textureWrites (keys : Key → Bool) (g : Globals) (bound : Nat) :
    textureWrites bound (UProcessInput keys g).2 = textureWrites bound (wrapModeKeys keys g).2 := by
  simp only [UProcessInput]
  rw [textureWrites_append_quiet _ (projectionKey_no_texture keys _),
    textureWrites_quiet_append _ (closeAndMoveCalls_no_texture keys g)]

theorem UProcessInput_boundTextures (keys : Key → Bool) (g : Globals) :
    boundTextures (UProcessInput keys g).2 = boundTextures (wrapModeKeys keys g).2 := by
  simp only [UProcessInput, boundTextures_append,
    boundTextures_quiet _ (projectionKey_no_texture keys _),
    boundTextures_quiet _ (closeAndMoveCalls_no_texture keys g), List.nil_append,
    List.append_nil]

/-- Whatever keys are pressed and whatever texture is bound on entry, every
`GL_TEXTURE_WRAP_S` or `GL_TEXTURE_WRAP_T` update of `UProcessInput` acts on
`gTextureIdPink`, and only `gTextureIdPink` and 0 are ever passed to `glBindTexture`. -/
theorem UProcessInput_wrap_updates_on_pink (keys : Key → Bool) (g : Globals) (bound : Nat) :
    (∀ p ∈ textureWrites bound (UProcessInput keys g).2,
      (p.2.parameterName = some .GL_TEXTURE_WRAP_S ∨
        p.2.parameterName = some .GL_TEXTURE_WRAP_T) → p.1 = g.gTextureIdPink) ∧
    (∀ t ∈ boundTextures (UProcessInput keys g).2, t = g.gTextureIdPink ∨ t = 0) := by
  rw [UProcessInput_textureWrites, UProcessInput_boundTextures]
  unfold wrapModeKeys
  split_ifs <;>
    simp only [wrapCalls, textureWrites, boundTextures, Effect.writesTexture, if_true,
      List.mem_cons, List.mem_singleton, List.not_mem_nil, false_implies, implies_true,
      and_self, or_false, forall_eq_or_imp, forall_eq, Effect.parameterName, true_or, or_true,
      implies_true, Option.some.injEq, reduceCtorEq, false_or, or_self, forall_const, and_true,
      imp_self, false_imp_iff]


/-- C7 fails on the code: with the granite texture (name 2) bound, as `URender` leaves it
(line 716), a key-4 press in mode `GL_REPEAT` issues the border-colour call first, so it
acts on the granite texture; the pink texture (name 1) is bound only afterwards and
receives the two wrap updates but no border colour. -/
theorem UProcessInput_border_colour_precedes_bind :
    (UProcessInput (pressed [.KEY_4]) (initialGlobals 1 2)).2 =
      [.glTexParameterfv .GL_TEXTURE_2D .GL_TEXTURE_BORDER_COLOR borderColor,
       .glBindTexture .GL_TEXTURE_2D 1,
       .glTexParameteri .GL_TEXTURE_2D .GL_TEXTURE_WRAP_S .GL_CLAMP_TO_BORDER,
       .glTexParameteri .GL_TEXTURE_2D .GL_TEXTURE_WRAP_T .GL_CLAMP_TO_BORDER,
       .glBindTexture .GL_TEXTURE_2D 0] ∧
    textureWrites 2 (UProcessInput (pressed [.KEY_4]) (initialGlobals 1 2)).2 =
      [(2, .glTexParameterfv .GL_TEXTURE_2D .GL_TEXTURE_BORDER_COLOR borderColor),
       (1, .glTexParameteri .GL_TEXTURE_2D .GL_TEXTURE_WRAP_S .GL_CLAMP_TO_BORDER),
       (1, .glTexParameteri .GL_TEXTURE_2D .GL_TEXTURE_WRAP_T .GL_CLAMP_TO_BORDER)] := by
  decide!

/-- C8 fails on the code: with the granite texture bound on entry, a key-4 press (here
together with `W`, in mode `GL_MIRRORED_REPEAT`) makes `UProcessInput` change a
parameter of the plane's texture `gTextureIdGranite`, although it never binds it. -/
theorem UProcessInput_modifies_plane_texture :
    ((initialGlobals 1 2).gTextureIdGranite,
        Effect.glTexParameterfv .GL_TEXTURE_2D .GL_TEXTURE_BORDER_COLOR borderColor) ∈
      textureWrites (initialGlobals 1 2).gTextureIdGranite
        (UProcessInput (pressed [.KEY_4, .W])
          { initialGlobals 1 2 with gTexWrapMode := .GL_MIRRORED_REPEAT }).2 ∧
    (initialGlobals 1 2).gTextureIdGranite ∉
      boundTextures (UProcessInput (pressed [.KEY_4, .W])
        { initialGlobals 1 2 with gTexWrapMode := .GL_MIRRORED_REPEAT }).2 := by
  decide!

/-! ## Theorems: UV scale -/

theorem wrapModeKeys_uvScale (keys : Key → Bool) (g : Globals) :
    (wrapModeKeys keys g).1.gUVScale = g.gUVScale := by
  unfold wrapModeKeys
  split_ifs <;> rfl

theorem projectionKey_uvScale (keys : Key → Bool) (g : Globals) :
    (projectionKey keys g).1.gUVScale = g.gUVScale := by
  unfold projectionKey
  split_ifs <;> rfl

theorem UProcessInput_uvScale (keys : Key → Bool) (g : Globals) :
    (UProcessInput keys g).1.gUVScale = uvScaleKeys keys g.gUVScale := by
  simp only [UProcessInput, projectionKey_uvScale, wrapModeKeys_uvScale]

theorem holdKeys_uvScale (keys : Key → Bool) (n : Nat) :
    ∀ g : Globals, (holdKeys keys n g).gUVScale = (uvScaleKeys keys)^[n] g.gUVScale := by
  induction n with
  | zero => intro g; rfl
  | succ n ih =>
    intro g
    rw [holdKeys, ih, UProcessInput_uvScale, Function.iterate_succ_apply]

theorem iterate_both (f : F32 → F32) (n : Nat) :
    ∀ a b : F32, (fun uv : F32 × F32 => (f uv.1, f uv.2))^[n] (a, b) = (f^[n] a, f^[n] b) := by
  induction n with
  | zero => intro a b; rfl
  | succ n ih =>
    intro a b
    rw [Function.iterate_succ_apply, ih, Function.iterate_succ_apply,
      Function.iterate_succ_apply]

theorem uvScaleKeys_increment (keys : Key → Bool) (h : keys .RIGHT_BRACKET = true) :
    uvScaleKeys keys = fun uv => (uv.1.add F32.tenth, uv.2.add F32.tenth) := by
  funext uv
  simp [uvScaleKeys, h]

theorem uvScaleKeys_decrement (keys : Key → Bool) (h : keys .RIGHT_BRACKET = false)
    (h' : keys .LEFT_BRACKET = true) :
    uvScaleKeys keys = fun uv => (uv.1.sub F32.tenth, uv.2.sub F32.tenth) := by
  funext uv
  simp [uvScaleKeys, h, h']

theorem tenth_roundtrip_exact : ∀ n, n ≤ 130 →
    (fun x : F32 => x.add F32.tenth)^[n] ((fun x : F32 => x.sub F32.tenth)^[n] F32.five)
      = F32.five := by
  decide!

/-- From the scale (5, 5), 131 frames with `[` held followed by 131 frames with `]` held
leave both components at `10485759 * 2 ^ -21`, one unit in the last place below 5: from
`n = 131` on the round trip is no longer exact. -/
theorem uvScale_roundtrip_drifts :
    (holdKeys (pressed [.RIGHT_BRACKET]) 131
        (holdKeys (pressed [.LEFT_BRACKET]) 131 (initialGlobals 1 2))).gUVScale
      = (F32.ofScaled 10485759 21, F32.ofScaled 10485759 21) ∧
    (holdKeys (pressed [.RIGHT_BRACKET]) 131
        (holdKeys (pressed [.LEFT_BRACKET]) 131 (initialGlobals 1 2))).gUVScale
      ≠ (F32.five, F32.five) := by
  decide!

/-! ## Theorems: UMousePositionCallback -/

theorem F64.sub_self_finite (a : Int) : (F64.finite a).sub (F64.finite a) = F64.finite 0 := by
  have h : F64.round 0 = F64.finite 0 := by decide!
  simp only [F64.sub, F64.neg, F64.add, add_neg_cancel, h]

theorem F64.toF32_zero : (F64.finite 0).toF32 = F32.zero := by decide!

theorem F64.IsF32.sub_self {x : F64} (hx : x.IsF32) :
    (x.sub x).toF32 = F32.zero ∧ x.toF32.toF64 = x := by
  obtain ⟨n, h1, h2⟩ := hx
  rw [h1, h2]
  have h3 : x = F64.finite (n * 2 ^ 925) := by rw [← h2]; rfl
  rw [h3, F64.sub_self_finite, F64.toF32_zero]
  exact ⟨rfl, rfl⟩

/-- C10, as stated, fails: at the position (0.1, 0.1), with the first-mouse flag set, the
offset forwarded to the camera is `(-13421773 * 2 ^ -53, 13421773 * 2 ^ -53)`, the
residue of storing the `double` coordinates in `float`s, and not (0, 0). -/
theorem UMousePositionCallback_first_event_residue :
    (UMousePositionCallback (F64.ofScaled 7205759403792794 56)
        (F64.ofScaled 7205759403792794 56) (initialGlobals 1 2)).2
      = [.cameraProcessMouseMovement (F32.ofScaled (-13421773) 53)
          (F32.ofScaled 13421773 53)] ∧
    (UMousePositionCallback (F64.ofScaled 7205759403792794 56)
        (F64.ofScaled 7205759403792794 56) (initialGlobals 1 2)).2
      ≠ [.cameraProcessMouseMovement F32.zero F32.zero] := by
  decide!

/-- C10, amended: when the first-mouse flag is set, `UMousePositionCallback` clears the
flag and records the position rounded to `float`; for every position whose coordinates
are exactly representable as `float` it forwards the offset (0, 0) to the camera and the
recorded last position is exactly (x, y). -/
theorem UMousePositionCallback_first_event (xpos ypos : F64) (g : Globals)
    (hfirst : g.gFirstMouse = true) :
    (UMousePositionCallback xpos ypos g).1.gFirstMouse = false ∧
    (UMousePositionCallback xpos ypos g).1.gLastX = xpos.toF32 ∧
    (UMousePositionCallback xpos ypos g).1.gLastY = ypos.toF32 ∧
    (xpos.IsF32 → ypos.IsF32 →
      (UMousePositionCallback xpos ypos g).2
        = [.cameraProcessMouseMovement F32.zero F32.zero] ∧
      (UMousePositionCallback xpos ypos g).1.gLastX.toF64 = xpos ∧
      (UMousePositionCallback xpos ypos g).1.gLastY.toF64 = ypos) := by
  refine ⟨?_, ?_, ?_, fun hx hy => ?_⟩
  · simp [UMousePositionCallback, hfirst]
  · simp [UMousePositionCallback]
  · simp [UMousePositionCallback]
  · simp [UMousePositionCallback, hfirst, hx.sub_self.1, hy.sub_self.1, hx.sub_self.2,
      hy.sub_self.2]

/-- Witness of the amended C10: the first event arrives at the pixel position (123, 457). -/
theorem UMousePositionCallback_first_event_witness :
    (UMousePositionCallback (F64.ofScaled 123 0) (F64.ofScaled 457 0)
        (initialGlobals 1 2)).2
      = [.cameraProcessMouseMovement F32.zero F32.zero] ∧
    (UMousePositionCallback (F64.ofScaled 123 0) (F64.ofScaled 457 0)
        (initialGlobals 1 2)).1.gLastX.toF64 = F64.ofScaled 123 0 ∧
    (UMousePositionCallback (F64.ofScaled 123 0) (F64.ofScaled 457 0)
        (initialGlobals 1 2)).1.gLastY.toF64 = F64.ofScaled 457 0 :=
  (UMousePositionCallback_first_event (F64.ofScaled 123 0) (F64.ofScaled 457 0)
    (initialGlobals 1 2) rfl).2.2.2
    ⟨123 * 2 ^ 149, by decide!, by decide!⟩ ⟨457 * 2 ^ 149, by decide!, by decide!⟩

/-! ## Theorems: later mouse events -/

theorem bitLengthStep_inv (a : Nat) (s : Nat × Nat) (k : Nat)
    (h : s.1 * 2 ^ s.2 ≤ a ∧ (s.1 = 0 → s.2 = 0)) :
    (bitLengthStep s k).1 * 2 ^ (bitLengthStep s k).2 ≤ a ∧
      ((bitLengthStep s k).1 = 0 → (bitLengthStep s k).2 = 0) := by
  unfold bitLengthStep
  split_ifs with hk
  · constructor
    · show s.1 / 2 ^ k * 2 ^ (s.2 + k) ≤ a
      have h1 : s.1 / 2 ^ k * 2 ^ k ≤ s.1 := Nat.div_mul_le_self _ _
      calc s.1 / 2 ^ k * 2 ^ (s.2 + k) = s.1 / 2 ^ k * 2 ^ k * 2 ^ s.2 := by
            rw [pow_add]; ring
        _ ≤ s.1 * 2 ^ s.2 := Nat.mul_le_mul_right _ h1
        _ ≤ a := h.1
    · intro h0
      exfalso
      have hpos : 0 < s.1 / 2 ^ k := Nat.div_pos hk (by positivity)
      have h0' : s.1 / 2 ^ k = 0 := h0
      omega
  · exact h

theorem bitLength_foldl_inv (a : Nat) (l : List Nat) :
    ∀ s : Nat × Nat, (s.1 * 2 ^ s.2 ≤ a ∧ (s.1 = 0 → s.2 = 0)) →
      ((l.foldl bitLengthStep s).1 * 2 ^ (l.foldl bitLengthStep s).2 ≤ a ∧
        ((l.foldl bitLengthStep s).1 = 0 → (l.foldl bitLengthStep s).2 = 0)) := by
  induction l with
  | nil => intro s h; exact h
  | cons k ks ih =>
    intro s h
    rw [List.foldl_cons]
    exact ih _ (bitLengthStep_inv a s k h)

theorem bitLength_le {a n : Nat} (h : a < 2 ^ n) : bitLength a ≤ n := by
  unfold bitLength
  have hinv := bitLength_foldl_inv a [2048, 1024, 512, 256, 128, 64, 32, 16, 8, 4, 2, 1] (a, 0)
    ⟨by simp, fun _ => rfl⟩
  generalize List.foldl bitLengthStep (a, 0) [2048, 1024, 512, 256, 128, 64, 32, 16, 8, 4, 2, 1]
    = s at hinv
  simp only []
  split_ifs with h0
  · rw [hinv.2 h0]; exact Nat.zero_le n
  · have h1 : 2 ^ s.2 ≤ s.1 * 2 ^ s.2 := Nat.le_mul_of_pos_left _ (Nat.pos_of_ne_zero h0)
    have h2 : 2 ^ s.2 < 2 ^ n := by omega
    have h3 : s.2 < n := (Nat.pow_lt_pow_iff_right (by norm_num)).1 h2
    omega

theorem roundShift_exact (sh q : Nat) : roundShift sh (q * 2 ^ sh) = q := by
  unfold roundShift
  have hpos : 0 < 2 ^ sh := by positivity
  simp only [Nat.mul_div_cancel _ hpos, Nat.mul_mod_left, Nat.mul_zero, hpos, if_true]

theorem roundNat_exact (p g s k : Nat) (hk : k < 2 ^ p) (hg : g ≤ s) :
    roundNat p g (k * 2 ^ s) = k * 2 ^ (s - g) := by
  unfold roundNat
  have ha : k * 2 ^ s < 2 ^ (p + s) := by
    rw [pow_add]
    exact Nat.mul_lt_mul_of_pos_right hk (by positivity)
  have hb := bitLength_le ha
  have hsh : max (bitLength (k * 2 ^ s) - p) g ≤ s := by
    apply max_le <;> omega
  have hge : g ≤ max (bitLength (k * 2 ^ s) - p) g := le_max_right _ _
  simp only []
  generalize max (bitLength (k * 2 ^ s) - p) g = sh at hsh hge
  have e1 : k * 2 ^ s = (k * 2 ^ (s - sh)) * 2 ^ sh := by
    rw [Nat.mul_assoc, ← pow_add, Nat.sub_add_cancel hsh]
  rw [e1, roundShift_exact, Nat.mul_assoc, ← pow_add]
  congr 2
  omega

theorem two_pow_mul_le (a b c : Nat) (h : a + b ≤ c) : 2 ^ a * 2 ^ b ≤ 2 ^ c := by
  rw [← pow_add]
  exact Nat.pow_le_pow_right (by decide) h

theorem roundNat_exact_zero (p s k : Nat) (hk : k < 2 ^ p) :
    roundNat p 0 (k * 2 ^ s) = k * 2 ^ s := by
  have h := roundNat_exact p 0 s k hk (Nat.zero_le s)
  rw [Nat.sub_zero] at h
  exact h

theorem Int.natAbs_mul_natCast (k : Int) (P : Nat) :
    (k * (P : Int)).natAbs = k.natAbs * P := by
  rw [Int.natAbs_mul, Int.natAbs_ofNat]

theorem Int.signed_natAbs_mul (k : Int) (P Q : Nat) (hP : 0 < P) :
    (if k * (P : Int) < 0 then -((k.natAbs * Q : Nat) : Int) else ((k.natAbs * Q : Nat) : Int))
      = k * Q := by
  have hP' : (0 : Int) < P := by exact_mod_cast hP
  by_cases hneg : k < 0
  · rw [if_pos (Int.mul_neg_of_neg_of_pos hneg hP')]
    push_cast
    rw [abs_of_neg hneg]
    ring
  · have hk : 0 ≤ k := not_lt.1 hneg
    rw [if_neg (not_lt.2 (Int.mul_nonneg hk hP'.le))]
    push_cast
    rw [abs_of_nonneg hk]

theorem F64.toF32_int (k : Int) (hk : k.natAbs < 2 ^ 24) :
    (F64.finite (k * ((2 ^ 1074 : Nat) : Int))).toF32
      = F32.finite (k * ((2 ^ 149 : Nat) : Int)) := by
  have hab := Int.natAbs_mul_natCast k (2 ^ 1074)
  have hlt : ¬ (2 ^ 1202 ≤ k.natAbs * 2 ^ 1074) := by
    have h1 : k.natAbs * 2 ^ 1074 < 2 ^ 24 * 2 ^ 1074 :=
      Nat.mul_lt_mul_of_pos_right hk (by positivity)
    have e : (2 : Nat) ^ 24 * 2 ^ 1074 ≤ 2 ^ 1202 := two_pow_mul_le 24 1074 1202 (by decide)
    exact not_le.2 (lt_of_lt_of_le h1 e)
  have hr : roundNat 24 925 (k.natAbs * 2 ^ 1074) = k.natAbs * 2 ^ 149 :=
    roundNat_exact 24 925 1074 k.natAbs hk (by decide)
  have hlt2 : ¬ (2 ^ 277 ≤ k.natAbs * 2 ^ 149) := by
    have h1 : k.natAbs * 2 ^ 149 < 2 ^ 24 * 2 ^ 149 :=
      Nat.mul_lt_mul_of_pos_right hk (by positivity)
    have e : (2 : Nat) ^ 24 * 2 ^ 149 ≤ 2 ^ 277 := two_pow_mul_le 24 149 277 (by decide)
    exact not_le.2 (lt_of_lt_of_le h1 e)
  rewrite [F64.toF32, hab, if_neg hlt]
  refine Eq.trans (if_neg ?_) ?_
  · rewrite [hr]
    exact hlt2
  have h := Int.signed_natAbs_mul k (2 ^ 1074) (2 ^ 149) (by positivity)
  exact congrArg F32.finite (hr.symm ▸ h)

theorem F64.round_int (k : Int) (hk : k.natAbs < 2 ^ 53) :
    F64.round (k * ((2 ^ 1074 : Nat) : Int)) = F64.finite (k * ((2 ^ 1074 : Nat) : Int)) := by
  have hab := Int.natAbs_mul_natCast k (2 ^ 1074)
  have hlt : ¬ (2 ^ 2098 ≤ k.natAbs * 2 ^ 1074) := by
    have h1 : k.natAbs * 2 ^ 1074 < 2 ^ 53 * 2 ^ 1074 :=
      Nat.mul_lt_mul_of_pos_right hk (by positivity)
    have e : (2 : Nat) ^ 53 * 2 ^ 1074 ≤ 2 ^ 2098 := two_pow_mul_le 53 1074 2098 (by decide)
    exact not_le.2 (lt_of_lt_of_le h1 e)
  have hr : roundNat 53 0 (k.natAbs * 2 ^ 1074) = k.natAbs * 2 ^ 1074 :=
    roundNat_exact_zero 53 1074 k.natAbs hk
  rewrite [F64.round, hab, if_neg hlt]
  refine Eq.trans (if_neg ?_) ?_
  · rewrite [hr]
    exact hlt
  have h := Int.signed_natAbs_mul k (2 ^ 1074) (2 ^ 1074) (by positivity)
  exact congrArg F64.finite (hr.symm ▸ h)

theorem F32.toF64_int (k : Int) :
    (F32.finite (k * ((2 ^ 149 : Nat) : Int))).toF64
      = F64.finite (k * ((2 ^ 1074 : Nat) : Int)) := by
  rewrite [F32.toF64]
  refine congrArg F64.finite ?_
  have e : ((2 ^ 1074 : Nat) : Int) = ((2 ^ 149 : Nat) : Int) * 2 ^ 925 := by
    rw [Nat.cast_pow, Nat.cast_pow, Nat.cast_ofNat, ← pow_add]
  rw [e, mul_assoc]

theorem F64.sub_finite (a b : Int) :
    (F64.finite a).sub (F64.finite b) = F64.round (a + -b) := rfl

theorem F64.sub_int (a b : Int) (h : (a - b).natAbs < 2 ^ 53) :
    (F64.finite (a * ((2 ^ 1074 : Nat) : Int))).sub (F64.finite (b * ((2 ^ 1074 : Nat) : Int)))
      = F64.finite ((a - b) * ((2 ^ 1074 : Nat) : Int)) := by
  rw [F64.sub_finite, ← F64.round_int (a - b) h]
  congr 1
  ring

theorem F64.ofScaled_zero (k : Int) :
    F64.ofScaled k 0 = F64.finite (k * ((2 ^ 1074 : Nat) : Int)) := by
  unfold F64.ofScaled
  rw [Nat.cast_pow]
  rfl

theorem F32.ofScaled_whole (k : Int) :
    F32.ofScaled k 0 = F32.finite (k * ((2 ^ 149 : Nat) : Int)) := by
  unfold F32.ofScaled
  rw [Nat.cast_pow]
  rfl

/-- The offset `UMousePositionCallback` forwards for an event at a whole-number coordinate
`b` when the last coordinate recorded was the whole number `a`. -/
theorem F64.offset_int (a b : Int) (ha : a.natAbs < 2 ^ 23) (hb : b.natAbs < 2 ^ 23) :
    ((F64.ofScaled b 0).sub (F64.ofScaled a 0).toF32.toF64).toF32 = F32.ofScaled (b - a) 0 := by
  have hd : (b - a).natAbs < 2 ^ 24 := by omega
  rw [F64.ofScaled_zero, F64.ofScaled_zero, F32.ofScaled_whole, F64.toF32_int a (by omega),
    F32.toF64_int, F64.sub_int b a (by omega), F64.toF32_int (b - a) hd]


theorem F64.toF32_ofScaled_int (k : Int) (hk : k.natAbs < 2 ^ 24) :
    (F64.ofScaled k 0).toF32 = F32.ofScaled k 0 := by
  rw [F64.ofScaled_zero, F32.ofScaled_whole, F64.toF32_int k hk]

/-- The Y offset of `UMousePositionCallback`, `lastY - ypos`, for whole-number coordinates. -/
theorem F64.offset_back_int (a b : Int) (ha : a.natAbs < 2 ^ 23) (hb : b.natAbs < 2 ^ 23) :
    ((F64.ofScaled a 0).toF32.toF64.sub (F64.ofScaled b 0)).toF32 = F32.ofScaled (a - b) 0 := by
  have hd : (a - b).natAbs < 2 ^ 24 := by omega
  rw [F64.ofScaled_zero, F64.ofScaled_zero, F32.ofScaled_whole, F64.toF32_int a (by omega),
    F32.toF64_int, F64.sub_int a b (by omega), F64.toF32_int (a - b) hd]

theorem UMousePositionCallback_records (xpos ypos : F64) (g : Globals) :
    (UMousePositionCallback xpos ypos g).1.gLastX = xpos.toF32 ∧
      (UMousePositionCallback xpos ypos g).1.gLastY = ypos.toF32 := by
  constructor <;> simp [UMousePositionCallback]

/-- C11, as stated, fails: after a first event at (0.1, 0.1), a second event at the same
position forwards `(-13421773 * 2 ^ -53, 13421773 * 2 ^ -53)` and not
`(x2 - x1, y1 - y2) = (0, 0)`. -/
theorem UMousePositionCallback_second_event_residue :
    (UMousePositionCallback (F64.ofScaled 7205759403792794 56)
        (F64.ofScaled 7205759403792794 56)
        (UMousePositionCallback (F64.ofScaled 7205759403792794 56)
          (F64.ofScaled 7205759403792794 56) (initialGlobals 1 2)).1).2
      = [.cameraProcessMouseMovement (F32.ofScaled (-13421773) 53)
          (F32.ofScaled 13421773 53)] ∧
    (UMousePositionCallback (F64.ofScaled 7205759403792794 56)
        (F64.ofScaled 7205759403792794 56)
        (UMousePositionCallback (F64.ofScaled 7205759403792794 56)
          (F64.ofScaled 7205759403792794 56) (initialGlobals 1 2)).1).2
      ≠ [.cameraProcessMouseMovement F32.zero F32.zero] := by
  decide!

/-- C11, amended: every non-first event at (x, y) forwards `(x - lastX, lastY - y)`, each
difference taken in `double` from the `float` last position and rounded to `float`, and
records (x, y) rounded to `float`; the Y offset is the one inverted.  For a first event
at (x1, y1) followed by a second at (x2, y2), all four whole numbers below `2 ^ 23` in
magnitude, the delta of the second event is exactly `(x2 - x1, y1 - y2)` and the
position recorded is exactly (x2, y2). -/
theorem UMousePositionCallback_later_events (xpos ypos : F64) (g g0 : Globals)
    (x1 y1 x2 y2 : Int) (hlater : g.gFirstMouse = false) (hfirst : g0.gFirstMouse = true)
    (hx1 : x1.natAbs < 2 ^ 23) (hy1 : y1.natAbs < 2 ^ 23)
    (hx2 : x2.natAbs < 2 ^ 23) (hy2 : y2.natAbs < 2 ^ 23) :
    UMousePositionCallback xpos ypos g =
      ({ g with gLastX := xpos.toF32, gLastY := ypos.toF32 },
        [.cameraProcessMouseMovement (xpos.sub g.gLastX.toF64).toF32
          (g.gLastY.toF64.sub ypos).toF32]) ∧
    (UMousePositionCallback (F64.ofScaled x2 0) (F64.ofScaled y2 0)
        (UMousePositionCallback (F64.ofScaled x1 0) (F64.ofScaled y1 0) g0).1).2
      = [.cameraProcessMouseMovement (F32.ofScaled (x2 - x1) 0) (F32.ofScaled (y1 - y2) 0)] ∧
    (UMousePositionCallback (F64.ofScaled x2 0) (F64.ofScaled y2 0)
        (UMousePositionCallback (F64.ofScaled x1 0) (F64.ofScaled y1 0) g0).1).1.gLastX
      = F32.ofScaled x2 0 ∧
    (UMousePositionCallback (F64.ofScaled x2 0) (F64.ofScaled y2 0)
        (UMousePositionCallback (F64.ofScaled x1 0) (F64.ofScaled y1 0) g0).1).1.gLastY
      = F32.ofScaled y2 0 := by
  have hx := F64.offset_int x1 x2 hx1 hx2
  have hy := F64.offset_back_int y1 y2 hy1 hy2
  have ex2 := F64.toF32_ofScaled_int x2 (by omega)
  have ey2 := F64.toF32_ofScaled_int y2 (by omega)
  refine ⟨?_, ?_, ?_, ?_⟩
  · simp [UMousePositionCallback, hlater]
  · simp [UMousePositionCallback, hfirst, hx, hy]
  · rw [(UMousePositionCallback_records _ _ _).1, ex2]
  · rw [(UMousePositionCallback_records _ _ _).2, ey2]

/-- Witness of the amended C11: a first event at (123, 457) followed by a second at (130, 450) forwards
the delta (7, 7) and records (130, 450). -/
theorem UMousePositionCallback_later_events_witness :
    (UMousePositionCallback (F64.ofScaled 130 0) (F64.ofScaled 450 0)
        (UMousePositionCallback (F64.ofScaled 123 0) (F64.ofScaled 457 0)
          (initialGlobals 1 2)).1).2
      = [.cameraProcessMouseMovement (F32.ofScaled (130 - 123) 0)
          (F32.ofScaled (457 - 450) 0)] ∧
    (UMousePositionCallback (F64.ofScaled 130 0) (F64.ofScaled 450 0)
        (UMousePositionCallback (F64.ofScaled 123 0) (F64.ofScaled 457 0)
          (initialGlobals 1 2)).1).1.gLastX
      = F32.ofScaled 130 0 ∧
    (UMousePositionCallback (F64.ofScaled 130 0) (F64.ofScaled 450 0)
        (UMousePositionCallback (F64.ofScaled 123 0) (F64.ofScaled 457 0)
          (initialGlobals 1 2)).1).1.gLastY
      = F32.ofScaled 450 0 :=
  (UMousePositionCallback_later_events (F64.ofScaled 130 0) (F64.ofScaled 450 0)
    { initialGlobals 1 2 with gFirstMouse := false } (initialGlobals 1 2) 123 457 130 450
    rfl rfl (by decide) (by decide) (by decide) (by decide)).2

/-! ## Theorems: UCreateShaderProgram -/

/-- C12: `UCreateShaderProgram` returns `true` exactly when the vertex stage compiles, the
fragment stage compiles and the program links; when either stage fails to compile it
returns `false` without any `glAttachShader` or `glLinkProgram` call; on every failure
no `glUseProgram` is issued, and on success the last call is `glUseProgram(programId)`. -/
theorem UCreateShaderProgram_success_iff (vtx frag : ShaderSource) (o : ShaderOutcome)
    (programId vertexShaderId fragmentShaderId : Nat) :
    ((UCreateShaderProgram vtx frag o programId vertexShaderId fragmentShaderId).1 = true ↔
      (o.vertexCompiles = true ∧ o.fragmentCompiles = true ∧ o.links = true)) ∧
    ((o.vertexCompiles = false ∨ o.fragmentCompiles = false) →
      (UCreateShaderProgram vtx frag o programId vertexShaderId fragmentShaderId).1 = false ∧
      ∀ e ∈ (UCreateShaderProgram vtx frag o programId vertexShaderId fragmentShaderId).2,
        (∀ p s, e ≠ .glAttachShader p s) ∧ (∀ p, e ≠ .glLinkProgram p)) ∧
    ((UCreateShaderProgram vtx frag o programId vertexShaderId fragmentShaderId).1 = false →
      ∀ e ∈ (UCreateShaderProgram vtx frag o programId vertexShaderId fragmentShaderId).2,
        ∀ p, e ≠ .glUseProgram p) ∧
    ((UCreateShaderProgram vtx frag o programId vertexShaderId fragmentShaderId).1 = true →
      (UCreateShaderProgram vtx frag o programId vertexShaderId fragmentShaderId).2.getLast?
        = some (.glUseProgram programId)) := by
  obtain ⟨v, f, l⟩ := o
  cases v <;> cases f <;> cases l <;> simp [UCreateShaderProgram]

/-! ## Theorems: main -/

theorem count_renderLoop (n : Nat) :
    (renderLoop n).count .UProcessInput = n ∧ (renderLoop n).count .URender = n := by
  induction n with
  | zero => exact ⟨rfl, rfl⟩
  | succ n ih =>
    constructor
    · simp only [renderLoop, List.count_append, ih.1]
      rw [Nat.add_comm]
      rfl
    · simp only [renderLoop, List.count_append, ih.2]
      rw [Nat.add_comm]
      rfl

/-- C13: when `UInitialize`, one of the three `UCreateShaderProgram` calls or one of the two
`UCreateTexture` calls returns `false`, `main` returns `EXIT_FAILURE` with no
`UProcessInput` and no `URender` call; when all succeed it runs `UProcessInput` and
`URender` once per iteration of the loop and ends with `EXIT_SUCCESS`. -/
theorem main_startup_failure_is_fatal (o : StartupOutcome) (r : RenderResources)
    (frames : Nat) :
    (o.allSucceeded = false →
      (main o r frames).1 = EXIT_FAILURE ∧ MainStep.UProcessInput ∉ (main o r frames).2 ∧
        MainStep.URender ∉ (main o r frames).2) ∧
    (o.allSucceeded = true →
      (main o r frames).1 = EXIT_SUCCESS ∧
        (main o r frames).2.count .UProcessInput = frames ∧
        (main o r frames).2.count .URender = frames) := by
  obtain ⟨a, b, c, d, e, f⟩ := o
  have hc := count_renderLoop frames
  cases a <;> cases b <;> cases c <;> cases d <;> cases e <;> cases f <;>
    simp [main, StartupOutcome.allSucceeded, samplerSetup, List.count_append, hc,
      EXIT_SUCCESS, EXIT_FAILURE]

/-! ## Theorems: the destroy functions and the sampler setup -/

/-- C14: the claim is that `UDestroyTexture(h)` deletes texture `h` and allocates nothing; the
code issues no `glDeleteTextures` call at all: its only call is `glGenTextures`, which
allocates a new texture name. -/
theorem UDestroyTexture_generates_a_texture (textureId name : Nat) :
    UDestroyTexture textureId name = [.glGenTextures name] ∧
    (∀ texture, Effect.glDeleteTextures texture ∉ UDestroyTexture textureId name) ∧
    UDestroyShaderProgram textureId = [.glDeleteProgram textureId] := by
  simp [UDestroyTexture, UDestroyShaderProgram]

/-- C15: the claim is that the plane program's sampler `uTexture1` is set to unit 1 through
that program's own location; in the code both sampler updates are addressed to locations
looked up in the pyramid program, the second one, for `uTexture1`, while the plane program
is in use, so that no uniform of the plane program is set, and `uTexture1` is not a
uniform of the pyramid program. -/
theorem samplerSetup_addresses_pyramid_program :
    (∀ r : RenderResources, uniformUploads 0 (samplerSetup r) =
      [(r.gPyramidProgramId, ⟨r.gPyramidProgramId, .uTexture⟩),
       (r.gPlaneProgramId, ⟨r.gPyramidProgramId, .uTexture1⟩)]) ∧
    uploadedNames sampleResources.gPyramidProgramId (samplerSetup sampleResources)
      = [.uTexture] ∧
    uploadedNames sampleResources.gPlaneProgramId (samplerSetup sampleResources) = [] ∧
    UniformName.uTexture1 ∉ declaredUniforms .pyramid ∧
    UniformName.uTexture1 ∈ declaredUniforms .plane := by
  refine ⟨fun r => rfl, ?_, ?_, ?_, ?_⟩ <;> decide

/-! ## Theorems: URender -/

/-- C16: the claim is that every frame uploads `viewPosition` to the plane program as it does
to the object program; in the code the only `viewPosition` update of a frame is addressed
to the pyramid program, and the plane program receives model, view, projection,
objectColor, lightColor, lightPos and uvScale only.  The object program receives all
eight uniforms and the lamp program exactly model, view and projection. -/
theorem URender_plane_viewPosition_missing :
    (∀ (r : RenderResources) (g : Globals) (gCamera : Camera),
      (((URender r g gCamera).filterMap Effect.uniformLocation).filter
        (fun l => decide (l.name = .viewPosition)))
        = [⟨r.gPyramidProgramId, .viewPosition⟩]) ∧
    uploadedNames sampleResources.gPlaneProgramId
        (URender sampleResources (initialGlobals 1 2) sampleCamera)
      = [.model, .view, .projection, .objectColor, .lightColor, .lightPos, .uvScale] ∧
    uploadedNames sampleResources.gPyramidProgramId
        (URender sampleResources (initialGlobals 1 2) sampleCamera)
      = [.model, .view, .projection, .objectColor, .lightColor, .lightPos, .viewPosition,
          .uvScale] ∧
    uploadedNames sampleResources.gLampProgramId
        (URender sampleResources (initialGlobals 1 2) sampleCamera)
      = [.model, .view, .projection] ∧
    UniformName.viewPosition ∈ declaredUniforms .plane := by
  refine ⟨fun r g gCamera => rfl, ?_, ?_, ?_, ?_⟩ <;> decide

theorem verts_length : bottleVerts.length = 960 ∧ planeVerts.length = 48 ∧
    verts.length = 1008 := by
  decide!

/-- C17, as stated, fails: for the mesh `UCreateMesh` builds, with 120 bottle vertices
followed by 6 plane vertices, the three draw calls of a frame all cover the whole buffer,
`first = 0` and `count = 126`, and not the ranges (0, 120), (120, 6), (0, 120). -/
theorem URender_draws_whole_buffer :
    drawRanges (URender sampleResources (initialGlobals 1 2) sampleCamera)
      = [(0, 126), (0, 126), (0, 126)] ∧
    drawRanges (URender sampleResources (initialGlobals 1 2) sampleCamera)
      ≠ [(0, 120), (120, 6), (0, 120)] ∧
    bottleVerts.length = 8 * 120 ∧ planeVerts.length = 8 * 6 := by
  decide!

/-- C17, amended: in every frame each of the three draw calls, object, plane and lamp, covers
the whole shared vertex buffer, `first = 0` and `count = gMesh.nVertices`; for the mesh
of `UCreateMesh` that count is the bottle's vertices plus the plane's. -/
theorem URender_draw_ranges (r : RenderResources) (g : Globals) (gCamera : Camera)
    (vao vbo : Nat) :
    drawRanges (URender r g gCamera)
      = [(0, r.gMesh.nVertices), (0, r.gMesh.nVertices), (0, r.gMesh.nVertices)] ∧
    (UCreateMesh vao vbo).1.nVertices = bottleVerts.length / 8 + planeVerts.length / 8 := by
  refine ⟨rfl, ?_⟩
  show (verts.length * sizeofFloat) / (sizeofFloat * (3 + 3 + 2)) = _
  rw [verts_length.1, verts_length.2.1, verts_length.2.2]
  rfl

/-! ## Theorems: the model matrices -/

theorem F32.toRat_ofScaled (m : Int) (e : Nat) (he : e ≤ 149) :
    (F32.ofScaled m e).toRat = (m : ℚ) / 2 ^ e := by
  show ((m * 2 ^ (149 - e) : Int) : ℚ) / 2 ^ 149 = (m : ℚ) / 2 ^ e
  have h : (2 : ℚ) ^ 149 = 2 ^ e * 2 ^ (149 - e) := by
    rw [← pow_add]
    congr 1
    omega
  have h2 : ((2 : ℚ) ^ (149 - e)) ≠ 0 := by positivity
  have h3 : ((2 : ℚ) ^ e) ≠ 0 := by positivity
  push_cast
  rw [h]
  field_simp
  ring

theorem UProcessInput_no_keys (g : Globals) : UProcessInput (pressed []) g = (g, []) := by
  simp [UProcessInput, wrapModeKeys, uvScaleKeys, projectionKey, closeAndMoveCalls, pressed]

theorem frame_idle (r : RenderResources) (cameraCall : Effect → Camera → Camera)
    (time : F64) (s : FrameState) :
    frame r cameraCall (idleInput time) s =
      ({ globals := { s.globals with gDeltaTime := time.toF32.sub s.gLastFrame },
         gLastFrame := time.toF32, gCamera := s.gCamera },
        URender r s.globals s.gCamera, []) := by
  simp [frame, idleInput, UProcessInput_no_keys, pollMouse, cameraAfter, URender]

/-- C19: `URender` returns nothing but the calls it issues, computed from the resources, the
globals and the camera, and does not read the frame timing; for every list of timestamps
and every camera class, the iterations of the loop with no key pressed and no cursor event
issue the same `URender` calls, those of the starting state, once per iteration, and leave
every global but `gDeltaTime` and `gLastFrame`, and the camera, as they were. -/
theorem URender_idle_frames_identical (r : RenderResources)
    (cameraCall : Effect → Camera → Camera) (times : List F64) (s : FrameState) :
    (∀ deltaTime, URender r { s.globals with gDeltaTime := deltaTime } s.gCamera
      = URender r s.globals s.gCamera) ∧
    renderedFrames r cameraCall (times.map idleInput) s
      = List.replicate times.length (URender r s.globals s.gCamera) ∧
    ∃ deltaTime lastFrame, stateAfterFrames r cameraCall (times.map idleInput) s
      = { globals := { s.globals with gDeltaTime := deltaTime }, gLastFrame := lastFrame,
          gCamera := s.gCamera } := by
  refine ⟨fun _ => rfl, ?_, ?_⟩
  · induction times generalizing s with
    | nil => rfl
    | cons t ts ih =>
      simp only [List.map_cons, renderedFrames, frame_idle, List.length_cons,
        List.replicate_succ]
      rw [ih]
      rfl
  · induction times generalizing s with
    | nil => exact ⟨s.globals.gDeltaTime, s.gLastFrame, rfl⟩
    | cons t ts ih =>
      simp only [List.map_cons, stateAfterFrames, frame_idle]
      obtain ⟨d, l, h⟩ := ih
        { globals := { s.globals with gDeltaTime := t.toF32.sub s.gLastFrame },
          gLastFrame := t.toF32, gCamera := s.gCamera }
      exact ⟨d, l, h⟩

/-! ## Theorems: UCreateMesh -/

/-- C20: the array `verts` holds 1008 floats, a whole number of 8-float vertices;
`UCreateMesh` sets `nVertices` to `sizeof(verts) / (sizeof(float) * 8)`, which is the
number of floats divided by 8, that is 126, a multiple of 3. -/
theorem UCreateMesh_vertex_count (vao vbo : Nat) :
    verts.length % (3 + 3 + 2) = 0 ∧
    (UCreateMesh vao vbo).1.nVertices = verts.length / (3 + 3 + 2) ∧
    (UCreateMesh vao vbo).1.nVertices = 126 ∧
    (UCreateMesh vao vbo).1.nVertices % 3 = 0 := by
  have h : (UCreateMesh vao vbo).1.nVertices
      = (verts.length * sizeofFloat) / (sizeofFloat * (3 + 3 + 2)) := rfl
  rw [h, verts_length.2.2]
  decide

/-! ## Theorems: the projection toggle -/

theorem wrapModeKeys_projection (keys : Key → Bool) (g : Globals) :
    (wrapModeKeys keys g).1.gIsViewOrthographic = g.gIsViewOrthographic := by
  unfold wrapModeKeys
  split_ifs <;> rfl

theorem UProcessInput_projection (keys : Key → Bool) (g : Globals) :
    (UProcessInput keys g).1.gIsViewOrthographic
      = (if keys .P = true then !g.gIsViewOrthographic else g.gIsViewOrthographic) := by
  have h := wrapModeKeys_projection keys g
  simp only [UProcessInput, projectionKey]
  cases hP : keys .P <;> cases hg : g.gIsViewOrthographic <;> simp_all

theorem holdKeys_projection (keys : Key → Bool) (k : Nat) : ∀ g : Globals,
    (holdKeys keys k g).gIsViewOrthographic
      = (if keys .P = true ∧ k % 2 = 1 then !g.gIsViewOrthographic
          else g.gIsViewOrthographic) := by
  induction k with
  | zero => intro g; simp [holdKeys]
  | succ k ih =>
    intro g
    rw [holdKeys, ih, UProcessInput_projection]
    rcases Nat.mod_two_eq_zero_or_one k with h | h
    · have h2 : (k + 1) % 2 = 1 := by omega
      cases hP : keys .P <;> simp [h, h2]
    · have h2 : (k + 1) % 2 = 0 := by omega
      cases hP : keys .P <;> simp [h, h2]

/-- C21: every call of `UProcessInput` with `P` pressed negates `gIsViewOrthographic` (one
of the two branches of the `if / else if` runs, issuing `glOrtho` when the flag becomes
`true` and `gluPerspective` when it becomes `false`), every call without `P` leaves the
flag as it was, and after `k` consecutive calls with `P` held the flag is negated for odd
`k` and back at its starting value for even `k`. -/
theorem UProcessInput_projection_toggle (keys : Key → Bool) (g : Globals) (k : Nat) :
    (UProcessInput keys g).1.gIsViewOrthographic
      = (if keys .P = true then !g.gIsViewOrthographic else g.gIsViewOrthographic) ∧
    (Effect.glOrtho ∈ (UProcessInput keys g).2 ↔
      (keys .P = true ∧ g.gIsViewOrthographic = false)) ∧
    (Effect.gluPerspective ∈ (UProcessInput keys g).2 ↔
      (keys .P = true ∧ g.gIsViewOrthographic = true)) ∧
    (holdKeys keys k g).gIsViewOrthographic
      = (if keys .P = true ∧ k % 2 = 1 then !g.gIsViewOrthographic
          else g.gIsViewOrthographic) ∧
    (initialGlobals 1 2).gIsViewOrthographic = true := by
  refine ⟨UProcessInput_projection keys g, ?_, ?_, holdKeys_projection keys k g, rfl⟩
  · have h := wrapModeKeys_projection keys g
    constructor
    · intro hm
      simp only [UProcessInput, List.mem_append] at hm
      rcases hm with (hm | hm) | hm
      · exfalso
        simp only [closeAndMoveCalls, List.mem_append] at hm
        rcases hm with (((((hm | hm) | hm) | hm) | hm) | hm) | hm <;>
          (have hx := mem_ite_singleton hm; cases hx)
      · unfold wrapModeKeys at hm
        split_ifs at hm <;> simp [wrapCalls] at hm
      · unfold projectionKey at hm
        split_ifs at hm with h1 h2
        · exact ⟨h1.1, by simpa [h] using h1.2⟩
        · simp at hm
        · simp at hm
    · intro ⟨hP, hg⟩
      simp [UProcessInput, projectionKey, hP, hg, h]
  · have h := wrapModeKeys_projection keys g
    constructor
    · intro hm
      simp only [UProcessInput, List.mem_append] at hm
      rcases hm with (hm | hm) | hm
      · exfalso
        simp only [closeAndMoveCalls, List.mem_append] at hm
        rcases hm with (((((hm | hm) | hm) | hm) | hm) | hm) | hm <;>
          (have hx := mem_ite_singleton hm; cases hx)
      · unfold wrapModeKeys at hm
        split_ifs at hm <;> simp [wrapCalls] at hm
      · unfold projectionKey at hm
        split_ifs at hm with h1 h2
        · simp at hm
        · exact ⟨h2.1, by simpa [h] using h2.2⟩
        · simp at hm
    · intro ⟨hP, hg⟩
      simp [UProcessInput, projectionKey, hP, hg, h]

/-! ## Theorems: the projection matrix of a frame -/

/-- C22: `URender` does not read `gIsViewOrthographic`: for states that differ only in that
flag it issues the same calls, and the projection it uploads to each of the three
programs is `glm::perspective(glm::radians(gCamera.Zoom), 800 / 600, 0.1f, 100.0f)`. -/
theorem URender_ignores_projection_flag (r : RenderResources) (g : Globals)
    (gCamera : Camera) (flag : Bool) :
    URender r { g with gIsViewOrthographic := flag } gCamera = URender r g gCamera ∧
    projectionUploads (URender r g gCamera)
      = [ (r.gPyramidProgramId,
            .perspective gCamera.Zoom 800 600 (F32.ofDecimal 1 1) (F32.ofDecimal 1000 1)),
          (r.gPlaneProgramId,
            .perspective gCamera.Zoom 800 600 (F32.ofDecimal 1 1) (F32.ofDecimal 1000 1)),
          (r.gLampProgramId,
            .perspective gCamera.Zoom 800 600 (F32.ofDecimal 1 1) (F32.ofDecimal 1000 1)) ] ∧
    F32.ofDecimal 1 1 = F32.tenth ∧ F32.ofDecimal 1000 1 = F32.ofScaled 100 0 := by
  refine ⟨rfl, rfl, ?_, ?_⟩ <;> decide!

/-! ## Theorems: the recorded wrap mode -/

theorem texturesAfter_append (a b : List Effect) : ∀ t : TextureState,
    texturesAfter (a ++ b) t = texturesAfter b (texturesAfter a t) := by
  induction a with
  | nil => intro t; rfl
  | cons e es ih => intro t; exact ih _

theorem onTextures_quiet (e : Effect) (h1 : e.isBindTexture = false)
    (h2 : e.parameterName = none) (t : TextureState) : e.onTextures t = t := by
  cases e <;> simp_all [Effect.isBindTexture, Effect.parameterName, Effect.onTextures]

theorem texturesAfter_quiet (a : List Effect)
    (h : ∀ e ∈ a, e.isBindTexture = false ∧ e.parameterName = none) :
    ∀ t : TextureState, texturesAfter a t = t := by
  induction a with
  | nil => intro t; rfl
  | cons e es ih =>
    intro t
    have he := h e (List.mem_cons_self _ _)
    rw [texturesAfter, onTextures_quiet e he.1 he.2]
    exact ih (fun x hx => h x (List.mem_cons_of_mem _ hx)) t

theorem wrapModeKeys_pink (keys : Key → Bool) (g : Globals) :
    (wrapModeKeys keys g).1.gTextureIdPink = g.gTextureIdPink := by
  unfold wrapModeKeys
  split_ifs <;> rfl

theorem UProcessInput_pink (keys : Key → Bool) (g : Globals) :
    (UProcessInput keys g).1.gTextureIdPink = g.gTextureIdPink := by
  have h := wrapModeKeys_pink keys g
  simp only [UProcessInput, projectionKey]
  split_ifs <;> exact h

theorem UProcessInput_texturesAfter (keys : Key → Bool) (g : Globals) (t : TextureState) :
    texturesAfter (UProcessInput keys g).2 t = texturesAfter (wrapModeKeys keys g).2 t := by
  simp only [UProcessInput, texturesAfter_append]
  rw [texturesAfter_quiet (closeAndMoveCalls keys g)
    (fun e he => ⟨(closeAndMoveCalls_no_texture keys g e he).1,
      (closeAndMoveCalls_no_texture keys g e he).2.1⟩)]
  exact texturesAfter_quiet _
    (fun e he => ⟨(projectionKey_no_texture keys _ e he).1,
      (projectionKey_no_texture keys _ e he).2.1⟩) _

theorem texturesAfter_wrapCalls (g : Globals) (mode : GLenum) (t : TextureState) :
    (texturesAfter (wrapCalls g mode) t).wrapS g.gTextureIdPink = mode ∧
    (texturesAfter (wrapCalls g mode) t).wrapT g.gTextureIdPink = mode := by
  simp [wrapCalls, texturesAfter, Effect.onTextures]

theorem UProcessInput_wrapModeRecorded (keys : Key → Bool) (s : Globals × TextureState)
    (h : wrapModeRecorded s) :
    wrapModeRecorded ((UProcessInput keys s.1).1, texturesAfter (UProcessInput keys s.1).2 s.2) := by
  obtain ⟨g, t⟩ := s
  obtain ⟨hm, hs, ht⟩ := h
  simp only [wrapModeRecorded, UProcessInput_pink, UProcessInput_wrapMode,
    UProcessInput_texturesAfter] at hm hs ht ⊢
  unfold wrapModeKeys
  split_ifs
  · exact ⟨by simp [wrapModes], texturesAfter_wrapCalls g _ t⟩
  · exact ⟨by simp [wrapModes], texturesAfter_wrapCalls g _ t⟩
  · exact ⟨by simp [wrapModes], texturesAfter_wrapCalls g _ t⟩
  · refine ⟨by simp [wrapModes], ?_⟩
    simp [wrapCalls, texturesAfter, Effect.onTextures]
  · exact ⟨hm, hs, ht⟩

theorem inputSequence_wrapModeRecorded (inputs : List (Key → Bool)) :
    ∀ s : Globals × TextureState, wrapModeRecorded s →
      wrapModeRecorded (inputSequence inputs s) := by
  induction inputs with
  | nil => intro s h; exact h
  | cons keys rest ih =>
    intro s h
    exact ih _ (UProcessInput_wrapModeRecorded keys s h)

theorem UCreateTexture_success_trace (img : StbImage) (textureId name : Nat)
    (r : TextureResult) (h : UCreateTexture (some img) textureId name = some r)
    (hs : r.success = true) :
    r.textureId = name ∧ ∃ upload : Effect, upload.isBindTexture = false ∧
      upload.parameterName = none ∧
      r.trace = textureSetup name ++ [upload] ++ textureFinish := by
  simp only [UCreateTexture] at h
  cases hf : flipImageVertically img.pixels img.width img.height img.channels with
  | none => rw [hf] at h; simp at h
  | some image =>
    rw [hf] at h
    simp only at h
    split_ifs at h
    · cases h
      exact ⟨rfl, .glTexImage2D _ _ _ _ _ _ _ _ _, rfl, rfl, rfl⟩
    · cases h
      exact ⟨rfl, .glTexImage2D _ _ _ _ _ _ _ _ _, rfl, rfl, rfl⟩
    · cases h
      simp at hs

theorem texturesAfter_creation (name : Nat) (upload : Effect)
    (h1 : upload.isBindTexture = false) (h2 : upload.parameterName = none)
    (t : TextureState) :
    texturesAfter (textureSetup name ++ [upload] ++ textureFinish) t
      = { bound := 1, wrapS := Function.update t.wrapS name .GL_REPEAT,
          wrapT := Function.update t.wrapT name .GL_REPEAT } := by
  rw [texturesAfter_append, texturesAfter_append]
  have e1 : texturesAfter (textureSetup name) t
      = { bound := name, wrapS := Function.update t.wrapS name .GL_REPEAT,
          wrapT := Function.update t.wrapT name .GL_REPEAT } := by
    simp [textureSetup, texturesAfter, Effect.onTextures]
  have e2 : ∀ u : TextureState, texturesAfter [upload] u = u := fun u => by
    rw [texturesAfter, onTextures_quiet upload h1 h2]
    rfl
  rw [e1, e2]
  simp [texturesAfter, textureFinish, Effect.onTextures]

/-- C23: from the startup state (the startup values of the globals, and the texture state
after the two successful `UCreateTexture` calls of `main`), after any sequence of
`UProcessInput` calls with any keys pressed, `gTexWrapMode` is one of `GL_REPEAT`,
`GL_MIRRORED_REPEAT`, `GL_CLAMP_TO_EDGE`, `GL_CLAMP_TO_BORDER` and equals both the
`GL_TEXTURE_WRAP_S` and the `GL_TEXTURE_WRAP_T` parameter of the texture
`gTextureIdPink`, which is the texture the first `UCreateTexture` call created; `URender`
changes no wrap parameter. -/
theorem gTexWrapMode_matches_texture (pinkImage graniteImage : StbImage)
    (id1 id2 pink granite : Nat) (pinkTexture graniteTexture : TextureResult)
    (t : TextureState) (inputs : List (Key → Bool))
    (hp : UCreateTexture (some pinkImage) id1 pink = some pinkTexture)
    (hps : pinkTexture.success = true)
    (hg : UCreateTexture (some graniteImage) id2 granite = some graniteTexture)
    (hgs : graniteTexture.success = true) :
    wrapModeRecorded (inputSequence inputs (startupState pinkTexture graniteTexture t)) ∧
    (inputSequence inputs (startupState pinkTexture graniteTexture t)).1.gTextureIdPink
      = pink ∧
    ∀ (r : RenderResources) (g : Globals) (gCamera : Camera) (u : TextureState),
      (texturesAfter (URender r g gCamera) u).wrapS = u.wrapS ∧
      (texturesAfter (URender r g gCamera) u).wrapT = u.wrapT := by
  obtain ⟨hidp, up, hup1, hup2, htp⟩ :=
    UCreateTexture_success_trace pinkImage id1 pink pinkTexture hp hps
  obtain ⟨hidg, ug, hug1, hug2, htg⟩ :=
    UCreateTexture_success_trace graniteImage id2 granite graniteTexture hg hgs
  have hstart : wrapModeRecorded (startupState pinkTexture graniteTexture t) := by
    simp only [wrapModeRecorded, startupState, texturesAfter_append, htp, htg,
      texturesAfter_creation _ _ hup1 hup2, texturesAfter_creation _ _ hug1 hug2, hidp]
    refine ⟨by simp [initialGlobals, wrapModes], ?_, ?_⟩
    · by_cases hne : pink = granite
      · subst hne
        simp [initialGlobals]
      · simp [initialGlobals, Function.update, hne]
    · by_cases hne : pink = granite
      · subst hne
        simp [initialGlobals]
      · simp [initialGlobals, Function.update, hne]
  refine ⟨inputSequence_wrapModeRecorded inputs _ hstart, ?_, fun r g gCamera u => ⟨rfl, rfl⟩⟩
  have hpink : ∀ (l : List (Key → Bool)) (s : Globals × TextureState),
      (inputSequence l s).1.gTextureIdPink = s.1.gTextureIdPink := by
    intro l
    induction l with
    | nil => intro s; rfl
    | cons keys rest ih =>
      intro s
      rw [inputSequence, ih, UProcessInput_pink]
  rw [hpink]
  exact hidp

/-- Witness of C23: both textures are created from a 1-by-2 RGB image with the names 1 and
2; key 2, then key 4 with `W`, then no key leave `GL_CLAMP_TO_BORDER` recorded and set. -/
theorem gTexWrapMode_matches_texture_witness :
    (wrapModeRecorded (inputSequence [pressed [.KEY_2], pressed [.KEY_4, .W], pressed []]
        (startupState (sampleTexture 1) (sampleTexture 2) initialTextures)) ∧
      (inputSequence [pressed [.KEY_2], pressed [.KEY_4, .W], pressed []]
        (startupState (sampleTexture 1) (sampleTexture 2) initialTextures)).1.gTextureIdPink
        = 1 ∧
      ∀ (r : RenderResources) (g : Globals) (gCamera : Camera) (u : TextureState),
        (texturesAfter (URender r g gCamera) u).wrapS = u.wrapS ∧
        (texturesAfter (URender r g gCamera) u).wrapT = u.wrapT) ∧
    (inputSequence [pressed [.KEY_2], pressed [.KEY_4, .W], pressed []]
        (startupState (sampleTexture 1) (sampleTexture 2) initialTextures)).1.gTexWrapMode
      = .GL_CLAMP_TO_BORDER :=
  ⟨gTexWrapMode_matches_texture sampleImage sampleImage 0 0 1 2 (sampleTexture 1)
      (sampleTexture 2) initialTextures _ (by decide) rfl (by decide) rfl,
    by decide⟩

/-! ## Theorems: the buffer accesses of flipImageVertically -/

theorem swapBytes_some (image out : List Byte) (a b : Int)
    (h : swapBytes image a b = some out) :
    InBuffer image.length (a, b) ∧ out.length = image.length := by
  unfold swapBytes at h
  split_ifs at h with hneg
  have ha0 : 0 ≤ a := by omega
  have hb0 : 0 ≤ b := by omega
  cases h1 : image[a.toNat]? with
  | none => rw [h1] at h; simp at h
  | some x =>
    cases h2 : image[b.toNat]? with
    | none => rw [h1, h2] at h; simp at h
    | some y =>
      rw [h1, h2] at h
      simp only [Option.some.injEq] at h
      have hla : a.toNat < image.length := by
        by_contra hc
        rw [List.getElem?_eq_none (by omega)] at h1
        cases h1
      have hlb : b.toNat < image.length := by
        by_contra hc
        rw [List.getElem?_eq_none (by omega)] at h2
        cases h2
      refine ⟨⟨ha0, by show a < _; omega, hb0, by show b < _; omega⟩, ?_⟩
      rw [← h]
      simp

theorem swapBytes_inBuffer (image : List Byte) (a b : Int)
    (h : InBuffer image.length (a, b)) :
    ∃ out, swapBytes image a b = some out ∧ out.length = image.length := by
  have ha0 : 0 ≤ a := h.1
  have ha : a < image.length := h.2.1
  have hb0 : 0 ≤ b := h.2.2.1
  have hb : b < image.length := h.2.2.2
  obtain ⟨a', rfl⟩ := Int.eq_ofNat_of_zero_le ha0
  obtain ⟨b', rfl⟩ := Int.eq_ofNat_of_zero_le hb0
  have ha' : a' < image.length := by exact_mod_cast ha
  have hb' : b' < image.length := by exact_mod_cast hb
  exact ⟨_, swapBytes_of_lt image a' b' ha' hb', by simp⟩

theorem flipRowLoop_length (n : Nat) : ∀ (image out : List Byte) (a b : Int),
    flipRowLoop n image a b = some out → out.length = image.length := by
  induction n with
  | zero =>
    intro image out a b h
    simp only [flipRowLoop, Option.some.injEq] at h
    rw [h]
  | succ n ih =>
    intro image out a b h
    rw [flipRowLoop] at h
    cases hs : swapBytes image a b with
    | none => rw [hs] at h; simp at h
    | some image1 =>
      rw [hs] at h
      rw [ih image1 out _ _ h, (swapBytes_some image image1 a b hs).2]

theorem flipRowLoop_isSome_iff (n : Nat) : ∀ (image : List Byte) (a b : Int),
    (flipRowLoop n image a b).isSome = true ↔
      ∀ p ∈ rowAccesses n a b, InBuffer image.length p := by
  induction n with
  | zero =>
    intro image a b
    simp [flipRowLoop, rowAccesses]
  | succ n ih =>
    intro image a b
    rw [flipRowLoop, rowAccesses]
    cases hs : swapBytes image a b with
    | none =>
      simp only [Option.isSome_none, Bool.false_eq_true, false_iff]
      intro hall
      obtain ⟨out, hout, _⟩ := swapBytes_inBuffer image a b (hall _ (List.mem_cons_self _ _))
      rw [hs] at hout
      cases hout
    | some image1 =>
      obtain ⟨hin, hlen⟩ := swapBytes_some image image1 a b hs
      simp only
      rw [ih image1, hlen]
      constructor
      · intro hall p hp
        rcases List.mem_cons.mp hp with rfl | hp
        · exact hin
        · exact hall p hp
      · intro hall p hp
        exact hall p (List.mem_cons_of_mem _ hp)

theorem flipOuterLoop_isSome_iff (n : Nat) : ∀ (image : List Byte) (j w h c : Int),
    (flipOuterLoop n image j w h c).isSome = true ↔
      ∀ row ∈ outerAccesses n j w h c, ∀ p ∈ row, InBuffer image.length p := by
  induction n with
  | zero =>
    intro image j w h c
    simp [flipOuterLoop, outerAccesses]
  | succ n ih =>
    intro image j w h c
    rw [flipOuterLoop, outerAccesses]
    cases hr : flipRowLoop (wrapInt (w * c)).toNat image (wrapInt (wrapInt (j * w) * c))
        (wrapInt (wrapInt (wrapInt (wrapInt (h - 1) - j) * w) * c)) with
    | none =>
      simp only [Option.isSome_none, Bool.false_eq_true, false_iff]
      intro hall
      have := (flipRowLoop_isSome_iff _ image _ _).mpr (hall _ (List.mem_cons_self _ _))
      rw [hr] at this
      simp at this
    | some image1 =>
      have hlen := flipRowLoop_length _ image image1 _ _ hr
      have hrow := (flipRowLoop_isSome_iff (wrapInt (w * c)).toNat image
        (wrapInt (wrapInt (j * w) * c))
        (wrapInt (wrapInt (wrapInt (wrapInt (h - 1) - j) * w) * c))).mp (by rw [hr]; rfl)
      simp only
      rw [ih image1, hlen]
      constructor
      · intro hall row hrowmem
        rcases List.mem_cons.mp hrowmem with rfl | hrowmem
        · exact hrow
        · exact hall row hrowmem
      · intro hall row hrowmem
        exact hall row (List.mem_cons_of_mem _ hrowmem)

theorem flipImageVertically_isSome_iff (image : List Byte) (width height channels : Int) :
    (flipImageVertically image width height channels).isSome = true ↔
      ∀ row ∈ flipImageVerticallyAccesses width height channels, ∀ p ∈ row,
        InBuffer image.length p :=
  flipOuterLoop_isSome_iff _ image 0 width height channels

theorem rowAccesses_length (n : Nat) : ∀ a b : Int, (rowAccesses n a b).length = n := by
  induction n with
  | zero => intro a b; rfl
  | succ n ih => intro a b; simp [rowAccesses, ih]

theorem outerAccesses_length (n : Nat) : ∀ j w h c : Int,
    (outerAccesses n j w h c).length = n := by
  induction n with
  | zero => intro j w h c; rfl
  | succ n ih => intro j w h c; simp [outerAccesses, ih]

theorem rowAccesses_mem (n : Nat) : ∀ a b : Nat, a + n ≤ 2147483647 → b + n ≤ 2147483647 →
    ∀ p ∈ rowAccesses n a b,
      ∃ k, k < n ∧ p = (((a + k : Nat) : Int), ((b + k : Nat) : Int)) := by
  induction n with
  | zero => intro a b _ _ p hp; simp [rowAccesses] at hp
  | succ n ih =>
    intro a b ha hb p hp
    rw [rowAccesses] at hp
    rcases List.mem_cons.mp hp with rfl | hp
    · exact ⟨0, by omega, rfl⟩
    · have hw1 : wrapInt ((a : Int) + 1) = ((a + 1 : Nat) : Int) := by
        rw [wrapInt_of_range] <;> push_cast <;> omega
      have hw2 : wrapInt ((b : Int) + 1) = ((b + 1 : Nat) : Int) := by
        rw [wrapInt_of_range] <;> push_cast <;> omega
      rw [hw1, hw2] at hp
      obtain ⟨k, hk, rfl⟩ := ih (a + 1) (b + 1) (by omega) (by omega) p hp
      refine ⟨k + 1, by omega, ?_⟩
      have e1 : a + 1 + k = a + (k + 1) := by omega
      have e2 : b + 1 + k = b + (k + 1) := by omega
      rw [e1, e2]

theorem outerAccesses_empty_rows (w h c : Int) (hW : (wrapInt (w * c)).toNat = 0) (n : Nat) :
    ∀ j : Int, ∀ row ∈ outerAccesses n j w h c, row = [] := by
  induction n with
  | zero => intro j row hrow; simp [outerAccesses] at hrow
  | succ n ih =>
    intro j row hrow
    rw [outerAccesses] at hrow
    simp only [hW, rowAccesses] at hrow
    rcases List.mem_cons.mp hrow with rfl | hrow
    · rfl
    · exact ih _ row hrow

theorem outerAccesses_mem (w h c : Nat) (hW : 0 < w * c)
    (hmax : h * (w * c) ≤ 2147483647) (n : Nat) :
    ∀ j : Nat, j + n ≤ h / 2 → ∀ row ∈ outerAccesses n j w h c,
      ∃ r, j ≤ r ∧ r < j + n ∧
        row = rowAccesses (w * c) ((r * (w * c) : Nat) : Int)
          (((h - 1 - r) * (w * c) : Nat) : Int) := by
  have hc : 0 < c := Nat.pos_of_ne_zero (fun h0 => by simp [h0] at hW)
  induction n with
  | zero => intro j _ row hrow; simp [outerAccesses] at hrow
  | succ n ih =>
    intro j hj row hrow
    have hh : h ≤ 2147483647 := by
      have := Nat.le_mul_of_pos_right h hW
      omega
    have hrowmax : w * c ≤ 2147483647 := by
      have : 1 * (w * c) ≤ h * (w * c) := row_le (by omega)
      omega
    have i1 := index1_eq j w c hc (by
      have : j * (w * c) ≤ h * (w * c) := row_le (by omega)
      omega)
    have i2 := index2_eq j w h c hc (by omega) hh (by
      have : (h - 1 - j) * (w * c) ≤ h * (w * c) := row_le (by omega)
      omega)
    have hw : wrapInt ((j : Int) + 1) = ((j + 1 : Nat) : Int) := by
      rw [wrapInt_of_range] <;> push_cast <;> omega
    rw [outerAccesses] at hrow
    simp only [i1, i2, count_eq w c hrowmax, hw] at hrow
    rcases List.mem_cons.mp hrow with hrow | hrow
    · exact ⟨j, le_refl _, Nat.lt_add_of_pos_right (Nat.succ_pos n), hrow⟩
    · have hj' : j + 1 + n ≤ h / 2 := by rw [Nat.add_right_comm]; exact hj
      obtain ⟨r, hr1, hr2, hr3⟩ := ih (j + 1) hj' row hrow
      exact ⟨r, Nat.le_of_succ_le hr1, by rw [Nat.add_right_comm] at hr2; exact hr2, hr3⟩

/-- C24, as stated, fails: for width 65536, height 32770 and one channel, a buffer of
2147614720 bytes, the first access of the first row swap is at `index2 = -2147418112`
(the product `32769 * 65536` does not fit an `int`), outside the buffer; the
bounds-checked model fails on every buffer. -/
theorem flipImageVertically_index_overflow :
    (flipImageVerticallyAccesses 65536 32770 1).head?.bind List.head?
      = some (0, -2147418112) ∧
    ¬ InBuffer (65536 * 32770 * 1) (0, -2147418112) ∧
    (∀ image : List Byte, flipImageVertically image 65536 32770 1 = none) ∧
    ((65536 * 32770 * 1 : Nat) : Int) = 2147614720 ∧ (2147614720 : Int) > INT_MAX := by
  have e1 : (Int.tdiv (32770 : Int) 2).toNat = 16384 + 1 := by decide
  have e2 : (wrapInt ((65536 : Int) * 1)).toNat = 65535 + 1 := by decide
  have e3 : wrapInt (wrapInt (wrapInt (wrapInt ((32770 : Int) - 1) - 0) * 65536) * 1)
      = -2147418112 := by decide
  have e4 : wrapInt (wrapInt ((0 : Int) * 65536) * 1) = 0 := by decide
  have h1 : (flipImageVerticallyAccesses 65536 32770 1).head?.bind List.head?
      = some (0, -2147418112) := by
    unfold flipImageVerticallyAccesses
    rw [e1, outerAccesses]
    simp only [e2, e3, e4]
    rw [rowAccesses]
    rfl
  refine ⟨h1, by decide, fun image => ?_, by decide, by decide⟩
  cases hf : flipImageVertically image 65536 32770 1 with
  | none => rfl
  | some out =>
    exfalso
    have hall := (flipImageVertically_isSome_iff image 65536 32770 1).mp (by rw [hf]; rfl)
    cases hA : flipImageVerticallyAccesses 65536 32770 1 with
    | nil => rw [hA] at h1; simp at h1
    | cons row rest =>
      rw [hA] at h1 hall
      cases hrow : row with
      | nil => rw [hrow] at h1; simp at h1
      | cons p ps =>
        rw [hrow] at h1
        simp only [List.head?_cons, Option.some_bind, Option.some.injEq] at h1
        have hp := hall row (List.mem_cons_self _ _) p (by rw [hrow]; exact List.mem_cons_self _ _)
        rw [h1] at hp
        exact absurd hp.2.2.1 (by decide)

/-- C24, amended: for a buffer of `width * height * channels` bytes whose byte count is an
`int` value, `flipImageVertically` returns normally (and in general it returns normally
exactly when every index pair of its accesses lies inside the buffer); every index it
accesses lies in `[0, width * height * channels)`; within one row swap every `index1` is
below every `index2`, so the two rows do not overlap; there are exactly `height / 2` row
swaps, each of `width * channels` byte swaps. -/
theorem flipImageVertically_accesses_in_buffer (image : List Byte)
    (width height channels : Nat)
    (hlen : image.length = width * height * channels)
    (hint : ((width * height * channels : Nat) : Int) ≤ INT_MAX) :
    (∃ out, flipImageVertically image width height channels = some out ∧
      out.length = image.length) ∧
    (∀ buffer : List Byte, (flipImageVertically buffer width height channels).isSome = true ↔
      ∀ row ∈ flipImageVerticallyAccesses width height channels, ∀ p ∈ row,
        InBuffer buffer.length p) ∧
    (∀ row ∈ flipImageVerticallyAccesses width height channels, ∀ p ∈ row,
      InBuffer (width * height * channels) p) ∧
    (∀ row ∈ flipImageVerticallyAccesses width height channels, ∀ p ∈ row, ∀ q ∈ row,
      p.1 < q.2) ∧
    (flipImageVerticallyAccesses width height channels).length = height / 2 ∧
    (∀ row ∈ flipImageVerticallyAccesses width height channels,
      row.length = width * channels) := by
  have hint' : width * height * channels ≤ 2147483647 := by
    unfold INT_MAX at hint; omega
  have hlen' : width * height * channels = height * (width * channels) := by ring
  have hfuel : (Int.tdiv (height : Int) 2).toNat = height / 2 := by
    rw [Int.tdiv_eq_ediv (by omega) (by omega)]
    omega
  obtain ⟨out, hrun, hl, _⟩ := flipImageVertically_spec image width height channels hlen hint'
  refine ⟨⟨out, hrun, hl⟩, fun buffer => flipImageVertically_isSome_iff buffer _ _ _, ?_⟩
  unfold flipImageVerticallyAccesses
  rw [hfuel]
  by_cases hW : width * channels = 0
  · have hW' : (wrapInt ((width : Int) * channels)).toNat = 0 := by
      have e1 : (width : Int) * channels = ((width * channels : Nat) : Int) := by
        push_cast; rfl
      rw [e1, hW]
      rfl
    have hempty := outerAccesses_empty_rows width height channels hW' (height / 2) 0
    refine ⟨fun row hrow p hp => ?_, fun row hrow p hp => ?_, outerAccesses_length _ _ _ _ _,
      fun row hrow => ?_⟩
    · rw [hempty row hrow] at hp; simp at hp
    · rw [hempty row hrow] at hp; simp at hp
    · rw [hempty row hrow, hW]; rfl
  · have hpos : 0 < width * channels := Nat.pos_of_ne_zero hW
    have hmem := outerAccesses_mem width height channels hpos (by omega) (height / 2) 0
      (by omega)
    have hpair : ∀ row ∈ outerAccesses (height / 2) ((0 : Nat) : Int) width height channels,
        ∀ p ∈ row, ∃ r k, 2 * r + 2 ≤ height ∧ k < width * channels ∧
          p = (((r * (width * channels) + k : Nat) : Int),
            (((height - 1 - r) * (width * channels) + k : Nat) : Int)) := by
      intro row hrow p hp
      obtain ⟨r, _, hr2, rfl⟩ := hmem row hrow
      have h1 : r * (width * channels) + width * channels ≤ height * (width * channels) := by
        have : (r + 1) * (width * channels) ≤ height * (width * channels) := row_le (by omega)
        rw [Nat.succ_mul] at this
        exact this
      have h2 : (height - 1 - r) * (width * channels) + width * channels
          ≤ height * (width * channels) := by
        have : (height - 1 - r + 1) * (width * channels) ≤ height * (width * channels) :=
          row_le (by omega)
        rw [Nat.succ_mul] at this
        exact this
      obtain ⟨k, hk, hpk⟩ := rowAccesses_mem (width * channels) _ _ (by omega) (by omega) p hp
      exact ⟨r, k, by omega, hk, hpk⟩
    refine ⟨fun row hrow p hp => ?_, fun row hrow p hp q hq => ?_,
      outerAccesses_length _ _ _ _ _, fun row hrow => ?_⟩
    · obtain ⟨r, k, hr, hk, rfl⟩ := hpair row hrow p hp
      have h1 : r * (width * channels) + k < height * (width * channels) :=
        row_lt (by omega) hk
      have h2 : (height - 1 - r) * (width * channels) + k < height * (width * channels) :=
        row_lt (by omega) hk
      rw [hlen']
      exact ⟨Int.natCast_nonneg _, Int.ofNat_lt.mpr h1, Int.natCast_nonneg _,
        Int.ofNat_lt.mpr h2⟩
    · obtain ⟨r, hr0, hr2, rfl⟩ := hmem row hrow
      have hb1 : r * (width * channels) + width * channels ≤ 2147483647 := by
        have : (r + 1) * (width * channels) ≤ height * (width * channels) := row_le (by omega)
        rw [Nat.succ_mul] at this
        omega
      have hb2 : (height - 1 - r) * (width * channels) + width * channels ≤ 2147483647 := by
        have : (height - 1 - r + 1) * (width * channels) ≤ height * (width * channels) :=
          row_le (by omega)
        rw [Nat.succ_mul] at this
        omega
      obtain ⟨k, hk, rfl⟩ := rowAccesses_mem (width * channels) _ _ hb1 hb2 p hp
      obtain ⟨k', hk', rfl⟩ := rowAccesses_mem (width * channels) _ _ hb1 hb2 q hq
      have hrows : (r + 1) * (width * channels) ≤ (height - 1 - r) * (width * channels) :=
        row_le (by omega)
      rw [Nat.succ_mul] at hrows
      show ((r * (width * channels) + k : Nat) : Int)
        < (((height - 1 - r) * (width * channels) + k' : Nat) : Int)
      exact_mod_cast (by omega : r * (width * channels) + k
        < (height - 1 - r) * (width * channels) + k')
    · obtain ⟨r, _, _, rfl⟩ := hmem row hrow
      exact rowAccesses_length _ _ _

/-- Witness of the amended C24 on a 2-by-3 single-channel image: one row swap of two byte
swaps. -/
theorem flipImageVertically_accesses_in_buffer_witness :
    ((∃ out, flipImageVertically [1, 2, 3, 4, 5, 6] ((2 : Nat) : Int) ((3 : Nat) : Int)
        ((1 : Nat) : Int) = some out ∧ out.length = [(1 : Byte), 2, 3, 4, 5, 6].length) ∧
      (∀ buffer : List Byte, (flipImageVertically buffer ((2 : Nat) : Int) ((3 : Nat) : Int)
          ((1 : Nat) : Int)).isSome = true ↔
        ∀ row ∈ flipImageVerticallyAccesses ((2 : Nat) : Int) ((3 : Nat) : Int)
            ((1 : Nat) : Int), ∀ p ∈ row, InBuffer buffer.length p) ∧
      (∀ row ∈ flipImageVerticallyAccesses ((2 : Nat) : Int) ((3 : Nat) : Int)
          ((1 : Nat) : Int), ∀ p ∈ row, InBuffer (2 * 3 * 1) p) ∧
      (∀ row ∈ flipImageVerticallyAccesses ((2 : Nat) : Int) ((3 : Nat) : Int)
          ((1 : Nat) : Int), ∀ p ∈ row, ∀ q ∈ row, p.1 < q.2) ∧
      (flipImageVerticallyAccesses ((2 : Nat) : Int) ((3 : Nat) : Int)
          ((1 : Nat) : Int)).length = 3 / 2 ∧
      (∀ row ∈ flipImageVerticallyAccesses ((2 : Nat) : Int) ((3 : Nat) : Int)
          ((1 : Nat) : Int), row.length = 2 * 1)) ∧
    flipImageVerticallyAccesses 2 3 1 = [[(0, 4), (1, 5)]] :=
  ⟨flipImageVertically_accesses_in_buffer [1, 2, 3, 4, 5, 6] 2 3 1 (by decide) (by decide),
    by decide⟩

/-! ## Theorems: flipImageVertically beyond the range of int -/

theorem flipImageVertically_overflow_none (image : List Byte) :
    flipImageVertically image 65536 32770 1 = none := by
  have e1 : (Int.tdiv (32770 : Int) 2).toNat = 16384 + 1 := by decide
  have e2 : (wrapInt ((65536 : Int) * 1)).toNat = 65535 + 1 := by decide
  have e3 : wrapInt (wrapInt (wrapInt (wrapInt ((32770 : Int) - 1) - 0) * 65536) * 1)
      = -2147418112 := by decide
  have e4 : wrapInt (wrapInt ((0 : Int) * 65536) * 1) = 0 := by decide
  have hs : swapBytes image 0 (-2147418112) = none := by
    unfold swapBytes
    rw [if_pos (Or.inr (by decide))]
  unfold flipImageVertically
  rw [e1, flipOuterLoop]
  simp only [e2, e3, e4]
  rw [flipRowLoop, hs]

/-- C1, as stated, fails: for width 65536, height 32770 and one channel, on a buffer of
`65536 * 32770 * 1 = 2147614720` bytes the first access is at `index2 = -2147418112`
(`32769 * 65536` does not fit an `int`), so there is no result of the first application,
and no pair of applications that gives the buffer back. -/
theorem flipImageVertically_involution_overflow :
    (List.replicate 2147614720 (0 : Byte)).length = 65536 * 32770 * 1 ∧
    flipImageVertically (List.replicate 2147614720 0) 65536 32770 1 = none ∧
    ¬ ∃ out, flipImageVertically (List.replicate 2147614720 0) 65536 32770 1 = some out ∧
        flipImageVertically out 65536 32770 1 = some (List.replicate 2147614720 0) := by
  refine ⟨by rw [List.length_replicate], flipImageVertically_overflow_none _, ?_⟩
  rintro ⟨out, h, _⟩
  rw [flipImageVertically_overflow_none] at h
  cases h

/-- C2, as stated, fails: for width 65536, height 32770 and one channel, on a buffer of
`65536 * 32770 * 1 = 2147614720` bytes the function leaves the buffer at its first access
(`index2 = -2147418112`), so there is no result whose rows are the input's rows in
reverse order. -/
theorem flipImageVertically_reverses_rows_overflow :
    (List.replicate 2147614720 (0 : Byte)).length = 65536 * 32770 * 1 ∧
    ¬ ∃ out, flipImageVertically (List.replicate 2147614720 0) 65536 32770 1 = some out ∧
        ∀ r k, r < 32770 → k < 65536 * 1 →
          out[r * (65536 * 1) + k]?
            = (List.replicate 2147614720 (0 : Byte))[(32770 - 1 - r) * (65536 * 1) + k]? := by
  refine ⟨by rw [List.length_replicate], ?_⟩
  rintro ⟨out, h, _⟩
  rw [flipImageVertically_overflow_none] at h
  cases h

/-! ## Theorems: round trips of the UV scale -/

theorem uvUndoneAfter_chunk1 :
    uvUndoneAfter 177 (F32.ofScaled (-4246729) 19) = some (F32.ofScaled (-6763331) 18) := by
  decide!

theorem uvUndoneAfter_chunk2 :
    uvUndoneAfter 177 (F32.ofScaled (-6763331) 18) = some (F32.ofScaled (-1425405) 15) := by
  decide!

theorem uvUndoneAfter_chunk3 :
    uvUndoneAfter 177 (F32.ofScaled (-1425405) 15) = some (F32.ofScaled (-8021559) 17) := by
  decide!

theorem uvUndoneAfter_chunk4 :
    uvUndoneAfter 177 (F32.ofScaled (-8021559) 17) = some (F32.ofScaled (-5170749) 16) := by
  decide!

theorem uvUndoneAfter_chunk5 :
    uvUndoneAfter 177 (F32.ofScaled (-5170749) 16) = some (F32.ofScaled (-12661437) 17) := by
  decide!

theorem uvUndoneAfter_chunk6 :
    uvUndoneAfter 177 (F32.ofScaled (-12661437) 17) = some (F32.ofScaled (-58521) 9) := by
  decide!

theorem uvUndoneAfter_chunk7 :
    uvUndoneAfter 177 (F32.ofScaled (-58521) 9) = some (F32.ofScaled (-8650677) 16) := by
  decide!

theorem uvUndoneAfter_chunk8 :
    uvUndoneAfter 177 (F32.ofScaled (-8650677) 16) = some (F32.ofScaled (-9810735) 16) := by
  decide!

theorem uvUndoneAfter_chunk9 :
    uvUndoneAfter 177 (F32.ofScaled (-9810735) 16) = some (F32.ofScaled (-10970793) 16) := by
  decide!

theorem uvUndoneAfter_chunk10 :
    uvUndoneAfter 177 (F32.ofScaled (-10970793) 16) = some (F32.ofScaled (-12130851) 16) := by
  decide!

theorem uvUndoneAfter_chunk11 :
    uvUndoneAfter 177 (F32.ofScaled (-12130851) 16) = some (F32.ofScaled (-13290909) 16) := by
  decide!

theorem uvUndoneAfter_chunk12 :
    uvUndoneAfter 177 (F32.ofScaled (-13290909) 16) = some (F32.ofScaled (-14450967) 16) := by
  decide!

theorem uvUndoneAfter_chunk13 :
    uvUndoneAfter 177 (F32.ofScaled (-14450967) 16) = some (F32.ofScaled (-15611025) 16) := by
  decide!

theorem uvUndoneAfter_chunk14 :
    uvUndoneAfter 177 (F32.ofScaled (-15611025) 16) = some (F32.ofScaled (-16771083) 16) := by
  decide!

theorem uvIncrement_chunk1 :
    (fun x : F32 => x.add F32.tenth)^[290] (F32.ofScaled (-4194409) 14) = (F32.ofScaled (-929811) 12) := by
  decide!

theorem uvIncrement_chunk2 :
    (fun x : F32 => x.add F32.tenth)^[290] (F32.ofScaled (-929811) 12) = (F32.ofScaled (-3244079) 14) := by
  decide!

theorem uvIncrement_chunk3 :
    (fun x : F32 => x.add F32.tenth)^[290] (F32.ofScaled (-3244079) 14) = (F32.ofScaled (-1384457) 13) := by
  decide!

theorem uvIncrement_chunk4 :
    (fun x : F32 => x.add F32.tenth)^[290] (F32.ofScaled (-1384457) 13) = (F32.ofScaled (-2293749) 14) := by
  decide!

theorem uvIncrement_chunk5 :
    (fun x : F32 => x.add F32.tenth)^[290] (F32.ofScaled (-2293749) 14) = (F32.ofScaled (-14548843) 17) := by
  decide!

theorem uvIncrement_chunk6 :
    (fun x : F32 => x.add F32.tenth)^[290] (F32.ofScaled (-14548843) 17) = (F32.ofScaled (-10747813) 17) := by
  decide!

theorem uvIncrement_chunk7 :
    (fun x : F32 => x.add F32.tenth)^[290] (F32.ofScaled (-10747813) 17) = (F32.ofScaled (-6946783) 17) := by
  decide!

theorem uvIncrement_chunk8 :
    (fun x : F32 => x.add F32.tenth)^[290] (F32.ofScaled (-6946783) 17) = (F32.ofScaled (-3145733) 17) := by
  decide!

theorem uvIncrement_chunk9 :
    (fun x : F32 => x.add F32.tenth)^[290] (F32.ofScaled (-3145733) 17) = (F32.ofScaled (10485791) 21) := by
  decide!

theorem uvUndoneAfter_add (a b : Nat) : ∀ x : F32,
    uvUndoneAfter (a + b) x = (uvUndoneAfter a x).bind (uvUndoneAfter b) := by
  induction a with
  | zero => intro x; rw [Nat.zero_add]; rfl
  | succ a ih =>
    intro x
    rw [Nat.add_right_comm, uvUndoneAfter, uvUndoneAfter]
    split_ifs
    · exact ih _
    · rfl

theorem uvUndoneAfter_spec (n : Nat) : ∀ x y : F32, uvUndoneAfter n x = some y →
    (fun x : F32 => x.sub F32.tenth)^[n] x = y ∧
    ∀ i, i < n →
      (((fun x : F32 => x.sub F32.tenth)^[i] x).sub F32.tenth).add F32.tenth
        = (fun x : F32 => x.sub F32.tenth)^[i] x := by
  induction n with
  | zero =>
    intro x y h
    simp only [uvUndoneAfter, Option.some.injEq] at h
    exact ⟨h, fun i hi => absurd hi (Nat.not_lt_zero i)⟩
  | succ n ih =>
    intro x y h
    rw [uvUndoneAfter] at h
    split_ifs at h with hc
    obtain ⟨h1, h2⟩ := ih _ y h
    refine ⟨by rw [Function.iterate_succ_apply]; exact h1, fun i hi => ?_⟩
    cases i with
    | zero => exact hc
    | succ i =>
      rw [Function.iterate_succ_apply]
      exact h2 i (Nat.lt_of_succ_lt_succ hi)

theorem uvUndoneAfter_2478 :
    uvUndoneAfter 2478 (F32.ofScaled (-4246729) 19) = some (F32.ofScaled (-16771083) 16) := by
  show uvUndoneAfter (177 + (177 + (177 + (177 + (177 + (177 + (177 + (177 + (177 + (177 +
    (177 + (177 + (177 + 177))))))))))))) _ = _
  rw [uvUndoneAfter_add, uvUndoneAfter_chunk1, Option.some_bind,
    uvUndoneAfter_add, uvUndoneAfter_chunk2, Option.some_bind,
    uvUndoneAfter_add, uvUndoneAfter_chunk3, Option.some_bind,
    uvUndoneAfter_add, uvUndoneAfter_chunk4, Option.some_bind,
    uvUndoneAfter_add, uvUndoneAfter_chunk5, Option.some_bind,
    uvUndoneAfter_add, uvUndoneAfter_chunk6, Option.some_bind,
    uvUndoneAfter_add, uvUndoneAfter_chunk7, Option.some_bind,
    uvUndoneAfter_add, uvUndoneAfter_chunk8, Option.some_bind,
    uvUndoneAfter_add, uvUndoneAfter_chunk9, Option.some_bind,
    uvUndoneAfter_add, uvUndoneAfter_chunk10, Option.some_bind,
    uvUndoneAfter_add, uvUndoneAfter_chunk11, Option.some_bind,
    uvUndoneAfter_add, uvUndoneAfter_chunk12, Option.some_bind,
    uvUndoneAfter_add, uvUndoneAfter_chunk13, Option.some_bind,
    uvUndoneAfter_chunk14]

theorem uvIncrement_2610 :
    (fun x : F32 => x.add F32.tenth)^[2610] (F32.ofScaled (-4194409) 14)
      = F32.ofScaled 10485791 21 := by
  show (fun x : F32 => x.add F32.tenth)^[290 + 290 + 290 + 290 + 290 + 290 + 290 + 290 + 290]
    _ = _
  rw [Function.iterate_add_apply, uvIncrement_chunk1,
    Function.iterate_add_apply, uvIncrement_chunk2,
    Function.iterate_add_apply, uvIncrement_chunk3,
    Function.iterate_add_apply, uvIncrement_chunk4,
    Function.iterate_add_apply, uvIncrement_chunk5,
    Function.iterate_add_apply, uvIncrement_chunk6,
    Function.iterate_add_apply, uvIncrement_chunk7,
    Function.iterate_add_apply, uvIncrement_chunk8,
    uvIncrement_chunk9]

theorem tenth_decrements_131 :
    (fun x : F32 => x.sub F32.tenth)^[131] F32.five = F32.ofScaled (-4246729) 19 := by
  decide!

theorem tenth_roundtrip_131 :
    (fun x : F32 => x.add F32.tenth)^[131] ((fun x : F32 => x.sub F32.tenth)^[131] F32.five)
      = F32.ofScaled 10485759 21 := by
  decide!

theorem tenth_roundtrip_step (n : Nat)
    (h : (((fun x : F32 => x.sub F32.tenth)^[n] F32.five).sub F32.tenth).add F32.tenth
      = (fun x : F32 => x.sub F32.tenth)^[n] F32.five) :
    (fun x : F32 => x.add F32.tenth)^[n + 1]
        ((fun x : F32 => x.sub F32.tenth)^[n + 1] F32.five)
      = (fun x : F32 => x.add F32.tenth)^[n]
        ((fun x : F32 => x.sub F32.tenth)^[n] F32.five) := by
  rw [Function.iterate_succ_apply, Function.iterate_succ_apply' (fun x : F32 => x.sub F32.tenth)]
  exact congrArg _ h

theorem tenth_roundtrip_near : ∀ n, 131 ≤ n → n ≤ 2609 →
    (fun x : F32 => x.add F32.tenth)^[n] ((fun x : F32 => x.sub F32.tenth)^[n] F32.five)
      = F32.ofScaled 10485759 21 := by
  have hund := (uvUndoneAfter_spec 2478 _ _ uvUndoneAfter_2478).2
  intro n hn
  induction n, hn using Nat.le_induction with
  | base => intro _; exact tenth_roundtrip_131
  | succ n hn ih =>
    intro hle
    rw [tenth_roundtrip_step n ?_]
    · exact ih (Nat.le_of_succ_le hle)
    · have e : (fun x : F32 => x.sub F32.tenth)^[n] F32.five
          = (fun x : F32 => x.sub F32.tenth)^[n - 131] (F32.ofScaled (-4246729) 19) := by
        rw [← tenth_decrements_131, ← Function.iterate_add_apply, Nat.sub_add_cancel hn]
      rw [e]
      exact hund (n - 131) (by omega)

theorem tenth_roundtrip_2610 :
    (fun x : F32 => x.add F32.tenth)^[2610] ((fun x : F32 => x.sub F32.tenth)^[2610] F32.five)
      = F32.ofScaled 10485791 21 := by
  have h1 : (fun x : F32 => x.sub F32.tenth)^[2610] F32.five
      = F32.ofScaled (-4194409) 14 := by
    show (fun x : F32 => x.sub F32.tenth)^[2478 + 1 + 131] F32.five = _
    rw [Function.iterate_add_apply, tenth_decrements_131, Function.iterate_succ_apply',
      (uvUndoneAfter_spec 2478 _ _ uvUndoneAfter_2478).1]
    decide!
  rw [h1, uvIncrement_2610]

/-- C9, as stated, fails even within the tolerance of `1e-5`: from the scale (5, 5), 2610
frames with `[` held followed by 2610 frames with `]` held leave both components at
`10485791 * 2 ^ -21`, which is `31 * 2 ^ -21`, about `1.48e-5`, above 5. -/
theorem uvScale_roundtrip_exceeds_tolerance :
    (holdKeys (pressed [.RIGHT_BRACKET]) 2610
        (holdKeys (pressed [.LEFT_BRACKET]) 2610 (initialGlobals 1 2))).gUVScale
      = (F32.ofScaled 10485791 21, F32.ofScaled 10485791 21) ∧
    (F32.ofScaled 10485791 21).toRat - F32.five.toRat = 31 / 2 ^ 21 ∧
    (1 : ℚ) / 100000 < 31 / 2 ^ 21 := by
  refine ⟨?_, ?_, by norm_num⟩
  · have hstart : (initialGlobals 1 2).gUVScale = (F32.five, F32.five) := rfl
    rw [holdKeys_uvScale, holdKeys_uvScale, hstart,
      uvScaleKeys_increment (pressed [.RIGHT_BRACKET]) (by decide),
      uvScaleKeys_decrement (pressed [.LEFT_BRACKET]) (by decide) (by decide),
      iterate_both (fun x => x.sub F32.tenth), iterate_both (fun x => x.add F32.tenth),
      tenth_roundtrip_2610]
  · rw [F32.toRat_ofScaled _ _ (by decide), F32.five, F32.toRat_ofScaled _ _ (by decide)]
    norm_num

/-- C9, amended: a frame with `]` pressed adds `0.1f` to both components of the UV scale
in `float` arithmetic, a frame with `[` but not `]` pressed subtracts `0.1f` from both,
nothing clamps the result (51 decrements from (5, 5) give a negative scale), and from
(5, 5) any `n ≤ 2609` decrement frames followed by `n` increment frames return the scale
to (5, 5) within `1e-5`: exactly for `n ≤ 130`, ten in particular, and to
`5 - 2 ^ -21` in both components for `131 ≤ n ≤ 2609`. -/
theorem uvScale_additive_unclamped (keys dec inc : Key → Bool) (g start : Globals) (n : Nat)
    (hstart : start.gUVScale = (F32.five, F32.five)) (hn : n ≤ 2609)
    (hdec : dec .RIGHT_BRACKET = false ∧ dec .LEFT_BRACKET = true)
    (hinc : inc .RIGHT_BRACKET = true) :
    (keys .RIGHT_BRACKET = true → (UProcessInput keys g).1.gUVScale =
      (g.gUVScale.1.add F32.tenth, g.gUVScale.2.add F32.tenth)) ∧
    (keys .RIGHT_BRACKET = false → keys .LEFT_BRACKET = true →
      (UProcessInput keys g).1.gUVScale =
        (g.gUVScale.1.sub F32.tenth, g.gUVScale.2.sub F32.tenth)) ∧
    (∃ v : Int, v < 0 ∧ (holdKeys dec 51 start).gUVScale = (.finite v, .finite v)) ∧
    (holdKeys inc 10 (holdKeys dec 10 start)).gUVScale = (F32.five, F32.five) ∧
    (n ≤ 130 → (holdKeys inc n (holdKeys dec n start)).gUVScale = (F32.five, F32.five)) ∧
    (131 ≤ n → (holdKeys inc n (holdKeys dec n start)).gUVScale
      = (F32.ofScaled 10485759 21, F32.ofScaled 10485759 21)) ∧
    (∃ v : F32, (holdKeys inc n (holdKeys dec n start)).gUVScale = (v, v) ∧
      |v.toRat - F32.five.toRat| ≤ 1 / 100000) := by
  have hiter : ∀ m, (holdKeys inc m (holdKeys dec m start)).gUVScale
      = ((fun x : F32 => x.add F32.tenth)^[m]
            ((fun x : F32 => x.sub F32.tenth)^[m] F32.five),
          (fun x : F32 => x.add F32.tenth)^[m]
            ((fun x : F32 => x.sub F32.tenth)^[m] F32.five)) := by
    intro m
    rw [holdKeys_uvScale, holdKeys_uvScale, hstart, uvScaleKeys_increment inc hinc,
      uvScaleKeys_decrement dec hdec.1 hdec.2, iterate_both (fun x => x.sub F32.tenth),
      iterate_both (fun x => x.add F32.tenth)]
  have hexact : ∀ m, m ≤ 130 →
      (holdKeys inc m (holdKeys dec m start)).gUVScale = (F32.five, F32.five) := by
    intro m hm
    rw [hiter, tenth_roundtrip_exact m hm]
  have hnear : 131 ≤ n → (holdKeys inc n (holdKeys dec n start)).gUVScale
      = (F32.ofScaled 10485759 21, F32.ofScaled 10485759 21) := by
    intro h131
    rw [hiter, tenth_roundtrip_near n h131 hn]
  have e5 : F32.five.toRat = 5 := by
    rw [F32.five, F32.toRat_ofScaled _ _ (by decide)]
    norm_num
  refine ⟨fun h => ?_, fun h h' => ?_, ?_, hexact 10 (by omega), hexact n, hnear, ?_⟩
  · rw [UProcessInput_uvScale, uvScaleKeys_increment keys h]
  · rw [UProcessInput_uvScale, uvScaleKeys_decrement keys h h']
  · refine ⟨-13421435 * 2 ^ 122, by decide!, ?_⟩
    rw [holdKeys_uvScale, hstart, uvScaleKeys_decrement dec hdec.1 hdec.2,
      iterate_both (fun x => x.sub F32.tenth)]
    have e : (fun x : F32 => x.sub F32.tenth)^[51] F32.five
        = F32.finite (-13421435 * 2 ^ 122) := by decide!
    rw [e]
  · by_cases h130 : n ≤ 130
    · refine ⟨F32.five, hexact n h130, ?_⟩
      rw [sub_self, abs_zero]
      norm_num
    · refine ⟨F32.ofScaled 10485759 21, hnear (by omega), ?_⟩
      rw [e5, F32.toRat_ofScaled _ _ (by decide), abs_le]
      constructor <;> norm_num

/-- Witness of the amended C9: 2609 `[` frames, then 2609 `]` frames, from the startup state
leave both components at `5 - 2 ^ -21`. -/
theorem uvScale_additive_unclamped_witness :
    (holdKeys (pressed [.RIGHT_BRACKET]) 2609
        (holdKeys (pressed [.LEFT_BRACKET]) 2609 (initialGlobals 1 2))).gUVScale
      = (F32.ofScaled 10485759 21, F32.ofScaled 10485759 21) :=
  (uvScale_additive_unclamped (pressed []) (pressed [.LEFT_BRACKET]) (pressed [.RIGHT_BRACKET])
    (initialGlobals 1 2) (initialGlobals 1 2) 2609 rfl (by decide) (by decide)
    (by decide)).2.2.2.2.2.1 (by decide)

end My3DScene
